import Mathlib

/-!
Shallow embedding of the black_rabbit murder-mystery generator and its
panel-puzzle engine, together with proofs of the specified properties.

Modelling conventions, used throughout:

* JavaScript numbers are modelled by `ℚ` (for raw pseudo-random draws and
  sentiments) and by `Nat`/`Int` where the source only ever holds integers.
* The seeded PRNG (the `seedrandom` library) is treated as an abstract
  stream of values in `[0,1)`: every generator is parametrised by a record
  `RngOps` providing the raw draw and the `Math.floor(r * m)` combination
  the source derives everything from.  Universal properties are proved for
  every valid stream, hence for every seed.
* Fallible code (JavaScript property access on `undefined`, the explicit
  `throw` for too few suspects, and the unbounded `while` loop drawing a
  killer index) is modelled in an option-state monad `Gen`; `none` means
  the original program crashed or diverged at that point.
* Branded string identifiers (`suspect-0`, `clue-3`, `location-1`, ...)
  are modelled by their numeric index: the renaming is injective and the
  source only ever compares identifiers for equality.
* Free-form prose fields (descriptions, flavour text) are kept as `String`
  values; their content is never branched on by any property proved here,
  but the pseudo-random draws the source spends choosing between phrasing
  variants are reproduced exactly so the stream stays aligned.
-/

namespace BlackRabbit

/-! ## The seeded random source (src/generation/random.ts)

`RngOps σ` abstracts the `seedrandom`-backed `RandomSource`: `random` is a
raw draw (a float in `[0,1)` together with the advanced generator state) and
`floorMul r m` is `Math.floor(r * m)` for a natural `m`.  `floorMul` is a
separate field because IEEE-754 evaluation of `r * m` may round; a valid
instance only has to keep the result inside `[0, m)`. -/

structure RngOps (σ : Type) where
  random : σ → ℚ × σ
  floorMul : ℚ → Nat → Nat

/-- Validity of an rng instance: draws lie in `[0,1)` and
`floorMul r m < m` whenever `0 ≤ r < 1` and `0 < m` (true both of exact
rational evaluation and of IEEE-754 double evaluation of
`Math.floor(r * m)`). -/
def RngOps.Valid {σ : Type} (ops : RngOps σ) : Prop :=
  (∀ s, 0 ≤ (ops.random s).1 ∧ (ops.random s).1 < 1) ∧
    (∀ r m, 0 ≤ r → r < 1 → 0 < m → ops.floorMul r m < m)

/-- The idealised instance used for universal theorems: the generator state
is an index into an arbitrary stream `f` of rationals and `floorMul` is the
exact `⌊r * m⌋`. -/
def streamOps (f : Nat → ℚ) : RngOps Nat where
  random n := (f n, n + 1)
  floorMul r m := (⌊r * m⌋).toNat

/-- A stream with all values in `[0,1)`. -/
def ValidStream (f : Nat → ℚ) : Prop := ∀ n, 0 ≤ f n ∧ f n < 1

/-! ## The option-state generation monad

`Gen σ α` threads the rng state and propagates failure (`none` = the
JavaScript program crashed or diverged). -/

def Gen (σ : Type) (α : Type) := σ → Option (α × σ)

instance : Monad (Gen σ) where
  pure a := fun s => some (a, s)
  bind m f := fun s => match m s with
    | none => none
    | some (a, s') => f a s'

/-- Lift a total state transformer (a draw that cannot fail). -/
def Gen.lift (f : σ → α × σ) : Gen σ α := fun s => some (f s)

/-- Model of a JavaScript property access on a possibly-`undefined` value:
fails when the value is absent. -/
def Gen.req (x : Option α) : Gen σ α := fun s => x.map (fun a => (a, s))

/-- Failure (a thrown exception). -/
def Gen.fail : Gen σ α := fun _ => none

/-! ## Derived draws (src/generation/random.ts)

Each helper consumes exactly the draws the source consumes. -/

variable {σ : Type}

/-- `randomInt(min, max)` = `Math.floor(rng() * (max - min + 1)) + min`.
The span is non-positive only on the degenerate call `randomInt(2, 1)`
(reachable with 3 suspects), where `r * 0 = 0` in the source. -/
def randomInt (ops : RngOps σ) (lo hi : Int) : Gen σ Int :=
  Gen.lift fun s =>
    let (r, s') := ops.random s
    let span : Int := hi - lo + 1
    if 0 ≤ span then (lo + ops.floorMul r span.toNat, s') else (lo + ⌊r * span⌋, s')

/-- `pick(array)` = `array[Math.floor(rng() * array.length)]`; yields
`none` (JavaScript `undefined`) on an empty array. -/
def pick (ops : RngOps σ) (l : List α) : Gen σ (Option α) :=
  Gen.lift fun s =>
    let (r, s') := ops.random s
    (l.get? (ops.floorMul r l.length), s')

/-- `pick` followed by a property access on the result. -/
def pickReq (ops : RngOps σ) (l : List α) : Gen σ α := do
  let o ← pick ops l
  Gen.req o

/-- One swap `[result[i], result[j]] = [result[j], result[i]]`.  Indices are
in range at every call site (the shuffle loop below); out-of-range indices
leave the list unchanged. -/
def listSwap (l : List α) (i j : Nat) : List α :=
  match l.get? i, l.get? j with
  | some a, some b => (l.set i b).set j a
  | _, _ => l

/-- The Fisher-Yates loop body, iterating `i` from `len - 1` down to `1`. -/
def shuffleGo (ops : RngOps σ) : Nat → List α → Gen σ (List α)
  | 0, res => pure res
  | i + 1, res => do
      let r ← Gen.lift ops.random
      let j := ops.floorMul r (i + 2)
      shuffleGo ops i (listSwap res (i + 1) j)

/-- `shuffle(array)`: copy, then Fisher-Yates with `j = Math.floor(rng() * (i+1))`. -/
def shuffle (ops : RngOps σ) (l : List α) : Gen σ (List α) :=
  shuffleGo ops (l.length - 1) l

/-! ## Domain model (src/domain)

Branded string identifiers are modelled by the numeric index they embed
(`suspect-3` ↦ `3`, and so on); the source compares them only for
equality, and the rendering is injective. -/

abbrev SuspectId := Nat
abbrev ClueId := Nat
abbrev LocationId := Nat

/-- src/domain/types.ts `PersonalityTraits`: four scalars in `[0,1]`. -/
structure PersonalityTraits where
  honesty : ℚ
  composure : ℚ
  aggression : ℚ
  observance : ℚ
deriving DecidableEq, Repr

/-- src/domain/types.ts `RelationshipType` (14 kinds, declaration order). -/
inductive RelationshipType
  | spouse | exSpouse | lover | exLover | sibling | parent | child | friend
  | rival | enemy | businessPartner | employee | employer | acquaintance
deriving DecidableEq, Repr

/-- src/domain/types.ts `MotiveType` (declaration order = `Object.values` order). -/
inductive MotiveType
  | jealousy | greed | revenge | fear | hatred | protection | ambition
deriving DecidableEq, Repr

/-- src/domain/types.ts `ClueType`. -/
inductive ClueType
  | physical | testimonial | documentary | behavioral | forensic
deriving DecidableEq, Repr

/-- src/domain/types.ts `WeaponType` (declaration order = `Object.values` order). -/
inductive WeaponType
  | poison | knife | blunt | firearm | strangulation | pushed
deriving DecidableEq, Repr

/-- src/domain/clue.ts `ClueSignificance`. -/
inductive ClueSignificance
  | minor | normal | critical
deriving DecidableEq, Repr

/-- src/domain/types.ts `TimeSlot`. -/
structure TimeSlot where
  hour : Int
  label : String
deriving DecidableEq, Repr

/-- src/domain/types.ts `createTimeSlot`. -/
def createTimeSlot (hour : Int) : TimeSlot :=
  { hour
    label := toString (if hour > 12 then hour - 12 else if hour = 0 then 12 else hour)
      ++ ":00 " ++ (if hour ≥ 12 then "PM" else "AM") }

/-- src/domain/suspect.ts `Suspect`.  `createSuspect` defaults the two
flags to `false` (`params.isVictim ?? false`), modelled by field defaults. -/
structure Suspect where
  id : SuspectId
  firstName : String
  lastName : String
  occupation : String
  age : Int
  description : String
  personality : PersonalityTraits
  isVictim : Bool := false
  isKiller : Bool := false
deriving DecidableEq, Repr

/-- src/domain/location.ts `Location`. -/
structure Location where
  id : LocationId
  name : String
  description : String
  isPublic : Bool
  isCrimeScene : Bool
deriving DecidableEq, Repr

/-- src/domain/relationship.ts `Relationship` (the source fields `from`
and `to` are Lean keywords, hence `fromId` / `toId`). -/
structure Relationship where
  fromId : SuspectId
  toId : SuspectId
  type : RelationshipType
  sentiment : Int
  isPublicKnowledge : Bool
  secretReason : Option String
deriving DecidableEq, Repr

/-- src/domain/relationship.ts `createRelationship`: clamps sentiment to
`[-10, 10]`; `isPublicKnowledge` defaults to `true` at absent argument
(every call site passes it explicitly). -/
def createRelationship (fromId toId : SuspectId) (type : RelationshipType)
    (sentiment : Int) (isPublicKnowledge : Bool)
    (secretReason : Option String) : Relationship :=
  { fromId, toId, type
    sentiment := max (-10) (min 10 sentiment)
    isPublicKnowledge, secretReason }

/-- src/domain/alibi.ts `Alibi`. -/
structure Alibi where
  suspectId : SuspectId
  timeSlot : TimeSlot
  location : LocationId
  description : String
  witnesses : List SuspectId
  isVerifiable : Bool
  isFalse : Bool
deriving DecidableEq, Repr

/-- src/domain/clue.ts `Clue`; `createClue` defaults `isRedHerring` to
`false` and `significance` to `normal`, modelled by field defaults. -/
structure Clue where
  id : ClueId
  type : ClueType
  name : String
  description : String
  foundAt : LocationId
  pointsTo : Option SuspectId := none
  isRedHerring : Bool := false
  refutedBy : Option ClueId := none
  significance : ClueSignificance := .normal
deriving DecidableEq, Repr

/-- src/domain/case.ts `Case`. -/
structure Case where
  seed : String
  suspects : List Suspect
  relationships : List Relationship
  locations : List Location
  clues : List Clue
  alibis : List Alibi
  victim : SuspectId
  killer : SuspectId
  motive : MotiveType
  weapon : WeaponType
  crimeScene : LocationId
  timeOfDeath : TimeSlot
deriving DecidableEq, Repr

/-- src/domain/case.ts `getCluesPointingTo`. -/
def getCluesPointingTo (caseData : Case) (suspectId : SuspectId) : List Clue :=
  caseData.clues.filter (fun c => c.pointsTo = some suspectId)

/-- src/domain/case.ts `isCaseSolvable`: at least one clue pointing to the
killer (red herrings included — the red-herring flag is not consulted). -/
def isCaseSolvable (caseData : Case) : Bool :=
  (getCluesPointingTo caseData caseData.killer).length > 0

/-! ## Static data pools (src/data)

Prose is reproduced with apostrophes elided (our toolchain rejects them
outside names); no property proved below ever branches on prose content.
Pool sizes and the `isPublic` flags are exact: they drive how many
pseudo-random draws each shuffle consumes and which locations are private. -/

structure LocationTemplate where
  name : String
  description : String
  isPublic : Bool
deriving DecidableEq, Repr

/-- src/data/locations.ts `manorLocations`: 7 private rooms followed by
12 public rooms (19 templates, source order). -/
def manorLocations : List LocationTemplate :=
  [⟨"Study", "A wood-paneled room lined with leather-bound books.", false⟩,
   ⟨"Master Bedroom", "An opulent bedroom with a four-poster bed and heavy curtains.", false⟩,
   ⟨"Guest Bedroom", "A comfortable but less ornate sleeping quarters for visitors.", false⟩,
   ⟨"Kitchen", "A large kitchen with copper pots hanging from the ceiling.", false⟩,
   ⟨"Wine Cellar", "A cool underground room with racks of vintage bottles.", false⟩,
   ⟨"Servants Quarters", "Simple rooms behind the kitchen where the staff resides.", false⟩,
   ⟨"Attic", "A dusty space beneath the rafters, filled with forgotten trunks.", false⟩,
   ⟨"Parlor", "An elegant sitting room with velvet furniture and a crackling fireplace.", true⟩,
   ⟨"Dining Room", "A grand dining room with a long mahogany table set with fine china.", true⟩,
   ⟨"Library", "Floor-to-ceiling bookshelves surround comfortable reading chairs.", true⟩,
   ⟨"Conservatory", "A glass-walled room filled with exotic plants and humid air.", true⟩,
   ⟨"Billiard Room", "A masculine retreat with a green-felted table and trophy heads.", true⟩,
   ⟨"Garden", "A manicured garden with hedges, fountains, and hidden alcoves.", true⟩,
   ⟨"Foyer", "The grand entrance hall with a sweeping staircase and crystal chandelier.", true⟩,
   ⟨"Music Room", "A room dominated by a grand piano and portraits of composers.", true⟩,
   ⟨"Drawing Room", "A formal reception room with silk wallpaper and porcelain figurines.", true⟩,
   ⟨"Ballroom", "A vast room with polished floors and mirrors that multiply the candlelight.", true⟩,
   ⟨"Veranda", "A covered porch overlooking the grounds.", true⟩,
   ⟨"Trophy Room", "Mounted heads and hunting memorabilia cover every surface.", true⟩]

/-- src/data/names.ts `firstNames` (60 entries, source order). -/
def firstNames : List String :=
  ["Eleanor", "Margaret", "Victoria", "Elizabeth", "Catherine",
   "Vivian", "Evelyn", "Beatrice", "Charlotte", "Penelope",
   "Constance", "Harriet", "Agnes", "Dorothy", "Mildred",
   "Irene", "Lillian", "Florence", "Josephine", "Rosalind",
   "Agatha", "Cordelia", "Gwendolyn", "Millicent", "Prudence",
   "Adelaide", "Clementine", "Ophelia", "Tabitha", "Winifred",
   "Richard", "William", "Edward", "Charles", "Henry",
   "James", "Thomas", "Arthur", "Frederick", "George",
   "Sebastian", "Oliver", "Theodore", "Reginald", "Archibald",
   "Edmund", "Nathaniel", "Humphrey", "Percival", "Bartholomew",
   "Alistair", "Benedict", "Cornelius", "Desmond", "Montgomery",
   "Rupert", "Sylvester", "Vincent", "Wallace", "Xavier"]

/-- src/data/names.ts `lastNames` (50 entries, source order). -/
def lastNames : List String :=
  ["Ashworth", "Blackwood", "Hartley", "Pemberton", "Whitmore",
   "Ravencroft", "Thornwood", "Sterling", "Fairfax", "Cavendish",
   "Montague", "Sinclair", "Worthington", "Kensington", "Beaumont",
   "Crawford", "Harrington", "Lancaster", "Fitzgerald", "Stirling",
   "Wellington", "Carmichael", "Prescott", "Vandermeer", "Ashford",
   "Davenport", "Everhart", "Foxworth", "Grenville", "Hawthorne",
   "Kingsley", "Langley", "Merriweather", "Norwood", "Osgood",
   "Pembroke", "Rutherford", "Seymour", "Trevelyan", "Underwood",
   "Vance", "Wentworth", "Yarborough", "Aldridge", "Bainbridge",
   "Chadwick", "Drummond", "Eastwood", "Farnsworth", "Grimsby"]

structure Occupation where
  title : String
  description : String
deriving DecidableEq, Repr

/-- src/data/names.ts `occupations` (32 entries, source order). -/
def occupations : List Occupation :=
  [⟨"Industrialist", "A wealthy factory owner with vast holdings."⟩,
   ⟨"Socialite", "A prominent figure in high society."⟩,
   ⟨"Heiress", "A wealthy young woman expecting an inheritance."⟩,
   ⟨"Banker", "A financier who controls the family fortune."⟩,
   ⟨"Shipping Magnate", "Controls trade routes and harbors."⟩,
   ⟨"Oil Baron", "Made a fortune in petroleum."⟩,
   ⟨"Lawyer", "A shrewd legal mind who knows everyones secrets."⟩,
   ⟨"Doctor", "A respected physician with a calm demeanor."⟩,
   ⟨"Professor", "An academic with an encyclopedic mind."⟩,
   ⟨"Architect", "Designs the grand estates of the wealthy."⟩,
   ⟨"Surgeon", "Steady hands and nerves of steel."⟩,
   ⟨"Barrister", "Argues cases before the highest courts."⟩,
   ⟨"Artist", "A temperamental creative with expensive tastes."⟩,
   ⟨"Actress", "A stage performer with a flair for drama."⟩,
   ⟨"Author", "A celebrated novelist known for dark themes."⟩,
   ⟨"Composer", "Creates symphonies that move audiences to tears."⟩,
   ⟨"Photographer", "Captures images that reveal hidden truths."⟩,
   ⟨"Colonel", "A retired military officer with rigid principles."⟩,
   ⟨"Politician", "An ambitious public figure with many enemies."⟩,
   ⟨"Diplomat", "A master of negotiation and intrigue."⟩,
   ⟨"Admiral", "Commanded fleets and sailors across the seas."⟩,
   ⟨"Judge", "Dispenses justice from the bench."⟩,
   ⟨"Butler", "A servant who sees and hears everything."⟩,
   ⟨"Journalist", "A reporter always digging for stories."⟩,
   ⟨"Private Secretary", "Manages affairs and keeps secrets."⟩,
   ⟨"Governess", "Raised the children of the wealthy."⟩,
   ⟨"Estate Manager", "Oversees the grounds and staff."⟩,
   ⟨"Widow", "Recently bereaved, with a complicated past."⟩,
   ⟨"Businessman", "A self-made entrepreneur with ruthless methods."⟩,
   ⟨"Antiquarian", "Deals in rare books and artifacts."⟩,
   ⟨"Explorer", "Has traveled to the far corners of the earth."⟩,
   ⟨"Spiritualist", "Claims to commune with the dead."⟩]

/-- src/data/names.ts `descriptions` (27 entries, source order). -/
def descriptions : List String :=
  ["A stern figure with penetrating eyes that miss nothing.",
   "Charming on the surface, but calculating beneath.",
   "Nervous and fidgety, clearly hiding something.",
   "Watchful and silent, observing from the shadows.",
   "Speaks in riddles and never gives a straight answer.",
   "Always seems to know more than they let on.",
   "Has a habit of appearing in unexpected places.",
   "Quiet and reserved, with an air of hidden knowledge.",
   "Imperious and cold, accustomed to getting their way.",
   "Elegant and composed, never a hair out of place.",
   "Meticulous and precise, obsessed with details.",
   "Carries themselves with military bearing.",
   "Speaks softly but commands attention.",
   "Warm and friendly, perhaps too eager to please.",
   "Theatrical and dramatic, always the center of attention.",
   "Quick to anger, with a volatile temper.",
   "Melancholic and brooding, lost in memories.",
   "Laughs too loudly and drinks too much.",
   "Disheveled and distracted, lost in thought.",
   "Brash and outspoken, with no filter on their opinions.",
   "Mutters to themselves when they think no one is listening.",
   "Collects strange objects and speaks of stranger things.",
   "Dresses decades out of fashion and cares not at all.",
   "Has a noticeable limp from an old injury.",
   "Constantly wringing their hands when speaking.",
   "Never makes eye contact for more than a moment.",
   "Chain-smokes and taps ashes nervously.",
   "Wears dark glasses even indoors."]

/-! ## Suspect generator (src/generation/suspect_generator.ts) -/

/-- Four independent uniform draws (honesty, composure, aggression,
observance, in call order). -/
def generatePersonality (ops : RngOps σ) : Gen σ PersonalityTraits := do
  let h ← Gen.lift ops.random
  let c ← Gen.lift ops.random
  let a ← Gen.lift ops.random
  let o ← Gen.lift ops.random
  pure ⟨h, c, a, o⟩

/-- The body of the `for (let i = 0; ...)` loop of `generateSuspects`:
`i` is the current index, the second argument counts remaining
iterations.  The `usedNames` de-duplication bookkeeping of the source is
omitted: it consumes no draws and (latent bug, spec §9) never alters the
suspect actually created. -/
def generateSuspectsGo (ops : RngOps σ) (fns lns : List String)
    (ocs : List Occupation) (dss : List String) : Nat → Nat → Gen σ (List Suspect)
  | _, 0 => pure []
  | i, n + 1 => do
      let firstName := fns.getD (i % fns.length) ""
      let occupation := ocs.getD (i % ocs.length) ⟨"", ""⟩
      let description := dss.getD (i % dss.length) ""
      let personality ← generatePersonality ops
      let age ← randomInt ops 25 70
      let rest ← generateSuspectsGo ops fns lns ocs dss (i + 1) n
      pure ({ id := i
              firstName
              lastName := lns.getD (i % lns.length) ""
              occupation := occupation.title
              age
              description := description ++ " " ++ occupation.description
              personality } :: rest)

/-- src/generation/suspect_generator.ts `generateSuspects`: shuffle the
four pools, then assign round-robin with modulo. -/
def generateSuspects (ops : RngOps σ) (count : Nat) : Gen σ (List Suspect) := do
  let shuffledFirstNames ← shuffle ops firstNames
  let shuffledLastNames ← shuffle ops lastNames
  let shuffledOccupations ← shuffle ops occupations
  let shuffledDescriptions ← shuffle ops descriptions
  generateSuspectsGo ops shuffledFirstNames shuffledLastNames
    shuffledOccupations shuffledDescriptions 0 count

structure VictimKillerSplit where
  victim : Suspect
  killer : Suspect
  others : List Suspect
deriving Repr

/-- The `while (killerIndex === victimIndex)` redraw loop, with fuel:
`none` models divergence of the source loop. -/
def drawKillerIndex (ops : RngOps σ) (len : Nat) (victimIndex : Int) :
    Nat → Gen σ Int
  | 0 => Gen.fail
  | fuel + 1 => do
      let k ← randomInt ops 0 (len - 1 : Int)
      if k = victimIndex then drawKillerIndex ops len victimIndex fuel else pure k

/-- src/generation/suspect_generator.ts `assignVictimAndKiller`.  Throws
(`none`) below 3 suspects; otherwise picks two distinct indices, flags the
two chosen suspects, filters the rest by index and shuffles them. -/
def assignVictimAndKiller (ops : RngOps σ) (fuel : Nat)
    (suspects : List Suspect) : Gen σ VictimKillerSplit := do
  if suspects.length < 3 then Gen.fail else
  let victimIndex ← randomInt ops 0 (suspects.length - 1 : Int)
  let killerIndex ← drawKillerIndex ops suspects.length victimIndex fuel
  let victimBase ← Gen.req (suspects.get? victimIndex.toNat)
  let killerBase ← Gen.req (suspects.get? killerIndex.toNat)
  let victim := { victimBase with isVictim := true }
  let killer := { killerBase with isKiller := true }
  let others := (suspects.enum.filter
    (fun p => (p.1 : Int) ≠ victimIndex ∧ (p.1 : Int) ≠ killerIndex)).map (·.2)
  let shuffledOthers ← shuffle ops others
  pure ⟨victim, killer, shuffledOthers⟩

/-! ## Orchestrator-level selections (src/generation/case_generator.ts) -/

/-- `Object.values(MotiveType)` in declaration order. -/
def motiveValues : List MotiveType :=
  [.jealousy, .greed, .revenge, .fear, .hatred, .protection, .ambition]

/-- `Object.values(WeaponType)` in declaration order. -/
def weaponValues : List WeaponType :=
  [.poison, .knife, .blunt, .firearm, .strangulation, .pushed]

def selectMotive (ops : RngOps σ) : Gen σ MotiveType :=
  pickReq ops motiveValues

def selectWeapon (ops : RngOps σ) : Gen σ WeaponType :=
  pickReq ops weaponValues

/-- `generateLocations`: shuffle the manor templates, draw a count in
`[6,8]`, keep that prefix, and number the survivors `location-<index>`
with `isCrimeScene = false`. -/
def generateLocations (ops : RngOps σ) : Gen σ (List Location) := do
  let shuffled ← shuffle ops manorLocations
  let count ← randomInt ops 6 8
  pure ((shuffled.take count.toNat).enum.map fun p =>
    { id := p.1
      name := p.2.name
      description := p.2.description
      isPublic := p.2.isPublic
      isCrimeScene := false })

/-- `selectCrimeScene`: prefer private locations, pick one, and return a
copy flagged `isCrimeScene := true`.  The copy is returned to the caller
only; the caller never splices it back into its locations list. -/
def selectCrimeScene (ops : RngOps σ) (locations : List Location) :
    Gen σ Location := do
  let privateLocations := locations.filter (fun l => !l.isPublic)
  let candidates := if privateLocations.length > 0 then privateLocations else locations
  let scene ← pickReq ops candidates
  pure { scene with isCrimeScene := true }

/-- `selectTimeOfDeath`: an hour in `[20, 23]`. -/
def selectTimeOfDeath (ops : RngOps σ) : Gen σ TimeSlot := do
  let hour ← randomInt ops 20 23
  pure (createTimeSlot hour)

/-! ## Relationship graph generator (src/generation/relationship_graph.ts)

The comparisons `random.random() > 0.4` (and `0.3`, `0.2`, `< 0.2`) are
against the IEEE-754 doubles written `0.4`, `0.3`, `0.2` in the source;
the exact rational values of those doubles are used here. -/

def jsPointTwo : ℚ := 3602879701896397 / 2 ^ 54
def jsPointThree : ℚ := 5404319552844595 / 2 ^ 54
def jsPointFour : ℚ := 3602879701896397 / 2 ^ 53

/-- `motiveRelationships`: relationship kinds that can carry a motive. -/
def motiveRelationships : List RelationshipType :=
  [.spouse, .exSpouse, .lover, .exLover, .sibling, .businessPartner, .rival, .enemy]

/-- `allRelationships` = `Object.values(RelationshipType)`. -/
def allRelationships : List RelationshipType :=
  [.spouse, .exSpouse, .lover, .exLover, .sibling, .parent, .child, .friend,
   .rival, .enemy, .businessPartner, .employee, .employer, .acquaintance]

/-- The `motiveToRelationships` lookup table of `getRelationshipForMotive`. -/
def motiveToRelationships : MotiveType → List RelationshipType
  | .jealousy => [.spouse, .lover, .exLover, .sibling]
  | .greed => [.sibling, .child, .spouse, .businessPartner]
  | .revenge => [.enemy, .exSpouse, .exLover, .rival]
  | .fear => [.employee, .businessPartner, .acquaintance]
  | .hatred => [.enemy, .rival, .sibling]
  | .protection => [.parent, .spouse, .friend]
  | .ambition => [.employee, .businessPartner, .rival]

def getRelationshipForMotive (ops : RngOps σ) (motive : MotiveType) :
    Gen σ RelationshipType :=
  pickReq ops (motiveToRelationships motive)

/-- `createKillerVictimRelationship`: motive-matched type, sentiment in
`[-10, -6]`, 60% public. -/
def createKillerVictimRelationship (ops : RngOps σ) (killerId victimId : SuspectId)
    (motive : MotiveType) : Gen σ Relationship := do
  let relType ← getRelationshipForMotive ops motive
  let sentiment ← randomInt ops (-10) (-6)
  let r ← Gen.lift ops.random
  pure (createRelationship killerId victimId relType sentiment
    (decide (r > jsPointFour)) none)

/-- The secret-reason phrasing banks of `generateSecretReason` (lover 3,
ex-lover 2, business partner 3 variants; anything else falls back to one
default phrase). -/
def secretReasonPool : RelationshipType → List String
  | .lover => ["An affair hidden from their spouses",
               "A secret romance that would scandalize society",
               "A forbidden relationship kept from the family"]
  | .exLover => ["A past affair no one knows about",
                 "A relationship that ended badly and was covered up"]
  | .businessPartner => ["A secret business deal gone wrong",
                         "An undisclosed financial arrangement",
                         "A hidden investment that failed"]
  | _ => ["A secret connection hidden from others"]

def generateSecretReason (ops : RngOps σ) (relType : RelationshipType) :
    Gen σ String :=
  pickReq ops (secretReasonPool relType)

/-- Step 2 of the graph generator: the red-herring loop body, indexing
into the shuffled others (`none` when the index runs past the end, which
is the source crash `shuffledOthers[i].id` on `undefined`). -/
def redHerringRelLoop (ops : RngOps σ) (victimId : SuspectId)
    (shuffledOthers : List Suspect) : Nat → Nat → Gen σ (List Relationship)
  | _, 0 => pure []
  | i, n + 1 => do
      let suspect ← Gen.req (shuffledOthers.get? i)
      let relType ← pickReq ops motiveRelationships
      let sentiment ← randomInt ops (-8) (-3)
      let r ← Gen.lift ops.random
      let rest ← redHerringRelLoop ops victimId shuffledOthers (i + 1) n
      pure (createRelationship suspect.id victimId relType sentiment
        (decide (r > jsPointThree)) none :: rest)

/-- The connection counter after steps 1-2: per endpoint occurrence. -/
def initialConnCount (rels : List Relationship) : SuspectId → Nat := fun id =>
  rels.countP (fun r => r.fromId = id) + rels.countP (fun r => r.toId = id)

/-- Step 3 inner loop: connect `suspect` to each of the chosen candidates
in turn, pushing the new edge and bumping both endpoint counters. -/
def connAddLoop (ops : RngOps σ) (suspectId : SuspectId) :
    List Suspect → List Relationship → (SuspectId → Nat) →
      Gen σ (List Relationship × (SuspectId → Nat))
  | [], rels, counts => pure (rels, counts)
  | other :: restCands, rels, counts => do
      let relType ← pickReq ops allRelationships
      let sentiment ← randomInt ops (-5) 8
      let r ← Gen.lift ops.random
      let rel := createRelationship suspectId other.id relType sentiment
        (decide (r > jsPointTwo)) none
      let c1 := Function.update counts suspectId (counts suspectId + 1)
      let c2 := Function.update c1 other.id (c1 other.id + 1)
      connAddLoop ops suspectId restCands (rels ++ [rel]) c2

/-- Step 3 outer loop over all suspects: top up everyone to
`minConnectionsPerPerson` edges, skipping already-related pairs. -/
def connectivityLoop (ops : RngOps σ) (minConn : Nat) (allSuspects : List Suspect) :
    List Suspect → List Relationship → (SuspectId → Nat) →
      Gen σ (List Relationship × (SuspectId → Nat))
  | [], rels, counts => pure (rels, counts)
  | suspect :: rest, rels, counts => do
      let currentConnections := counts suspect.id
      if currentConnections < minConn then do
        let needed := minConn - currentConnections
        let candidates := allSuspects.filter (fun s2 =>
          s2.id ≠ suspect.id ∧
            ¬ rels.any (fun r =>
              (r.fromId = suspect.id ∧ r.toId = s2.id) ∨
                (r.fromId = s2.id ∧ r.toId = suspect.id)))
        let shuffledCandidates ← shuffle ops candidates
        let (rels', counts') ← connAddLoop ops suspect.id
          (shuffledCandidates.take needed) rels counts
        connectivityLoop ops minConn allSuspects rest rels' counts'
      else
        connectivityLoop ops minConn allSuspects rest rels counts

/-- Step 4: add 1-2 secret relationships between shuffled pairs that are
not yet related. -/
def secretRelLoop (ops : RngOps σ) (allSuspects : List Suspect) :
    Nat → List Relationship → Gen σ (List Relationship)
  | 0, rels => pure rels
  | n + 1, rels => do
      let shuffled ← shuffle ops allSuspects
      let person1 ← Gen.req (shuffled.get? 0)
      let person2 ← Gen.req (shuffled.get? 1)
      let already := rels.any (fun r =>
        (r.fromId = person1.id ∧ r.toId = person2.id) ∨
          (r.fromId = person2.id ∧ r.toId = person1.id))
      if already then secretRelLoop ops allSuspects n rels
      else do
        let relType ← pickReq ops [RelationshipType.lover, .exLover, .businessPartner]
        let sentiment ← randomInt ops (-3) 7
        let reason ← generateSecretReason ops relType
        secretRelLoop ops allSuspects n
          (rels ++ [createRelationship person1.id person2.id relType sentiment
            false (some reason)])

/-- src/generation/relationship_graph.ts `generateRelationshipGraph`
(default config `minConnectionsPerPerson = 2`). -/
def generateRelationshipGraph (ops : RngOps σ) (victim killer : Suspect)
    (others : List Suspect) (motive : MotiveType) (minConn : Nat := 2) :
    Gen σ (List Relationship) := do
  let allSuspects := victim :: killer :: others
  let killerVictimRel ← createKillerVictimRelationship ops killer.id victim.id motive
  let redHerringCount ← randomInt ops 2 (min 3 (others.length : Int))
  let shuffledOthers ← shuffle ops others
  let herrings ← redHerringRelLoop ops victim.id shuffledOthers 0 redHerringCount.toNat
  let rels2 := killerVictimRel :: herrings
  let (rels3, _) ← connectivityLoop ops minConn allSuspects allSuspects rels2
    (initialConnCount rels2)
  let secretCount ← randomInt ops 1 2
  secretRelLoop ops allSuspects secretCount.toNat rels3

/-! ## Clue generator (src/generation/clue_generator.ts)

Each phrasing bank below has exactly the arity of its source counterpart
(its content abridged); every `random.pick` the source spends on flavour
text is reproduced, so the draw stream stays aligned. -/

structure ClueGeneratorConfig where
  /-- Declared by the source interface and passed by the orchestrator, but
  never read anywhere in `generateClues`. -/
  minCluesPointingToKiller : Nat
  redHerringCount : Nat
deriving Repr

/-- `getPhysicalEvidenceName` banks (3 variants per weapon). -/
def physicalEvidenceNames : WeaponType → List String
  | .poison => ["Poison Vial", "Empty Medicine Bottle", "Suspicious Powder"]
  | .knife => ["Bloodied Blade", "Letter Opener", "Kitchen Knife"]
  | .blunt => ["Dented Candlestick", "Bronze Statue", "Heavy Paperweight"]
  | .firearm => ["Discharged Revolver", "Spent Shell Casing", "Gun Oil Residue"]
  | .strangulation => ["Torn Silk Scarf", "Rope Fibers", "Ligature Marks"]
  | .pushed => ["Broken Railing", "Torn Fabric on Balcony", "Scuff Marks"]

/-- `getPhysicalEvidenceDescription` banks (2 variants per weapon). -/
def physicalEvidenceDescs : WeaponType → List String
  | .poison => ["An empty vial with traces of arsenic.",
                "A small glass container that once held a deadly substance."]
  | .knife => ["A blade stained with the victims blood.",
               "A sharp implement found near the body."]
  | .blunt => ["A heavy object bearing blood and hair.",
               "The murder weapon, carelessly discarded."]
  | .firearm => ["A revolver with one bullet missing from the chamber.",
                 "Shell casings found at the scene."]
  | .strangulation => ["Fabric fibers found under the victims fingernails.",
                       "A distinctive pattern of bruising on the victims neck."]
  | .pushed => ["The railing shows signs of a struggle.",
                "Fabric caught on a nail near the balcony edge."]

/-- `getMotiveDocumentName` banks (3 variants per motive). -/
def motiveDocNames : MotiveType → List String
  | .jealousy => ["Love Letters", "Torn Photograph", "Private Diary"]
  | .greed => ["Modified Will", "Insurance Policy", "Financial Records"]
  | .revenge => ["Threatening Letter", "Legal Documents", "Old Newspaper Clipping"]
  | .fear => ["Blackmail Note", "Incriminating Photographs", "Sealed Envelope"]
  | .hatred => ["Bitter Correspondence", "Defaced Portrait", "Burned Letters"]
  | .protection => ["Secret Documents", "Hidden Evidence", "Coded Messages"]
  | .ambition => ["Business Contract", "Promotion Letter", "Partnership Agreement"]

/-- `getMotiveDocumentDescription` banks (2 variants per motive). -/
def motiveDocDescs : MotiveType → List String
  | .jealousy => ["Documents revealing jealousy over romantic entanglements.",
                  "Evidence of a love triangle that drove the killer to desperate measures."]
  | .greed => ["Papers showing the killer stood to inherit a fortune.",
               "Financial documents revealing an imminent cut from the will."]
  | .revenge => ["Letters documenting a past wrong that could never be forgiven.",
                 "Evidence of an old betrayal that festered into murderous rage."]
  | .fear => ["The victim had discovered something that could destroy the killer.",
              "Blackmail materials showing a threat of exposure."]
  | .hatred => ["A long history of animosity documented in bitter letters.",
                "Evidence of a deep-seated hatred that finally boiled over."]
  | .protection => ["Documents showing a killing to protect someone else.",
                    "The victim was about to expose something harmful to a loved one."]
  | .ambition => ["The victim was standing in the way of advancement.",
                  "Business documents showing power or position gained from the death."]

/-- `getRedHerringName` bank (5 variants). -/
def redHerringNames : List String :=
  ["Suspicious Object", "Misplaced Item", "Circumstantial Evidence",
   "Misleading Clue", "Planted Evidence"]

/-- Step 6 of `generateClues`: one testimonial alibi-clearing clue per
innocent, ids continuing from `idx`.  Draw order per innocent: the
location named inside the description, then `foundAt`. -/
def innocentAlibiCluesLoop (ops : RngOps σ) (allLocations : List Location) :
    List Suspect → Nat → Gen σ (List Clue)
  | [], _ => pure []
  | innocent :: rest, idx => do
      let witnessLoc ← pickReq ops allLocations
      let foundLoc ← pickReq ops allLocations
      let rest' ← innocentAlibiCluesLoop ops allLocations rest (idx + 1)
      pure ({ id := idx
              type := ClueType.testimonial
              name := innocent.firstName ++ "s Alibi"
              description := "Multiple witnesses confirm " ++ innocent.firstName
                ++ " was in the " ++ witnessLoc.name ++ " during the time of the murder."
              foundAt := foundLoc.id
              pointsTo := some innocent.id
              significance := .normal } :: rest')

/-- Step 7 of `generateClues`: red herrings against the first
`redHerringCount` shuffled innocents, each cross-referenced to that
innocents testimonial alibi clue when one exists.  The accumulated clue
list is carried because the source searches it with `clues.find`. -/
def redHerringCluesLoop (ops : RngOps σ) (crimeSceneId : LocationId) :
    List Suspect → List Clue → Nat → Gen σ (List Clue)
  | [], cluesSoFar, _ => pure cluesSoFar
  | target :: rest, cluesSoFar, idx => do
      let alibiClue := cluesSoFar.find? (fun c =>
        c.pointsTo = some target.id ∧ c.type = ClueType.testimonial)
      let name ← pickReq ops redHerringNames
      let clue : Clue :=
        { id := idx
          type := ClueType.physical
          name
          description := "Evidence that initially seems to implicate "
            ++ target.firstName ++ ", but does not hold up to scrutiny."
          foundAt := crimeSceneId
          pointsTo := some target.id
          isRedHerring := true
          refutedBy := alibiClue.map (·.id)
          significance := .minor }
      redHerringCluesLoop ops crimeSceneId rest (cluesSoFar ++ [clue]) (idx + 1)

/-- src/generation/clue_generator.ts `generateClues`. -/
def generateClues (ops : RngOps σ) (killer _victim : Suspect) (others : List Suspect)
    (motive : MotiveType) (weapon : WeaponType) (crimeScene : Location)
    (allLocations : List Location) (relationships : List Relationship)
    (config : ClueGeneratorConfig) : Gen σ (List Clue) := do
  let name0 ← pickReq ops (physicalEvidenceNames weapon)
  let desc0 ← pickReq ops (physicalEvidenceDescs weapon)
  let clue0 : Clue :=
    { id := 0, type := ClueType.physical, name := name0, description := desc0
      foundAt := crimeScene.id, pointsTo := some killer.id, significance := .critical }
  let name1 ← pickReq ops (motiveDocNames motive)
  let desc1 ← pickReq ops (motiveDocDescs motive)
  let found1 ← pickReq ops allLocations
  let clue1 : Clue :=
    { id := 1, type := ClueType.documentary, name := name1, description := desc1
      foundAt := found1.id, pointsTo := some killer.id, significance := .critical }
  let clue2 : Clue :=
    { id := 2, type := ClueType.testimonial, name := "Witness Account"
      description := "Someone saw " ++ killer.firstName ++ " near the "
        ++ crimeScene.name ++ " around the time of the murder."
      foundAt := crimeScene.id, pointsTo := some killer.id, significance := .normal }
  let found3 ← pickReq ops allLocations
  let clue3 : Clue :=
    { id := 3, type := ClueType.behavioral, name := "Suspicious Behavior"
      description := killer.firstName ++ " was seen acting nervously after the body was discovered."
      foundAt := found3.id, pointsTo := some killer.id, significance := .normal }
  let clue4 : Clue :=
    { id := 4, type := ClueType.forensic, name := "Time of Death"
      description := "The victim died between 9:00 PM and 10:00 PM based on body temperature."
      foundAt := crimeScene.id, significance := .critical }
  let alibiClues ← innocentAlibiCluesLoop ops allLocations others 5
  let baseClues := [clue0, clue1, clue2, clue3, clue4] ++ alibiClues
  let shuffledInnocents ← shuffle ops others
  let herringTargets := shuffledInnocents.take config.redHerringCount
  let withHerrings ← redHerringCluesLoop ops crimeScene.id herringTargets
    baseClues (5 + others.length)
  let allClues ← match relationships.find? (fun r => !r.isPublicKnowledge) with
    | none => pure withHerrings
    | some secretRelationship => do
        let privateLocations := allLocations.filter (fun l => !l.isPublic)
        let hiddenLocation ←
          if privateLocations.length > 0 then pickReq ops privateLocations
          else pickReq ops allLocations
        pure (withHerrings ++
          [{ id := 5 + others.length + herringTargets.length
             type := ClueType.documentary
             name := "Hidden Correspondence"
             description := "Letters revealing a secret "
               ++ toString (repr secretRelationship.type) ++ " relationship."
             foundAt := hiddenLocation.id
             significance := .normal }])
  shuffle ops allClues

/-! ## Alibi generator (the alibi_generator.ts unit) -/

/-- The four falseness strategies; the source spells them
no_witnesses, unreliable_witness, partial_alibi, conflicting_times. -/
inductive KillerAlibiStrategy
  | noWitnesses | unreliableWitness | partialAlibi | conflictingTimes
deriving DecidableEq, Repr

/-- `selectWitnesses`: 1-2 shuffled candidates, excluding the subject and
any victim. -/
def selectWitnesses (ops : RngOps σ) (excludeId : SuspectId)
    (allSuspects : List Suspect) : Gen σ (List Suspect) := do
  let candidates := allSuspects.filter (fun s => s.id ≠ excludeId ∧ !s.isVictim)
  let count ← randomInt ops 1 (min 2 (candidates.length : Int))
  let shuffled ← shuffle ops candidates
  pure (shuffled.take count.toNat)

/-- `generateAlibiDescription` activity bank (7 variants). -/
def alibiActivities : List String :=
  ["was having a conversation", "was reading by the fire", "was playing cards",
   "was admiring the paintings", "was engaged in discussion",
   "was enjoying a drink", "was waiting for dinner"]

/-- `generateWeakAlibiDescription` bank (4 variants). -/
def weakAlibiPhrases : List String :=
  ["was seen briefly, though the exact time is unclear",
   "may have been seen there",
   "was recalled by a witness who cannot be certain of the time",
   "was there for part of the evening, per a distracted witness"]

/-- `generateFalseAlibiDescription` excuse bank (5 variants). -/
def falseAlibiExcuses : List String :=
  ["claims to have been alone, resting",
   "says they were there, but no one can confirm this",
   "insists they were freshening up in their quarters",
   "claims to have stepped outside for some air",
   "says they were making a private telephone call"]

/-- `generateUnreliableWitnessAlibi` bank (4 variants). -/
def unreliableWitnessPhrases : List String :=
  ["the witness had been drinking heavily that evening",
   "the witness has only a hazy memory of the evening",
   "the witness seems oddly reluctant to confirm the details",
   "the witness agrees, but the account has some inconsistencies"]

/-- `generatePartialAlibiDescription` bank (4 variants). -/
def partialAlibiPhrases : List String :=
  ["was seen earlier in the evening, but stepped out around the time of the murder",
   "was seen before dinner, but not during the critical hour",
   "arrived late, claiming to have been delayed",
   "excused themselves for about twenty minutes during the evening"]

/-- `generateConflictingTimesAlibi` bank (5 variants). -/
def conflictingTimesPhrases : List String :=
  ["claims to have been there from 8 until 10, but the clock there stopped at 9:15",
   "says they were there all evening, but a servant recalls the room empty around 9",
   "insists they never left, yet their shoes show traces of garden mud",
   "mentions reading a book that was not published until next year",
   "says they heard the clock strike nine, but that clock has been broken for weeks"]

/-- The innocent-alibi loop of `generateAlibis`: public location, 1-2
witnesses, a 20% chance of a weak alibi; always `isVerifiable = true`,
`isFalse = false`. -/
def innocentAlibisLoop (ops : RngOps σ) (publicLocations : List Location)
    (allSuspects : List Suspect) (timeOfDeath : TimeSlot) :
    List Suspect → Gen σ (List Alibi)
  | [] => pure []
  | innocent :: rest => do
      let location ← pickReq ops publicLocations
      let witnesses ← selectWitnesses ops innocent.id allSuspects
      let r ← Gen.lift ops.random
      let alibi ←
        if r < jsPointTwo then do
          let weakWitnesses := witnesses.take 1
          let phrase ← pickReq ops weakAlibiPhrases
          pure { suspectId := innocent.id
                 timeSlot := timeOfDeath
                 location := location.id
                 description := innocent.firstName ++ " " ++ phrase ++ " in the " ++ location.name ++ "."
                 witnesses := weakWitnesses.map (·.id)
                 isVerifiable := true
                 isFalse := false : Alibi }
        else do
          let activity ← pickReq ops alibiActivities
          pure { suspectId := innocent.id
                 timeSlot := timeOfDeath
                 location := location.id
                 description := innocent.firstName ++ " " ++ activity ++ " in the " ++ location.name ++ "."
                 witnesses := witnesses.map (·.id)
                 isVerifiable := true
                 isFalse := false : Alibi }
      let rest' ← innocentAlibisLoop ops publicLocations allSuspects timeOfDeath rest
      pure (alibi :: rest')

/-- `generateKillerAlibi`: every strategy yields `isFalse = true` and
`isVerifiable = false`. -/
def generateKillerAlibi (ops : RngOps σ) (killer : Suspect) (others : List Suspect)
    (publicLocations privateLocations : List Location) (timeOfDeath : TimeSlot) :
    KillerAlibiStrategy → Gen σ Alibi
  | .unreliableWitness => do
      let location ← pickReq ops
        (if publicLocations.length > 0 then publicLocations else privateLocations)
      let fakeWitness ← pickReq ops others
      let phrase ← pickReq ops unreliableWitnessPhrases
      pure { suspectId := killer.id, timeSlot := timeOfDeath, location := location.id
             description := killer.firstName ++ " cites " ++ fakeWitness.firstName ++ ", but " ++ phrase ++ "."
             witnesses := [fakeWitness.id], isVerifiable := false, isFalse := true }
  | .partialAlibi => do
      let location ← pickReq ops
        (if publicLocations.length > 0 then publicLocations else privateLocations)
      let witnesses ← selectWitnesses ops killer.id (killer :: others)
      let phrase ← pickReq ops partialAlibiPhrases
      pure { suspectId := killer.id, timeSlot := timeOfDeath, location := location.id
             description := killer.firstName ++ " " ++ phrase ++ "."
             witnesses := witnesses.map (·.id), isVerifiable := false, isFalse := true }
  | .conflictingTimes => do
      let location ← pickReq ops
        (if privateLocations.length > 0 then privateLocations else publicLocations)
      let phrase ← pickReq ops conflictingTimesPhrases
      pure { suspectId := killer.id, timeSlot := timeOfDeath, location := location.id
             description := killer.firstName ++ " " ++ phrase ++ "."
             witnesses := [], isVerifiable := false, isFalse := true }
  | .noWitnesses => do
      let location ←
        if privateLocations.length > 0 then pickReq ops privateLocations
        else pickReq ops publicLocations
      let phrase ← pickReq ops falseAlibiExcuses
      pure { suspectId := killer.id, timeSlot := timeOfDeath, location := location.id
             description := killer.firstName ++ " " ++ phrase ++ "."
             witnesses := [], isVerifiable := false, isFalse := true }

/-- `generateAlibis`: innocents first, then the killer alibi under a
randomly picked strategy, then a shuffle of the whole list.  The victim
argument of the source is unused there as well. -/
def generateAlibis (ops : RngOps σ) (killer _victim : Suspect) (others : List Suspect)
    (locations : List Location) (timeOfDeath : TimeSlot) : Gen σ (List Alibi) := do
  let publicLocations := locations.filter (·.isPublic)
  let privateLocations := locations.filter (fun l => !l.isPublic)
  let allSuspects := killer :: others
  let killerStrategy ← pickReq ops
    [KillerAlibiStrategy.noWitnesses, .unreliableWitness, .partialAlibi, .conflictingTimes]
  let innocents ← innocentAlibisLoop ops publicLocations allSuspects timeOfDeath others
  let killerAlibi ← generateKillerAlibi ops killer others publicLocations
    privateLocations timeOfDeath killerStrategy
  shuffle ops (innocents ++ [killerAlibi])

/-! ## Case orchestrator (src/generation/case_generator.ts) -/

inductive Difficulty
  | easy | medium | hard
deriving DecidableEq, Repr

structure CaseGeneratorConfig where
  suspectCount : Nat
  difficulty : Difficulty
deriving DecidableEq, Repr

def defaultConfig : CaseGeneratorConfig := ⟨6, .medium⟩

/-- `getDifficultyClueCount`: the minimum killer-pointing clue counts
easy 5 / medium 4 / hard 3 (forwarded to the clue generator, which never
reads them). -/
def getDifficultyClueCount : Difficulty → Nat
  | .easy => 5
  | .medium => 4
  | .hard => 3

/-- `getDifficultyRedHerrings`: easy 1 / medium 2 / hard 3. -/
def getDifficultyRedHerrings : Difficulty → Nat
  | .easy => 1
  | .medium => 2
  | .hard => 3

/-- One pass of `generateCase`, without the solvability retry: the
sequenced pipeline locations → suspects → victim/killer →
motive/weapon/crime scene/time of death → relationships → clues →
alibis → assembly.  `fuelKiller` bounds the killer-index redraw loop. -/
def generateCaseOnce (ops : RngOps σ) (fuelKiller : Nat) (seed : String)
    (config : CaseGeneratorConfig) : Gen σ Case := do
  let locations ← generateLocations ops
  let suspects ← generateSuspects ops config.suspectCount
  let split ← assignVictimAndKiller ops fuelKiller suspects
  let motive ← selectMotive ops
  let weapon ← selectWeapon ops
  let crimeScene ← selectCrimeScene ops locations
  let timeOfDeath ← selectTimeOfDeath ops
  let relationships ← generateRelationshipGraph ops split.victim split.killer
    split.others motive
  let clues ← generateClues ops split.killer split.victim split.others motive weapon
    crimeScene locations relationships
    { minCluesPointingToKiller := getDifficultyClueCount config.difficulty
      redHerringCount := getDifficultyRedHerrings config.difficulty }
  let alibis ← generateAlibis ops split.killer split.victim split.others locations
    timeOfDeath
  pure { seed
         suspects := split.victim :: split.killer :: split.others
         relationships, locations, clues, alibis
         victim := split.victim.id
         killer := split.killer.id
         motive, weapon
         crimeScene := crimeScene.id
         timeOfDeath }

/-- src/generation/case_generator.ts `generateCase`: run one pass on the
stream seeded from the current seed; if the solvability check fails,
recurse on `seed ++ "-retry"`.  `seedToState` is the seeding map of the
underlying PRNG (`createRandom`), `fuelRetry` bounds the structurally
unbounded recursion, and a crash in the pass propagates as `none`. -/
def generateCase (ops : RngOps σ) (seedToState : String → σ)
    (fuelKiller : Nat) (config : CaseGeneratorConfig) :
    Nat → String → Option Case
  | 0, _ => none
  | fuelRetry + 1, seed =>
      match generateCaseOnce ops fuelKiller seed config (seedToState seed) with
      | none => none
      | some (c, _) =>
          if isCaseSolvable c then some c
          else generateCase ops seedToState fuelKiller config fuelRetry (seed ++ "-retry")

/-! ## Statements and testimonies (the statements.ts unit) -/

inductive StatementTopic
  | alibi | victim | relationships | observations | self
deriving DecidableEq, Repr

/-- Statement ids `<suspect.id>-stmt-<k>` are modelled by the pair. -/
structure Statement where
  id : SuspectId × Nat
  suspectId : SuspectId
  text : String
  topic : StatementTopic
  isLie : Bool
  contradictedBy : List ClueId
  pressResponse : String
  truthReveal : Option String := none
deriving DecidableEq, Repr

structure Testimony where
  suspectId : SuspectId
  statements : List Statement
deriving DecidableEq, Repr

/-- The string value of the `RelationshipType` enum member (used inside
prose; the source interpolates these enum values). -/
def relationshipTypeValue : RelationshipType → String
  | .spouse => "spouse" | .exSpouse => "ex_spouse" | .lover => "lover"
  | .exLover => "ex_lover" | .sibling => "sibling" | .parent => "parent"
  | .child => "child" | .friend => "friend" | .rival => "rival"
  | .enemy => "enemy" | .businessPartner => "business_partner"
  | .employee => "employee" | .employer => "employer"
  | .acquaintance => "acquaintance"

/-- `description.toLowerCase().includes("relationship")`: all description
prose in this embedding keeps the word in lower case already, so a plain
substring test is exact. -/
def includesRelationshipWord (s : String) : Bool :=
  (s.splitOn "relationship").length > 1

/-- `generateAlibiStatement` (no draws): a lie exactly when the alibi is
false, contradicted by non-red-herring testimonial or physical clues that
point to the speaker. -/
def generateAlibiStatement (id : SuspectId × Nat) (suspect : Suspect)
    (alibi : Alibi) (generatedCase : Case) : Statement :=
  let contradictingClues := (generatedCase.clues.filter (fun clue =>
    clue.pointsTo = some suspect.id ∧ clue.isRedHerring = false ∧
      (clue.type = ClueType.testimonial ∨ clue.type = ClueType.physical))).map (·.id)
  if alibi.isFalse then
    { id, suspectId := suspect.id
      text := "I was there the entire evening. I never left."
      topic := .alibi
      isLie := true
      contradictedBy := contradictingClues
      pressResponse := "I am quite certain. I was resting. Alone, yes, but I was definitely there."
      truthReveal := some "Fine. I was not there the whole time. But that does not mean I did anything wrong!" }
  else
    { id, suspectId := suspect.id
      text := "I was there during that time."
      topic := .alibi
      isLie := false
      contradictedBy := []
      pressResponse := "Ask my witnesses if you do not believe me." }

/-- `generateRelationshipStatement` (no draws): a lie exactly when the
relationship with the victim is secret. -/
def generateRelationshipStatement (id : SuspectId × Nat) (suspect victim : Suspect)
    (relationship : Relationship) (generatedCase : Case) : Statement :=
  let isSecret := !relationship.isPublicKnowledge
  let isHostile := relationship.sentiment < -3
  let revealingClues := (generatedCase.clues.filter (fun c =>
    c.type = ClueType.documentary ∧ includesRelationshipWord c.description)).map (·.id)
  if isSecret then
    { id, suspectId := suspect.id
      text := victim.firstName ++ "? We were merely acquaintances. Nothing more."
      topic := .relationships
      isLie := true
      contradictedBy := revealingClues
      pressResponse := "I do not know what you are implying. We barely knew each other."
      truthReveal := some ("Alright. " ++ victim.firstName ++ " and I were closer than I let on. But that is private!") }
  else if isHostile then
    { id, suspectId := suspect.id
      text := victim.firstName ++ " and I did not always see eye to eye. But I did not kill them!"
      topic := .relationships
      isLie := false
      contradictedBy := []
      pressResponse := "Yes, we had our disagreements. But murder? Never." }
  else
    { id, suspectId := suspect.id
      text := "I was " ++ relationshipTypeValue relationship.type ++ " "
        ++ victim.firstName ++ ". We got along well enough."
      topic := .relationships
      isLie := false
      contradictedBy := []
      pressResponse := "There is not much more to say. We had a normal relationship." }

/-- The killer observation phrasing bank (5 text/press pairs). -/
def killerObservationBank : List (String × String) :=
  [("I did not see anything unusual that evening.", "I was preoccupied."),
   ("I kept to myself most of the evening.", "I minded my own business."),
   ("The evening was unremarkable until we heard the scream.", "I did not see who did it."),
   ("I was distracted all evening.", "The evening is a blur, honestly."),
   ("Everyone seemed normal to me.", "Perhaps I should have paid more attention.")]

/-- The innocent observation bank (4 variants). -/
def innocentObservationBank : List String :=
  ["I thought I heard raised voices at one point.",
   "I noticed the killer seemed distracted that evening.",
   "The atmosphere felt tense.",
   "I saw someone moving through the hallway, but it was too dark to tell who."]

/-- `generateObservationStatement`: a lie exactly for the killer (one
phrasing draw either way), contradicted (for the killer) by testimonial
clues pointing at the speaker. -/
def generateObservationStatement (ops : RngOps σ) (id : SuspectId × Nat)
    (suspect : Suspect) (generatedCase : Case) : Gen σ Statement := do
  let isKiller := suspect.isKiller
  let contradictingClues := if isKiller then
      (generatedCase.clues.filter (fun c =>
        c.type = ClueType.testimonial ∧ c.pointsTo = some suspect.id)).map (·.id)
    else []
  if isKiller then do
    let chosen ← pickReq ops killerObservationBank
    pure { id, suspectId := suspect.id
           text := chosen.1
           topic := .observations
           isLie := true
           contradictedBy := contradictingClues
           pressResponse := chosen.2
           truthReveal := some "Stop pressuring me! I may have been near the scene. But I did not do anything!" }
  else do
    let killerSuspect ← Gen.req (generatedCase.suspects.find? (fun s => s.isKiller))
    let text ← pickReq ops
      (innocentObservationBank.map (fun t =>
        t ++ " (" ++ killerSuspect.firstName ++ " " ++ killerSuspect.lastName ++ ")"))
    pure { id, suspectId := suspect.id
           text
           topic := .observations
           isLie := false
           contradictedBy := []
           pressResponse := "That is all I know. I wish I had paid more attention." }

/-- The innocent self-defence bank (4 variants). -/
def innocentDefenseBank : List String :=
  ["I know how this looks, but I am innocent. Please believe me.",
   "I may not have liked the victim, but I am not a murderer.",
   "You are wasting time suspecting me. The real killer is still out there.",
   "I have nothing to hide. Ask me anything."]

/-- `generateSelfStatement`: the killer denies motive (a lie, no draw,
contradicted by critical documentary clues pointing at them); an innocent
picks one of 4 defences (one draw). -/
def generateSelfStatement (ops : RngOps σ) (id : SuspectId × Nat)
    (suspect victim : Suspect) (generatedCase : Case) : Gen σ Statement := do
  let motiveClues := (generatedCase.clues.filter (fun c =>
    c.type = ClueType.documentary ∧ c.pointsTo = some suspect.id ∧
      c.significance = ClueSignificance.critical)).map (·.id)
  if suspect.isKiller then
    pure { id, suspectId := suspect.id
           text := "I had no reason to want " ++ victim.firstName ++ " dead. None at all."
           topic := .self
           isLie := true
           contradictedBy := motiveClues
           pressResponse := "Why would I? I had nothing to gain from this tragedy."
           truthReveal := some "You found out about that? Fine. Yes, I had reasons. But that does not prove I killed anyone!" }
  else do
    let text ← pickReq ops innocentDefenseBank
    pure { id, suspectId := suspect.id
           text
           topic := .self
           isLie := false
           contradictedBy := []
           pressResponse := "I understand you have to investigate everyone." }

/-- `generateSuspectStatements`: up to four statements in fixed order
(alibi, victim relationship, observation, self), skipping the first two
when the underlying data is absent. -/
def generateSuspectStatements (ops : RngOps σ) (suspect victim : Suspect)
    (alibi : Option Alibi) (relationships : List Relationship)
    (generatedCase : Case) : Gen σ (List Statement) := do
  let (alibiStatements, idx1) := match alibi with
    | some a => ([generateAlibiStatement (suspect.id, 0) suspect a generatedCase], 1)
    | none => ([], 0)
  let victimRelationship := relationships.find? (fun r =>
    r.toId = victim.id ∨ r.fromId = victim.id)
  let (relStatements, idx2) := match victimRelationship with
    | some r =>
        ([generateRelationshipStatement (suspect.id, idx1) suspect victim r generatedCase],
          idx1 + 1)
    | none => ([], idx1)
  let obsStatement ← generateObservationStatement ops (suspect.id, idx2) suspect generatedCase
  let selfStatement ← generateSelfStatement ops (suspect.id, idx2 + 1) suspect victim
    generatedCase
  pure (alibiStatements ++ relStatements ++ [obsStatement, selfStatement])

/-- The per-suspect iteration of `generateTestimonies`; the source
re-finds the victim (with a crashing non-null assertion) on every
iteration. -/
def generateTestimoniesGo (ops : RngOps σ) (generatedCase : Case) :
    List Suspect → Gen σ (List (SuspectId × Testimony))
  | [] => pure []
  | suspect :: rest => do
      let alibi := generatedCase.alibis.find? (fun a => a.suspectId = suspect.id)
      let relationships := generatedCase.relationships.filter (fun r =>
        r.fromId = suspect.id ∨ r.toId = suspect.id)
      let victim ← Gen.req (generatedCase.suspects.find? (fun s => s.isVictim))
      let statements ← generateSuspectStatements ops suspect victim alibi
        relationships generatedCase
      let rest' ← generateTestimoniesGo ops generatedCase rest
      pure ((suspect.id, ⟨suspect.id, statements⟩) :: rest')

/-- `generateTestimonies`: one testimony per living suspect, keyed by
suspect id (the JavaScript `Map` is modelled by an insertion-ordered
association list). -/
def generateTestimonies (ops : RngOps σ) (generatedCase : Case) :
    Gen σ (List (SuspectId × Testimony)) :=
  generateTestimoniesGo ops generatedCase
    (generatedCase.suspects.filter (fun s => !s.isVictim))

/-! ## Panel puzzle engine (src/game/panel_puzzle.ts)

A 12 × 6 grid of optional panels.  The grid is modelled as a total
function from in-range positions; every index the source computes during
scanning, clearing, activation and swapping is in range by construction
there, so nothing is lost.  The module-global `panelIdCounter` is made an
explicit argument of the one function here that mints a panel
(`processMatches`). -/

inductive PanelType
  | magnifier | fingerprint | document | witness | key | flashlight
deriving DecidableEq, Repr

/-- `BonusType`: the source spells these line_h, line_v, cross, blast. -/
inductive BonusType
  | lineH | lineV | cross | blast
deriving DecidableEq, Repr

abbrev gridRows : Nat := 12
abbrev gridCols : Nat := 6

structure Panel where
  type : PanelType
  bonus : Option BonusType
  row : Nat
  col : Nat
  id : Nat
deriving DecidableEq, Repr

abbrev GridPos := Fin gridRows × Fin gridCols

abbrev Grid := GridPos → Option Panel

inductive MatchDirection
  | horizontal | vertical | both
deriving DecidableEq, Repr

/-- `'line' | 'L' | 'T'`. -/
inductive MatchShape
  | line | ell | tee
deriving DecidableEq, Repr

/-- One cell of a detected run (`{row, col, type}` in the source). -/
structure SeqCell where
  row : Fin gridRows
  col : Fin gridCols
  type : PanelType
deriving DecidableEq, Repr

structure PuzzleMatch where
  positions : List GridPos
  direction : MatchDirection
  shape : MatchShape
  type : PanelType
deriving DecidableEq, Repr

structure PanelPuzzleState where
  grid : Grid
  score : Int
  combo : Nat
  targetScore : Int
  timeRemaining : ℚ
  isAnimating : Bool
  isGameOver : Bool
  riseProgress : ℚ
  nextRow : List Panel
  selected : Option GridPos
deriving DecidableEq

/-- Append a finished run to the accumulator when it has length ≥ 3. -/
def flushSeq (acc : List (List SeqCell)) (seq : List SeqCell) : List (List SeqCell) :=
  if seq.length ≥ 3 then acc ++ [seq] else acc

/-- One step of the run scanner: extend the current run on a matching
panel, otherwise flush and restart (`panel && (sequence.length === 0 ||
panel.type === sequence[0].type)`). -/
def seqScanStep (st : List (List SeqCell) × List SeqCell) (r : Fin gridRows)
    (c : Fin gridCols) (cell : Option Panel) :
    List (List SeqCell) × List SeqCell :=
  match cell with
  | some p =>
      if st.2.isEmpty ∨ (st.2.head?.map (·.type) = some p.type) then
        (st.1, st.2 ++ [⟨r, c, p.type⟩])
      else (flushSeq st.1 st.2, [⟨r, c, p.type⟩])
  | none => (flushSeq st.1 st.2, [])

/-- Maximal horizontal runs of length ≥ 3 in row `r`, left to right. -/
def hScanRow (g : Grid) (r : Fin gridRows) : List (List SeqCell) :=
  let final := (List.finRange gridCols).foldl
    (fun st c => seqScanStep st r c (g (r, c))) ([], [])
  flushSeq final.1 final.2

/-- Maximal vertical runs of length ≥ 3 in column `c`, top to bottom. -/
def vScanCol (g : Grid) (c : Fin gridCols) : List (List SeqCell) :=
  let final := (List.finRange gridRows).foldl
    (fun st r => seqScanStep st r c (g (r, c))) ([], [])
  flushSeq final.1 final.2

def horizontalSequences (g : Grid) : List (List SeqCell) :=
  (List.finRange gridRows).flatMap (hScanRow g)

def verticalSequences (g : Grid) : List (List SeqCell) :=
  (List.finRange gridCols).flatMap (vScanCol g)

/-- An entry of `positionToSequences`: the horizontal and vertical run
this position belongs to, if any. -/
structure SeqEntry where
  h : Option (List SeqCell) := none
  v : Option (List SeqCell) := none
deriving DecidableEq, Repr

/-- Insertion-ordered map update, as a JavaScript `Map` behaves: replace
in place when the key exists, append otherwise. -/
def upsertEntry (m : List (GridPos × SeqEntry)) (key : GridPos)
    (f : SeqEntry → SeqEntry) : List (GridPos × SeqEntry) :=
  match m with
  | [] => [(key, f {})]
  | (k, e) :: rest =>
      if k = key then (k, f e) :: rest else (k, e) :: upsertEntry rest key f

/-- Build `positionToSequences`: all horizontal runs first (setting `h`),
then all vertical runs (setting `v`). -/
def positionToSequences (hseqs vseqs : List (List SeqCell)) :
    List (GridPos × SeqEntry) :=
  let withH := hseqs.foldl (fun m seq =>
    seq.foldl (fun m cell => upsertEntry m (cell.row, cell.col)
      (fun e => { e with h := some seq })) m) []
  vseqs.foldl (fun m seq =>
    seq.foldl (fun m cell => upsertEntry m (cell.row, cell.col)
      (fun e => { e with v := some seq })) m) withH

/-- The JavaScript `Set` of positions: append only first occurrences. -/
def insertUniquePos (l : List GridPos) (p : GridPos) : List GridPos :=
  if p ∈ l then l else l ++ [p]

/-- Merge an intersecting horizontal and vertical run into one compound
match; shape `T` when the intersection is strictly interior to either
run, else `L`. -/
def mergedMatch (key : GridPos) (hseq vseq : List SeqCell) : PuzzleMatch :=
  let positions := ((hseq.map (fun cell => ((cell.row, cell.col) : GridPos))) ++
    vseq.map (fun cell => ((cell.row, cell.col) : GridPos))).foldl insertUniquePos []
  let hStart := (hseq.head?.map (·.col.val)).getD 0
  let hEnd := (hseq.getLast?.map (·.col.val)).getD 0
  let vStart := (vseq.head?.map (·.row.val)).getD 0
  let vEnd := (vseq.getLast?.map (·.row.val)).getD 0
  let isHMiddle := key.2.val > hStart ∧ key.2.val < hEnd
  let isVMiddle := key.1.val > vStart ∧ key.1.val < vEnd
  { positions
    direction := .both
    shape := if isHMiddle ∨ isVMiddle then .tee else .ell
    type := (hseq.head?.map (·.type)).getD .magnifier }

/-- The intersection pass of `findMatches`: walk the position map in
insertion order, merging each not-yet-processed crossing pair. -/
def intersectionPass :
    List (GridPos × SeqEntry) → List PuzzleMatch →
      List (List SeqCell) → List (List SeqCell) →
        List PuzzleMatch × List (List SeqCell) × List (List SeqCell)
  | [], ms, ph, pv => (ms, ph, pv)
  | (key, entry) :: rest, ms, ph, pv =>
      match entry.h, entry.v with
      | some hseq, some vseq =>
          if hseq ∉ ph ∧ vseq ∉ pv then
            intersectionPass rest (ms ++ [mergedMatch key hseq vseq])
              (ph ++ [hseq]) (pv ++ [vseq])
          else intersectionPass rest ms ph pv
      | _, _ => intersectionPass rest ms ph pv

def lineMatchOf (dir : MatchDirection) (seq : List SeqCell) : PuzzleMatch :=
  { positions := seq.map (fun cell => ((cell.row, cell.col) : GridPos))
    direction := dir
    shape := .line
    type := (seq.head?.map (·.type)).getD .magnifier }

/-- src/game/panel_puzzle.ts `findMatches`: horizontal and vertical runs
of ≥ 3, with crossing runs merged into L/T compound matches; compound
matches first, then leftover horizontal runs, then leftover vertical
runs. -/
def findMatches (g : Grid) : List PuzzleMatch :=
  let hseqs := horizontalSequences g
  let vseqs := verticalSequences g
  let pmap := positionToSequences hseqs vseqs
  let (merged, ph, pv) := intersectionPass pmap [] [] []
  merged ++ (hseqs.filter (· ∉ ph)).map (lineMatchOf .horizontal) ++
    (vseqs.filter (· ∉ pv)).map (lineMatchOf .vertical)

/-- `isAdjacent`: 4-directional adjacency. -/
def isAdjacent (p1 p2 : GridPos) : Bool :=
  let rowDiff := ((p1.1.val : Int) - p2.1.val).natAbs
  let colDiff := ((p1.2.val : Int) - p2.2.val).natAbs
  (rowDiff = 1 ∧ colDiff = 0) ∨ (rowDiff = 0 ∧ colDiff = 1)

/-- The tentative swap of `trySwap`: exchange the two cells and refresh
the stored row/col of any panel that moved. -/
def swapGrid (g : Grid) (p1 p2 : GridPos) : Grid :=
  let panel1 := g p1
  let panel2 := g p2
  let g1 := Function.update (Function.update g p1 panel2) p2 panel1
  let g2 := match g1 p1 with
    | some pl => Function.update g1 p1 (some { pl with row := p1.1, col := p1.2 })
    | none => g1
  match g2 p2 with
  | some pl => Function.update g2 p2 (some { pl with row := p2.1, col := p2.2 })
  | none => g2

structure SwapResult where
  swapped : Bool
  state : PanelPuzzleState
deriving DecidableEq

/-- src/game/panel_puzzle.ts `trySwap`: needs a selection; rejects a
non-adjacent target unchanged; tentatively swaps and reverts (clearing
only the selection) when the swapped grid has no match; otherwise commits
the swapped grid. -/
def trySwap (state : PanelPuzzleState) (target : GridPos) : SwapResult :=
  match state.selected with
  | none => ⟨false, state⟩
  | some sel =>
      if ¬ isAdjacent sel target then ⟨false, state⟩
      else
        let newGrid := swapGrid state.grid sel target
        if findMatches newGrid = [] then
          ⟨false, { state with selected := none }⟩
        else
          ⟨true, { state with grid := newGrid, selected := none, isAnimating := true }⟩

/-- A bonus tile queued for creation (`bonusToCreate`). -/
structure PendingBonus where
  pos : GridPos
  type : PanelType
  bonus : BonusType
deriving DecidableEq, Repr

/-- The bonus (if any) a single match earns, at the middle position of
its positions list: L/T → blast, length ≥ 5 → cross, length 4 → a line
clearer oriented along the match. -/
def bonusForMatch (m : PuzzleMatch) : Option PendingBonus :=
  let centerPos := m.positions.getD (m.positions.length / 2) (⟨0, by decide⟩, ⟨0, by decide⟩)
  if m.shape = .ell ∨ m.shape = .tee then
    some ⟨centerPos, m.type, .blast⟩
  else if m.positions.length ≥ 5 then
    some ⟨centerPos, m.type, .cross⟩
  else if m.positions.length = 4 then
    some ⟨centerPos, m.type,
      if m.direction = .horizontal then .lineH else .lineV⟩
  else none

def clearPositions (g : Grid) (ps : List GridPos) : Grid :=
  ps.foldl (fun g p => Function.update g p none) g

/-- Bonuses sitting on matched cells, queued in match order. -/
def collectBonuses (g : Grid) (ps : List GridPos) : List (GridPos × BonusType) :=
  ps.filterMap (fun p => (g p).bind (fun panel => panel.bonus.map (fun b => (p, b))))

/-- The per-match loop of `processMatches`: remember the (last) earned
bonus, queue bonuses caught in the match, clear the matched cells. -/
def processMatchesLoop :
    List PuzzleMatch → Grid → List (GridPos × BonusType) → Option PendingBonus →
      Grid × List (GridPos × BonusType) × Option PendingBonus
  | [], g, queue, btc => (g, queue, btc)
  | m :: rest, g, queue, btc =>
      let btc' := match bonusForMatch m with
        | some nb => some nb
        | none => btc
      let queue' := queue ++ collectBonuses g m.positions
      let g' := clearPositions g m.positions
      processMatchesLoop rest g' queue' btc'

/-- `activateBonus`: the non-null cells a bonus clears (row, column,
row+column, or the 3 × 3 neighbourhood). -/
def activateBonus (g : Grid) (p : GridPos) (bonus : BonusType) : List GridPos :=
  match bonus with
  | .lineH => (List.finRange gridCols).filterMap (fun c =>
      if g (p.1, c) ≠ none then some ((p.1, c) : GridPos) else none)
  | .lineV => (List.finRange gridRows).filterMap (fun r =>
      if g (r, p.2) ≠ none then some ((r, p.2) : GridPos) else none)
  | .cross =>
      (List.finRange gridCols).filterMap (fun c =>
        if g (p.1, c) ≠ none then some ((p.1, c) : GridPos) else none) ++
      (List.finRange gridRows).filterMap (fun r =>
        if g (r, p.2) ≠ none ∧ r ≠ p.1 then some ((r, p.2) : GridPos) else none)
  | .blast =>
      (([-1, 0, 1] : List Int).flatMap (fun dr =>
        ([-1, 0, 1] : List Int).map (fun dc => (dr, dc)))).filterMap (fun d =>
          let r := (p.1.val : Int) + d.1
          let c := (p.2.val : Int) + d.2
          if hr : 0 ≤ r ∧ r < gridRows then
            if hc : 0 ≤ c ∧ c < gridCols then
              let q : GridPos := (⟨r.toNat, by omega⟩, ⟨c.toNat, by omega⟩)
              if g q ≠ none then some q else none
            else none
          else none)

set_option maxRecDepth 4000 in
/-- The breadth-first bonus activation loop of `processMatches`: pop a
queued bonus, skip it if its position already activated, otherwise clear
its area, chain-queue any bonuses caught in that area, and mark the
position activated. -/
def activationLoop (g : Grid) (queue : List (GridPos × BonusType))
    (visited : Finset GridPos) : Grid :=
  match queue with
  | [] => g
  | (p, b) :: rest =>
      if p ∈ visited then activationLoop g rest visited
      else
        let cleared := activateBonus g p b
        let visited' := insert p visited
        let chained := cleared.filterMap (fun q =>
          (g q).bind (fun panel => panel.bonus.bind (fun nb =>
            if q ∉ visited' then some (q, nb) else none)))
        activationLoop (clearPositions g cleared) (rest ++ chained) visited'
termination_by ((Fintype.card GridPos + 1) - visited.card) * 100 + queue.length
decreasing_by
  · simp only [List.length_cons]
    omega
  · have hcard : visited.card ≤ Fintype.card GridPos := Finset.card_le_univ _
    have hins : (insert p visited).card = visited.card + 1 :=
      Finset.card_insert_of_not_mem (by assumption)
    have hact : (activateBonus g p b).length ≤ 72 := by
      have h6 : (List.finRange gridCols).length = 6 := by simp [gridCols]
      have h12 : (List.finRange gridRows).length = 12 := by simp [gridRows]
      cases b with
      | lineH => exact le_trans (List.length_filterMap_le _ _) (by omega)
      | lineV => exact le_trans (List.length_filterMap_le _ _) (by omega)
      | cross =>
          rw [activateBonus, List.length_append]
          have h1 := List.length_filterMap_le (fun c =>
            if g (p.1, c) ≠ none then some ((p.1, c) : GridPos) else none)
            (List.finRange gridCols)
          have h2 := List.length_filterMap_le (fun r =>
            if g (r, p.2) ≠ none ∧ r ≠ p.1 then some ((r, p.2) : GridPos) else none)
            (List.finRange gridRows)
          omega
      | blast =>
          refine le_trans (List.length_filterMap_le _ _) ?_
          decide
    have hch := le_trans
      (List.length_filterMap_le (fun q => (g q).bind fun pl => pl.bonus.bind fun nb =>
        if _h : q ∉ insert p visited then some (q, nb) else none) (activateBonus g p b))
      hact
    simp only [List.length_append, List.length_cons, hins]
    omega

/-- src/game/panel_puzzle.ts `processMatches`.  `pid` is the module
counter `panelIdCounter` from which a created bonus panel takes its id. -/
def processMatches (pid : Nat) (state : PanelPuzzleState) : PanelPuzzleState :=
  let ms := findMatches state.grid
  if ms = [] then { state with isAnimating := false }
  else
    let tri := processMatchesLoop ms state.grid [] none
    let queue := tri.2.1
    let bonusToCreate := tri.2.2
    let g2 := activationLoop tri.1 queue ∅
    let g3 := match bonusToCreate with
      | some b =>
          if g2 b.pos = none then
            Function.update g2 b.pos
              (some ⟨b.type, some b.bonus, b.pos.1.val, b.pos.2.val, pid⟩)
          else g2
      | none => g2
    let baseScore : Nat := ms.foldl (fun sum m => sum + m.positions.length * 10) 0
    let comboMultiplier : ℚ := 1 + (state.combo : ℚ) * (1 / 2)
    let newScore := state.score + ⌊(baseScore : ℚ) * comboMultiplier⌋
    { state with
        grid := g3
        score := newScore
        combo := state.combo + 1
        isAnimating := true }

/-- src/game/panel_puzzle.ts `resetComboIfNoMatch`. -/
def resetComboIfNoMatch (state : PanelPuzzleState) : PanelPuzzleState :=
  if findMatches state.grid = [] then { state with combo := 0 } else state

/-! ## Derived notions used by the claims -/

/-- The pending bonus of the last qualifying match in a match list (the
per-match loop overwrites `bonusToCreate`, so the last one wins). -/
def lastQualifyingBonus (ms : List PuzzleMatch) : Option PendingBonus :=
  ms.reverse.findSome? bonusForMatch

/-- Everything claim C10 asserts of one `processMatches` call that found
at least one match, phrased against the grid `g2` left by clearing and
bonus activation: the surviving pending bonus comes from the last
qualifying match; at most one cell differs from `g2`; any differing cell
is that bonus target, was empty in `g2`, and now holds the bonus panel;
and an occupied target suppresses placement entirely. -/
def CreatesAtMostOneBonus (pid : Nat) (s : PanelPuzzleState) : Prop :=
  let ms := findMatches s.grid
  let tri := processMatchesLoop ms s.grid [] none
  let g2 := activationLoop tri.1 tri.2.1 ∅
  tri.2.2 = lastQualifyingBonus ms ∧
  (Finset.univ.filter (fun p => (processMatches pid s).grid p ≠ g2 p)).card ≤ 1 ∧
  (∀ p, (processMatches pid s).grid p ≠ g2 p →
    ∃ b, lastQualifyingBonus ms = some b ∧ p = b.pos ∧ g2 b.pos = none ∧
      (processMatches pid s).grid p =
        some ⟨b.type, some b.bonus, b.pos.1.val, b.pos.2.val, pid⟩) ∧
  (∀ b, lastQualifyingBonus ms = some b → g2 b.pos ≠ none →
    (processMatches pid s).grid = g2)

/-! ## Concrete instances used by witnesses -/

/-- A concrete stream of values in `[0,1)` on which the generation
pipeline demonstrably succeeds. -/
def exampleStream : Nat → ℚ := fun n => (((n * 7 + 3) % 11 : Nat) : ℚ) / 11

def exampleOps : RngOps Nat := streamOps exampleStream

/-- An empty 12 × 6 grid. -/
def emptyGrid : Grid := fun _ => none

/-- A puzzle state with an empty grid, a live combo chain and a
selection on the bottom-left cell. -/
def settleState : PanelPuzzleState :=
  { grid := emptyGrid
    score := 0
    combo := 1
    targetScore := 500
    timeRemaining := 60
    isAnimating := true
    isGameOver := false
    riseProgress := 0
    nextRow := []
    selected := some (⟨11, by decide⟩, ⟨0, by decide⟩) }

/-- A grid holding a horizontal 3-run of magnifiers on the bottom row
and a horizontal 4-run of keys on the row above. -/
def witnessGrid : Grid := fun p =>
  if p.1.val = 11 ∧ p.2.val ≤ 2 then some ⟨.magnifier, none, 11, p.2.val, 0⟩
  else if p.1.val = 10 ∧ p.2.val ≤ 3 then some ⟨.key, none, 10, p.2.val, 1⟩
  else none

/-- A puzzle state over `witnessGrid` with a selection at the bottom-left
cell. -/
def witnessState : PanelPuzzleState :=
  { settleState with grid := witnessGrid, combo := 0 }

/-- An inert `Case` value, used only to name the result of a concrete
successful generator run (`Option.getD`); no property is ever proved of
it directly. -/
def fallbackCase : Case :=
  { seed := ""
    suspects := []
    relationships := []
    locations := []
    clues := []
    alibis := []
    victim := 0
    killer := 0
    motive := .greed
    weapon := .knife
    crimeScene := 0
    timeOfDeath := ⟨0, ""⟩ }

/-- The number of honest (non-red-herring) clues implicating suspect
`kid` — the quantity the difficulty setting is supposed to control. -/
def killerClueCount (kid : SuspectId) (clues : List Clue) : Nat :=
  clues.countP (fun cl => decide (cl.pointsTo = some kid) && !cl.isRedHerring)

/-- One concrete generator run on the example stream (the state map
ignores the seed text: the stream itself is the seed). -/
def exampleCaseRun (config : CaseGeneratorConfig) : Option Case :=
  generateCase exampleOps (fun _ => 0) 9 config 1 "w"

/-- The case produced by the concrete run (defaulting to `fallbackCase`,
which `exampleCaseRun_some`-style `rfl` hypotheses rule out). -/
def exampleCase (config : CaseGeneratorConfig) : Case :=
  (exampleCaseRun config).getD fallbackCase

/-- One concrete testimony-generation run over the example case. -/
def exampleTestimoniesRun : Option (List (SuspectId × Testimony) × Nat) :=
  generateTestimonies exampleOps (exampleCase defaultConfig) 0

/-! ## Game state and reducer (src/game/game_state.ts, game_reducer.ts)

Only the reducer actions exercised by the claims are embedded; each is a
faithful translation of its source case.  JavaScript `Set`s and `Map`s
are insertion-ordered lists.  The reducer is a total function: no action
below can throw. -/

inductive GamePhase
  | intro | investigation | accusation | resolution
deriving DecidableEq, Repr

structure PlayerKnowledge where
  discoveredClues : List ClueId
  examinedLocations : List LocationId
  interrogatedSuspects : List SuspectId
  revealedContradictions : List String
  notes : List (SuspectId × String)
deriving DecidableEq, Repr

structure InterrogationState where
  suspectId : SuspectId
  currentStatementIndex : Nat
  pressedStatements : List Nat
  presentedEvidence : List (Nat × ClueId)
deriving DecidableEq, Repr

/-- src/game/game_state.ts `Accusation`. -/
structure GameAccusation where
  accusedId : SuspectId
  motive : MotiveType
  supportingEvidence : List ClueId
deriving DecidableEq, Repr

structure GameResult where
  won : Bool
  correctKiller : SuspectId
  playerAccused : SuspectId
  cluesFound : Nat
  totalClues : Nat
  contradictionsFound : Nat
  totalContradictions : Nat
deriving DecidableEq, Repr

structure GameState where
  phase : GamePhase
  generatedCase : Case
  playerKnowledge : PlayerKnowledge
  currentLocation : Option LocationId
  interrogation : Option InterrogationState
  accusation : Option GameAccusation
  result : Option GameResult
  mistakeCount : Nat
  maxMistakes : Nat
  searchTokens : Nat
deriving DecidableEq, Repr

def createInitialGameState (generatedCase : Case) : GameState :=
  { phase := .intro
    generatedCase
    playerKnowledge := ⟨[], [], [], [], []⟩
    currentLocation := some generatedCase.crimeScene
    interrogation := none
    accusation := none
    result := none
    mistakeCount := 0
    maxMistakes := 5
    searchTokens := 3 }

/-- `new Set([...old, x])` in insertion order. -/
def insertUniqueNat (l : List Nat) (x : Nat) : List Nat :=
  if x ∈ l then l else l ++ [x]

inductive GameAction
  | startGame
  | startInterrogation (suspectId : SuspectId)
  | endInterrogation
  | nextStatement
  | previousStatement
deriving DecidableEq, Repr

/-- src/game/game_reducer.ts `gameReducer`, restricted to the embedded
actions.  `NEXT_STATEMENT` increments `currentStatementIndex` without any
bound check; `PREVIOUS_STATEMENT` clamps at 0 via `Math.max`. -/
def gameReducer (state : GameState) (action : GameAction) : GameState :=
  match action with
  | .startGame => { state with phase := .investigation }
  | .startInterrogation sid =>
      let pk := state.playerKnowledge
      let pk2 : PlayerKnowledge :=
        { discoveredClues := pk.discoveredClues
          examinedLocations := pk.examinedLocations
          interrogatedSuspects := insertUniqueNat pk.interrogatedSuspects sid
          revealedContradictions := pk.revealedContradictions
          notes := pk.notes }
      { state with
          interrogation := some ⟨sid, 0, [], []⟩
          playerKnowledge := pk2 }
  | .endInterrogation => { state with interrogation := none }
  | .nextStatement =>
      match state.interrogation with
      | none => state
      | some itg =>
          let itg2 : InterrogationState :=
            { suspectId := itg.suspectId
              currentStatementIndex := itg.currentStatementIndex + 1
              pressedStatements := itg.pressedStatements
              presentedEvidence := itg.presentedEvidence }
          { state with interrogation := some itg2 }
  | .previousStatement =>
      match state.interrogation with
      | none => state
      | some itg =>
          let itg2 : InterrogationState :=
            { suspectId := itg.suspectId
              currentStatementIndex := itg.currentStatementIndex - 1
              pressedStatements := itg.pressedStatements
              presentedEvidence := itg.presentedEvidence }
          { state with interrogation := some itg2 }

/-- The interrogation index after START_GAME, START_INTERROGATION and
three NEXT_STATEMENT dispatches (the scenario of the spec). -/
def interrogationIndexAfter3 (c : Case) (sid : SuspectId) : Option Nat :=
  (gameReducer (gameReducer (gameReducer (gameReducer (gameReducer
    (createInitialGameState c) .startGame) (.startInterrogation sid))
    .nextStatement) .nextStatement) .nextStatement).interrogation.map
      (fun itg => itg.currentStatementIndex)

/-- An inert suspect value used only as an `Option.getD` default in
witnesses. -/
def fallbackSuspect : Suspect :=
  { id := 0
    firstName := ""
    lastName := ""
    occupation := ""
    age := 0
    description := ""
    personality := ⟨0, 0, 0, 0⟩ }

/-! ## The seedrandom PRNG (the npm seedrandom package used by createRandom)

src/generation/random.ts seeds the npm `seedrandom` package.  Its
algorithm (seedrandom 3.x) is modelled bit-exactly: `mixkey` reduces a
short ASCII seed to its masked character codes, an RC4 key schedule and
an RC4-drop(256) discard set up the generator, and each `prng()` call
accumulates 6-byte chunks up to 53 significant bits, yielding an exact
dyadic rational; the JavaScript double arithmetic inside `prng()` is
exact at every step except the final `n + x`, and `Math.floor(rng() * m)`
performs one 53-bit round-to-nearest-even multiplication, both modelled
via `jsRound53`.  The 256-byte RC4 state is stored as 16 rows of 16. -/

def sGet (s : List (List Nat)) (k : Nat) : Nat :=
  (s.getD (k / 16) []).getD (k % 16) 0

def sSet (s : List (List Nat)) (k v : Nat) : List (List Nat) :=
  s.set (k / 16) ((s.getD (k / 16) []).set (k % 16) v)

def sInit : List (List Nat) :=
  (List.range 16).map (fun r => (List.range 16).map (fun c => r * 16 + c))

structure Arc4State where
  S : List (List Nat)
  i : Nat
  j : Nat
deriving DecidableEq, Repr

def arc4KeyGo (key : List Nat) : Nat → Nat → Nat → List (List Nat) → List (List Nat)
  | 0, _, _, s => s
  | n + 1, i, j, s =>
      let t := sGet s i
      let j2 := (j + key.getD (i % key.length) 0 + t) % 256
      let sj := sGet s j2
      arc4KeyGo key n (i + 1) j2 (sSet (sSet s i sj) j2 t)

def arc4Byte (st : Arc4State) : Nat × Arc4State :=
  let i := (st.i + 1) % 256
  let t := sGet st.S i
  let j := (st.j + t) % 256
  let sj := sGet st.S j
  let s2 := sSet (sSet st.S i sj) j t
  (sGet s2 ((sj + t) % 256), ⟨s2, i, j⟩)

def arc4GGo : Nat → Nat → Arc4State → Nat × Arc4State
  | 0, r, st => (r, st)
  | n + 1, r, st =>
      let p := arc4Byte st
      arc4GGo n (r * 256 + p.1) p.2

def arc4G (n : Nat) (st : Arc4State) : Nat × Arc4State := arc4GGo n 0 st

def arc4Init (key0 : List Nat) : Arc4State :=
  let key := if key0.isEmpty then [0] else key0
  let s := arc4KeyGo key 256 0 0 sInit
  (arc4G 256 ⟨s, 0, 0⟩).2

def jsSeedState (seed : String) : Arc4State :=
  arc4Init (seed.data.map (fun c => c.toNat % 256))

def natBits : Nat → Nat → Nat
  | 0, _ => 0
  | fuel + 1, p => if p = 0 then 0 else natBits fuel (p / 2) + 1

def jsRound53 (p : Nat) : Nat :=
  let bits := natBits 128 p
  if bits ≤ 53 then p
  else
    let shift := bits - 53
    let keep := p / 2 ^ shift
    let rem := p % 2 ^ shift
    let half := 2 ^ (shift - 1)
    if rem > half then (keep + 1) * 2 ^ shift
    else if rem < half then keep * 2 ^ shift
    else if keep % 2 = 1 then (keep + 1) * 2 ^ shift
    else keep * 2 ^ shift

def prngAccum : Nat → Nat → Nat → Nat → Arc4State → Nat × Nat × Nat × Arc4State
  | 0, n, dExp, x, st => (n, dExp, x, st)
  | fuel + 1, n, dExp, x, st =>
      if n < 2 ^ 52 then
        let p := arc4G 1 st
        prngAccum fuel ((n + x) * 256) (dExp + 8) p.1 p.2
      else (n, dExp, x, st)

def prngShrink : Nat → Nat → Nat → Nat → Nat × Nat × Nat
  | 0, n, dExp, x => (n, dExp, x)
  | fuel + 1, n, dExp, x =>
      if 2 ^ 53 ≤ n then prngShrink fuel (n / 2) (dExp - 1) (x / 2)
      else (n, dExp, x)

def jsPrngRaw (st : Arc4State) : (Nat × Nat) × Arc4State :=
  let g6 := arc4G 6 st
  let acc := prngAccum 60 g6.1 48 0 g6.2
  let fin := prngShrink 60 acc.1 acc.2.1 acc.2.2.1
  ((jsRound53 (fin.1 + fin.2.2), fin.2.1), acc.2.2.2)

def jsPrng (st : Arc4State) : ℚ × Arc4State :=
  let p := jsPrngRaw st
  ((p.1.1 : ℚ) / 2 ^ p.1.2, p.2)

def jsFloorMul (r : ℚ) (m : Nat) : Nat :=
  let v := r * (m : ℚ)
  jsRound53 v.num.toNat / v.den

def jsPrngRawChunk : Nat → Arc4State → List (Nat × Nat) × Arc4State
  | 0, st => ([], st)
  | n + 1, st =>
      let p := jsPrngRaw st
      let rest := jsPrngRawChunk n p.2
      (p.1 :: rest.1, rest.2)

def c9SnapLit0 : Arc4State :=
  ⟨[[136, 147, 42, 254, 39, 177, 148, 182, 74, 202, 206, 233, 22, 93, 20, 168],
     [94, 181, 228, 227, 6, 40, 27, 5, 211, 235, 61, 44, 75, 59, 204, 207],
     [104, 237, 152, 201, 232, 157, 240, 178, 222, 96, 115, 4, 92, 158, 149, 219],
     [140, 141, 54, 19, 175, 100, 112, 150, 1, 57, 203, 212, 209, 133, 225, 187],
     [217, 41, 103, 71, 163, 180, 250, 119, 137, 218, 210, 36, 145, 121, 102, 33],
     [124, 90, 35, 47, 34, 159, 185, 162, 107, 128, 244, 84, 46, 3, 200, 241],
     [139, 32, 117, 164, 238, 73, 2, 52, 146, 48, 83, 60, 81, 192, 173, 99],
     [79, 55, 101, 123, 80, 53, 194, 26, 131, 125, 253, 249, 108, 199, 116, 229],
     [13, 246, 224, 248, 65, 77, 37, 138, 69, 143, 153, 144, 29, 234, 221, 154],
     [106, 172, 213, 10, 129, 184, 98, 95, 242, 195, 166, 24, 155, 188, 193, 174],
     [135, 167, 97, 105, 190, 130, 66, 214, 7, 160, 9, 67, 15, 165, 142, 63],
     [255, 23, 16, 28, 45, 113, 51, 70, 205, 179, 197, 223, 220, 216, 118, 12],
     [127, 0, 247, 230, 43, 134, 126, 252, 191, 68, 231, 14, 122, 76, 176, 62],
     [58, 72, 64, 17, 198, 11, 243, 18, 189, 38, 56, 82, 25, 120, 109, 89],
     [85, 132, 236, 251, 169, 196, 86, 183, 156, 170, 111, 30, 245, 78, 208, 110],
     [87, 114, 91, 171, 186, 239, 31, 50, 161, 88, 49, 8, 21, 226, 215, 151]], 0, 40⟩

def c9SnapLit1 : Arc4State :=
  ⟨[[136, 223, 23, 251, 206, 124, 33, 141, 18, 235, 220, 96, 34, 43, 129, 107],
     [100, 210, 74, 54, 71, 213, 97, 159, 47, 59, 254, 37, 40, 24, 205, 199],
     [240, 144, 201, 177, 209, 39, 81, 236, 137, 160, 72, 193, 108, 244, 152, 180],
     [125, 147, 111, 226, 15, 168, 46, 248, 67, 45, 203, 211, 105, 106, 104, 35],
     [3, 2, 76, 120, 90, 57, 84, 25, 179, 135, 118, 51, 126, 218, 130, 103],
     [99, 163, 14, 185, 82, 13, 12, 234, 184, 113, 77, 92, 80, 26, 121, 195],
     [214, 132, 30, 49, 156, 55, 204, 7, 161, 127, 6, 153, 5, 233, 78, 202],
     [242, 48, 237, 83, 89, 122, 221, 172, 65, 253, 4, 138, 62, 98, 95, 207],
     [140, 115, 200, 53, 28, 225, 114, 148, 64, 190, 66, 162, 165, 79, 94, 17],
     [157, 192, 139, 112, 22, 58, 197, 217, 174, 231, 171, 69, 158, 243, 219, 186],
     [255, 128, 249, 215, 178, 29, 191, 0, 166, 245, 239, 27, 183, 154, 194, 149],
     [109, 56, 227, 187, 181, 133, 93, 241, 52, 75, 247, 63, 116, 198, 60, 117],
     [216, 20, 10, 228, 155, 189, 212, 175, 134, 16, 70, 119, 238, 143, 151, 73],
     [36, 102, 222, 250, 85, 229, 31, 123, 91, 145, 196, 131, 224, 1, 230, 11],
     [182, 101, 246, 142, 169, 42, 86, 252, 150, 170, 68, 38, 167, 173, 208, 110],
     [87, 44, 61, 41, 32, 9, 188, 50, 146, 88, 164, 8, 21, 19, 232, 176]], 227, 26⟩

def c9SnapLit2 : Arc4State :=
  ⟨[[221, 197, 154, 166, 136, 52, 22, 121, 92, 243, 191, 209, 115, 51, 85, 252],
     [215, 122, 43, 106, 236, 86, 26, 83, 177, 204, 179, 190, 186, 132, 32, 8],
     [163, 205, 251, 234, 116, 109, 45, 175, 180, 27, 144, 127, 65, 5, 14, 161],
     [29, 67, 0, 37, 184, 201, 78, 253, 200, 211, 108, 4, 245, 100, 171, 248],
     [101, 168, 148, 158, 212, 153, 53, 75, 39, 31, 126, 170, 220, 40, 7, 156],
     [98, 218, 89, 113, 181, 61, 119, 62, 80, 195, 183, 227, 174, 97, 15, 18],
     [231, 16, 219, 244, 88, 208, 47, 44, 57, 194, 77, 71, 125, 198, 207, 241],
     [111, 42, 155, 76, 199, 138, 9, 151, 188, 59, 30, 99, 193, 130, 93, 185],
     [139, 107, 6, 69, 129, 202, 203, 235, 187, 58, 128, 255, 254, 232, 217, 94],
     [3, 118, 214, 140, 96, 165, 225, 17, 162, 103, 152, 13, 25, 213, 239, 64],
     [105, 33, 145, 182, 146, 206, 167, 60, 49, 149, 2, 112, 23, 229, 137, 84],
     [63, 173, 68, 56, 160, 1, 196, 133, 159, 21, 123, 87, 189, 54, 114, 210],
     [24, 50, 35, 117, 66, 34, 233, 242, 134, 216, 70, 19, 238, 143, 172, 73],
     [36, 102, 222, 250, 28, 150, 135, 48, 91, 249, 95, 131, 224, 20, 230, 11],
     [55, 41, 246, 142, 228, 240, 120, 10, 226, 38, 169, 46, 157, 247, 176, 178],
     [82, 74, 124, 164, 223, 192, 90, 110, 72, 147, 81, 79, 141, 12, 104, 237]], 199, 39⟩

def c9SnapLit3 : Arc4State :=
  ⟨[[244, 119, 165, 70, 117, 186, 175, 203, 210, 64, 215, 208, 219, 164, 228, 248],
     [135, 59, 235, 108, 188, 37, 86, 141, 8, 205, 154, 190, 181, 193, 26, 158],
     [87, 155, 156, 148, 202, 48, 12, 144, 169, 172, 71, 9, 40, 94, 134, 30],
     [49, 16, 24, 206, 74, 214, 127, 92, 2, 130, 18, 69, 10, 174, 189, 62],
     [55, 34, 195, 137, 6, 170, 98, 13, 35, 152, 83, 153, 43, 93, 126, 143],
     [136, 241, 14, 44, 61, 128, 247, 125, 226, 198, 204, 250, 45, 185, 15, 234],
     [207, 33, 149, 25, 105, 146, 224, 72, 110, 225, 65, 147, 36, 118, 187, 113],
     [178, 221, 80, 104, 162, 3, 249, 39, 32, 176, 150, 4, 101, 131, 216, 41],
     [191, 19, 239, 103, 245, 121, 179, 52, 28, 218, 20, 243, 240, 231, 138, 142],
     [73, 29, 161, 50, 75, 192, 99, 0, 196, 209, 116, 100, 230, 232, 124, 17],
     [58, 177, 54, 254, 173, 96, 183, 159, 102, 91, 200, 112, 23, 222, 85, 84],
     [63, 251, 68, 56, 160, 38, 199, 133, 252, 21, 123, 163, 171, 227, 114, 238],
     [111, 140, 151, 53, 66, 168, 233, 242, 229, 212, 81, 122, 237, 223, 184, 166],
     [79, 76, 46, 120, 197, 255, 57, 7, 115, 157, 167, 129, 88, 236, 180, 194],
     [47, 31, 253, 77, 67, 78, 182, 90, 5, 1, 42, 82, 145, 60, 22, 201],
     [211, 106, 109, 139, 217, 132, 89, 220, 213, 27, 107, 95, 97, 11, 51, 246]], 168, 6⟩

def c9SnapLit4 : Arc4State :=
  ⟨[[69, 125, 3, 157, 180, 24, 193, 113, 121, 137, 10, 78, 86, 61, 134, 95],
     [184, 87, 189, 172, 224, 90, 149, 130, 170, 77, 195, 65, 233, 70, 80, 25],
     [44, 63, 197, 192, 76, 244, 8, 176, 228, 116, 129, 98, 139, 19, 230, 158],
     [154, 123, 31, 251, 136, 218, 27, 186, 156, 33, 53, 203, 235, 143, 226, 160],
     [221, 127, 57, 188, 47, 122, 232, 208, 118, 20, 239, 75, 252, 97, 205, 241],
     [46, 131, 88, 164, 83, 223, 245, 21, 32, 183, 219, 28, 236, 104, 240, 106],
     [68, 126, 6, 40, 2, 62, 194, 38, 43, 4, 153, 1, 52, 206, 178, 191],
     [216, 171, 34, 39, 81, 0, 51, 145, 117, 15, 74, 67, 71, 248, 213, 23],
     [56, 42, 26, 196, 142, 229, 17, 150, 64, 22, 173, 72, 144, 128, 222, 247],
     [73, 29, 161, 50, 133, 199, 99, 60, 210, 112, 89, 100, 255, 9, 124, 151],
     [58, 177, 54, 254, 114, 96, 202, 159, 102, 140, 108, 209, 155, 119, 147, 92],
     [91, 55, 231, 168, 146, 243, 14, 107, 120, 66, 30, 18, 167, 190, 166, 217],
     [111, 201, 179, 175, 11, 214, 79, 135, 132, 212, 82, 227, 94, 207, 101, 163],
     [59, 198, 36, 103, 35, 13, 48, 84, 215, 37, 225, 174, 148, 237, 182, 220],
     [12, 242, 246, 109, 152, 169, 253, 105, 93, 41, 115, 49, 234, 85, 138, 141],
     [204, 249, 165, 187, 45, 181, 200, 238, 16, 110, 7, 211, 185, 5, 250, 162]], 138, 73⟩

def c9SnapLit5 : Arc4State :=
  ⟨[[234, 95, 75, 171, 103, 138, 61, 82, 30, 49, 166, 133, 219, 70, 227, 53],
     [140, 37, 22, 148, 73, 98, 164, 217, 231, 241, 165, 192, 128, 253, 135, 78],
     [154, 150, 172, 173, 35, 155, 177, 221, 238, 184, 74, 174, 76, 129, 236, 60],
     [186, 125, 105, 66, 65, 107, 212, 204, 42, 84, 97, 249, 20, 248, 28, 67],
     [206, 223, 244, 94, 9, 213, 194, 46, 224, 88, 7, 175, 151, 245, 86, 252],
     [1, 126, 118, 141, 15, 32, 18, 6, 229, 152, 250, 198, 179, 167, 17, 158],
     [47, 251, 232, 23, 130, 26, 162, 247, 137, 228, 69, 5, 52, 243, 178, 191],
     [216, 93, 34, 39, 13, 0, 147, 145, 117, 190, 19, 114, 71, 85, 122, 222],
     [56, 156, 101, 55, 142, 153, 240, 209, 92, 211, 100, 29, 36, 50, 40, 51],
     [2, 113, 102, 225, 106, 8, 104, 210, 181, 119, 41, 11, 180, 188, 218, 96],
     [77, 72, 33, 207, 48, 220, 4, 121, 110, 168, 14, 254, 197, 233, 12, 246],
     [109, 195, 123, 239, 203, 230, 91, 24, 54, 27, 237, 134, 189, 83, 59, 235],
     [144, 81, 176, 199, 136, 79, 3, 99, 193, 242, 131, 149, 25, 115, 62, 215],
     [187, 31, 159, 200, 90, 201, 160, 16, 143, 170, 255, 38, 43, 63, 146, 45],
     [169, 185, 64, 21, 163, 44, 111, 124, 157, 108, 132, 226, 202, 120, 112, 58],
     [139, 57, 196, 161, 10, 214, 89, 205, 183, 116, 68, 80, 182, 208, 127, 87]], 106, 133⟩

def c9SnapLit6 : Arc4State :=
  ⟨[[41, 94, 209, 135, 161, 249, 4, 185, 64, 6, 9, 99, 186, 154, 28, 61],
     [144, 195, 100, 155, 47, 131, 108, 98, 242, 132, 215, 97, 101, 226, 230, 42],
     [122, 164, 150, 21, 194, 217, 49, 36, 233, 87, 221, 244, 67, 157, 112, 118],
     [86, 134, 103, 222, 206, 245, 74, 176, 48, 250, 78, 0, 32, 105, 255, 156],
     [15, 43, 248, 223, 169, 180, 231, 3, 136, 89, 59, 211, 153, 72, 219, 252],
     [27, 126, 60, 92, 111, 173, 121, 127, 8, 152, 29, 214, 179, 167, 17, 158],
     [73, 251, 91, 178, 130, 26, 162, 247, 58, 228, 69, 55, 200, 37, 33, 109],
     [68, 106, 190, 133, 25, 13, 66, 31, 35, 137, 24, 139, 253, 220, 53, 128],
     [237, 18, 175, 22, 116, 10, 142, 5, 246, 125, 141, 56, 193, 216, 70, 147],
     [174, 80, 151, 129, 210, 96, 82, 119, 234, 81, 241, 145, 102, 182, 218, 146],
     [138, 187, 23, 2, 159, 212, 12, 113, 191, 202, 225, 71, 14, 197, 184, 75],
     [54, 232, 63, 165, 110, 104, 243, 114, 235, 149, 171, 240, 117, 188, 120, 172],
     [224, 83, 148, 140, 254, 124, 90, 77, 181, 57, 88, 123, 204, 85, 34, 168],
     [50, 39, 84, 7, 199, 177, 160, 46, 208, 44, 163, 166, 107, 1, 229, 213],
     [236, 79, 52, 20, 143, 170, 51, 19, 16, 203, 227, 201, 189, 115, 38, 62],
     [196, 76, 207, 40, 45, 198, 238, 95, 183, 65, 205, 239, 30, 11, 93, 192]], 75, 130⟩

def c9SnapLit7 : Arc4State :=
  ⟨[[206, 6, 204, 143, 253, 131, 37, 175, 230, 72, 5, 83, 163, 2, 82, 128],
     [76, 138, 150, 55, 161, 90, 249, 254, 38, 17, 189, 174, 226, 119, 144, 103],
     [147, 173, 176, 36, 159, 183, 62, 149, 171, 86, 57, 133, 11, 157, 214, 118],
     [193, 134, 42, 142, 70, 127, 151, 172, 48, 250, 252, 0, 32, 105, 219, 156],
     [18, 43, 14, 223, 202, 170, 231, 130, 136, 89, 59, 211, 97, 121, 241, 153],
     [164, 232, 13, 188, 234, 198, 33, 117, 94, 168, 225, 242, 220, 81, 201, 137],
     [84, 85, 233, 68, 92, 186, 184, 212, 213, 95, 99, 145, 67, 7, 88, 40],
     [60, 203, 113, 200, 180, 61, 210, 24, 51, 126, 191, 209, 192, 166, 91, 27],
     [167, 15, 47, 10, 125, 148, 195, 108, 26, 29, 109, 19, 218, 181, 28, 251],
     [63, 146, 74, 114, 139, 216, 71, 100, 246, 111, 255, 16, 45, 239, 177, 217],
     [75, 248, 96, 237, 205, 53, 244, 240, 165, 162, 52, 41, 122, 208, 169, 35],
     [20, 34, 221, 179, 101, 197, 215, 66, 238, 116, 194, 158, 115, 155, 110, 141],
     [98, 64, 93, 190, 236, 247, 160, 73, 123, 199, 46, 58, 65, 187, 80, 23],
     [120, 78, 182, 21, 39, 87, 31, 1, 185, 44, 229, 124, 135, 8, 112, 132],
     [54, 77, 25, 140, 152, 30, 243, 50, 227, 22, 235, 129, 106, 245, 154, 9],
     [4, 12, 3, 56, 228, 178, 79, 224, 196, 207, 69, 107, 102, 222, 104, 49]], 44, 43⟩

def c9SnapLit8 : Arc4State :=
  ⟨[[130, 151, 167, 63, 128, 47, 75, 227, 26, 50, 100, 127, 16, 2, 82, 6],
     [76, 27, 248, 142, 117, 101, 199, 254, 38, 190, 214, 172, 226, 119, 144, 194],
     [184, 173, 176, 36, 159, 59, 62, 156, 196, 251, 57, 4, 112, 123, 208, 60],
     [247, 242, 148, 55, 168, 185, 40, 110, 211, 32, 43, 252, 85, 46, 53, 0],
     [102, 9, 222, 243, 164, 84, 108, 72, 129, 235, 183, 198, 35, 161, 233, 157],
     [165, 231, 13, 52, 147, 109, 217, 118, 175, 238, 95, 93, 141, 68, 122, 221],
     [20, 126, 77, 74, 224, 236, 192, 81, 209, 51, 143, 19, 14, 3, 22, 56],
     [163, 18, 229, 241, 39, 10, 140, 220, 111, 187, 5, 28, 180, 58, 79, 61],
     [246, 31, 1, 206, 131, 240, 124, 162, 29, 67, 181, 154, 25, 44, 78, 169],
     [245, 138, 153, 133, 97, 179, 193, 178, 70, 186, 232, 121, 239, 105, 250, 244],
     [189, 150, 113, 115, 69, 197, 249, 188, 30, 37, 158, 41, 213, 177, 86, 120],
     [132, 48, 106, 182, 223, 215, 87, 96, 201, 33, 134, 92, 8, 225, 65, 88],
     [23, 104, 203, 71, 170, 139, 12, 89, 21, 80, 135, 125, 98, 83, 64, 174],
     [219, 145, 17, 116, 200, 99, 218, 210, 155, 191, 24, 204, 54, 166, 11, 255],
     [90, 234, 73, 34, 152, 212, 45, 136, 228, 107, 237, 146, 15, 137, 230, 149],
     [114, 195, 253, 7, 94, 91, 160, 207, 171, 205, 103, 66, 42, 216, 202, 49]], 12, 112⟩

def c9SnapLit9 : Arc4State :=
  ⟨[[174, 176, 161, 150, 128, 140, 75, 109, 233, 101, 100, 127, 16, 46, 124, 120],
     [164, 58, 83, 96, 112, 138, 166, 78, 72, 180, 179, 97, 36, 77, 254, 211],
     [173, 185, 38, 35, 1, 225, 85, 178, 93, 52, 226, 220, 141, 70, 239, 144],
     [17, 91, 67, 23, 209, 244, 235, 142, 181, 158, 99, 145, 66, 147, 198, 172],
     [149, 20, 68, 163, 59, 224, 219, 25, 152, 143, 89, 184, 107, 167, 146, 90],
     [210, 159, 64, 157, 54, 18, 255, 2, 183, 192, 139, 236, 169, 187, 8, 21],
     [79, 108, 232, 81, 92, 33, 156, 248, 22, 134, 31, 202, 29, 56, 162, 249],
     [14, 5, 80, 191, 73, 222, 110, 234, 245, 30, 227, 34, 123, 242, 168, 105],
     [133, 106, 247, 15, 40, 153, 240, 87, 217, 221, 237, 44, 61, 118, 196, 55],
     [39, 200, 82, 132, 9, 50, 71, 86, 213, 204, 122, 53, 188, 151, 37, 231],
     [76, 63, 170, 205, 116, 47, 175, 95, 119, 121, 65, 11, 165, 250, 214, 135],
     [60, 148, 104, 190, 155, 201, 177, 194, 218, 215, 98, 182, 51, 43, 27, 246],
     [19, 154, 243, 6, 131, 212, 195, 111, 129, 125, 126, 113, 69, 251, 3, 130],
     [28, 206, 24, 48, 45, 199, 208, 88, 49, 186, 84, 57, 229, 4, 13, 32],
     [203, 228, 189, 10, 241, 0, 238, 216, 136, 193, 252, 26, 197, 137, 230, 102],
     [114, 12, 253, 7, 94, 74, 160, 207, 171, 115, 103, 62, 42, 41, 117, 223]], 236, 118⟩

def c9SnapLit10 : Arc4State :=
  ⟨[[160, 22, 12, 9, 214, 247, 129, 102, 157, 5, 144, 169, 91, 140, 106, 150],
     [239, 233, 39, 44, 15, 175, 187, 220, 66, 167, 163, 121, 93, 83, 109, 196],
     [251, 25, 53, 172, 30, 114, 110, 36, 84, 216, 180, 213, 57, 225, 250, 76],
     [148, 147, 90, 20, 227, 50, 246, 124, 188, 254, 49, 242, 40, 26, 72, 191],
     [113, 104, 234, 205, 127, 146, 56, 70, 143, 19, 63, 35, 80, 96, 68, 98],
     [61, 245, 46, 211, 87, 243, 166, 73, 139, 58, 85, 240, 65, 218, 3, 81],
     [75, 24, 52, 201, 182, 229, 173, 192, 255, 82, 198, 131, 236, 120, 151, 253],
     [125, 28, 133, 204, 176, 7, 145, 112, 11, 115, 231, 8, 71, 103, 99, 179],
     [92, 2, 202, 194, 17, 111, 212, 18, 74, 41, 209, 135, 230, 232, 1, 126],
     [217, 210, 159, 37, 164, 224, 215, 38, 62, 168, 155, 108, 88, 136, 221, 185],
     [199, 16, 119, 170, 29, 60, 107, 94, 69, 105, 54, 244, 142, 21, 97, 43],
     [67, 186, 156, 51, 223, 89, 154, 79, 117, 222, 149, 116, 55, 165, 219, 174],
     [123, 183, 189, 162, 14, 118, 235, 100, 177, 47, 130, 27, 32, 77, 34, 171],
     [101, 42, 86, 48, 45, 153, 208, 181, 158, 31, 178, 141, 33, 4, 13, 128],
     [203, 228, 59, 10, 207, 200, 238, 237, 6, 193, 252, 248, 197, 122, 0, 184],
     [226, 64, 195, 23, 78, 152, 138, 241, 137, 161, 132, 95, 206, 134, 249, 190]], 204, 169⟩

def c9SnapLit11 : Arc4State :=
  ⟨[[10, 142, 171, 237, 17, 190, 161, 154, 48, 139, 152, 252, 254, 11, 232, 1],
     [192, 241, 227, 226, 127, 207, 133, 89, 229, 184, 25, 155, 110, 218, 78, 165],
     [3, 204, 217, 146, 93, 114, 148, 214, 202, 68, 60, 153, 34, 97, 194, 228],
     [231, 50, 233, 182, 193, 250, 49, 42, 96, 80, 26, 45, 73, 243, 200, 162],
     [53, 205, 177, 143, 253, 180, 134, 212, 65, 86, 87, 98, 54, 35, 109, 150],
     [59, 16, 166, 12, 189, 31, 222, 39, 201, 117, 236, 223, 249, 63, 2, 41],
     [136, 220, 37, 179, 137, 172, 118, 163, 108, 82, 195, 208, 129, 6, 74, 51],
     [90, 4, 131, 111, 185, 211, 15, 215, 135, 83, 105, 141, 43, 230, 67, 103],
     [224, 58, 56, 168, 119, 240, 138, 191, 81, 28, 128, 159, 13, 188, 140, 210],
     [145, 52, 64, 242, 158, 107, 124, 44, 186, 157, 22, 19, 123, 5, 116, 46],
     [160, 30, 167, 176, 122, 47, 199, 203, 113, 209, 33, 169, 79, 9, 251, 95],
     [36, 8, 156, 255, 239, 24, 102, 206, 225, 112, 149, 213, 55, 196, 219, 174],
     [88, 183, 115, 23, 14, 173, 0, 100, 234, 181, 130, 27, 21, 70, 66, 76],
     [84, 170, 120, 164, 132, 221, 246, 57, 7, 187, 245, 62, 69, 151, 104, 238],
     [77, 40, 106, 85, 216, 125, 38, 32, 144, 244, 126, 198, 91, 235, 29, 99],
     [75, 101, 18, 94, 61, 197, 147, 178, 71, 175, 247, 20, 121, 248, 92, 72]], 174, 45⟩

def c9SnapLit12 : Arc4State :=
  ⟨[[18, 99, 218, 152, 155, 98, 198, 206, 134, 112, 248, 187, 220, 96, 159, 243],
     [126, 177, 44, 83, 46, 74, 235, 54, 50, 85, 77, 149, 229, 154, 60, 238],
     [101, 116, 131, 66, 174, 37, 182, 252, 247, 72, 221, 241, 150, 106, 86, 49],
     [219, 179, 78, 43, 212, 202, 168, 205, 76, 63, 215, 234, 95, 188, 255, 153],
     [166, 84, 53, 213, 231, 240, 249, 123, 211, 111, 62, 82, 156, 35, 122, 2],
     [11, 22, 88, 129, 200, 41, 120, 165, 186, 223, 8, 181, 136, 250, 180, 185],
     [105, 139, 67, 162, 233, 0, 228, 1, 75, 172, 178, 3, 194, 56, 173, 128],
     [81, 151, 61, 39, 89, 226, 143, 167, 245, 164, 216, 239, 237, 222, 224, 204],
     [9, 244, 73, 114, 33, 157, 209, 55, 20, 217, 108, 195, 148, 104, 184, 210],
     [7, 52, 92, 146, 158, 107, 80, 227, 201, 163, 70, 23, 32, 5, 103, 38],
     [160, 30, 26, 176, 45, 47, 199, 191, 113, 14, 115, 169, 79, 42, 251, 13],
     [36, 170, 25, 12, 183, 197, 15, 140, 58, 161, 100, 90, 203, 208, 48, 125],
     [24, 110, 130, 17, 144, 132, 207, 19, 109, 71, 87, 147, 214, 16, 242, 91],
     [27, 97, 196, 175, 230, 102, 59, 28, 145, 190, 68, 119, 171, 225, 69, 21],
     [189, 94, 253, 34, 10, 29, 127, 193, 138, 124, 118, 121, 254, 141, 142, 57],
     [93, 31, 4, 133, 6, 236, 232, 65, 117, 51, 137, 135, 246, 192, 64, 40]], 142, 222⟩

def c9SnapLit13 : Arc4State :=
  ⟨[[165, 104, 13, 244, 212, 78, 238, 111, 138, 168, 50, 5, 226, 222, 107, 170],
     [126, 174, 84, 83, 183, 200, 167, 15, 60, 135, 91, 86, 57, 132, 69, 141],
     [113, 49, 67, 240, 88, 46, 2, 255, 225, 55, 187, 136, 181, 207, 54, 176],
     [31, 172, 130, 127, 74, 139, 25, 223, 63, 210, 189, 213, 24, 161, 38, 92],
     [198, 34, 182, 239, 131, 62, 142, 247, 41, 185, 231, 177, 27, 11, 214, 173],
     [9, 162, 133, 147, 171, 125, 153, 208, 12, 32, 53, 216, 166, 80, 65, 221],
     [48, 68, 22, 108, 94, 144, 97, 52, 157, 192, 17, 242, 21, 252, 246, 89],
     [206, 70, 61, 39, 47, 220, 143, 158, 245, 14, 150, 199, 202, 102, 224, 204],
     [35, 163, 196, 249, 33, 115, 209, 4, 58, 217, 40, 195, 186, 100, 191, 36],
     [180, 121, 129, 190, 218, 169, 98, 155, 103, 71, 19, 201, 117, 152, 178, 140],
     [219, 122, 75, 248, 66, 128, 234, 137, 3, 164, 109, 251, 10, 159, 112, 235],
     [134, 119, 105, 7, 77, 110, 79, 30, 59, 72, 99, 193, 229, 73, 228, 194],
     [120, 124, 205, 211, 145, 106, 241, 6, 23, 37, 237, 243, 29, 236, 90, 51],
     [250, 203, 18, 179, 28, 96, 20, 149, 233, 232, 0, 123, 156, 188, 254, 116],
     [87, 215, 45, 1, 8, 148, 146, 175, 230, 82, 43, 16, 26, 44, 114, 253],
     [85, 76, 95, 118, 151, 93, 81, 56, 64, 160, 184, 227, 197, 101, 154, 42]], 112, 246⟩

def c9SnapLit14 : Arc4State :=
  ⟨[[146, 222, 22, 105, 86, 58, 208, 46, 180, 253, 70, 4, 240, 2, 17, 185],
     [217, 245, 79, 167, 223, 21, 28, 67, 65, 200, 14, 142, 139, 171, 7, 244],
     [103, 110, 33, 248, 228, 10, 31, 179, 51, 42, 196, 166, 218, 127, 181, 34],
     [150, 122, 198, 229, 43, 25, 188, 5, 101, 49, 163, 212, 96, 216, 8, 18],
     [36, 115, 38, 133, 23, 64, 250, 246, 121, 227, 176, 251, 66, 134, 137, 183],
     [149, 215, 129, 147, 169, 125, 145, 238, 20, 32, 230, 235, 113, 80, 60, 221],
     [48, 68, 112, 108, 234, 205, 82, 11, 157, 78, 40, 242, 92, 252, 226, 89],
     [87, 24, 160, 219, 158, 29, 30, 224, 236, 50, 62, 52, 172, 210, 233, 98],
     [3, 168, 174, 241, 175, 165, 159, 231, 192, 182, 213, 207, 15, 177, 61, 117],
     [45, 74, 90, 71, 164, 132, 239, 148, 124, 19, 162, 187, 54, 255, 232, 144],
     [191, 118, 120, 59, 184, 119, 94, 44, 85, 225, 104, 151, 186, 136, 81, 190],
     [199, 254, 247, 214, 91, 56, 154, 197, 106, 12, 243, 0, 194, 138, 26, 203],
     [57, 27, 140, 63, 37, 178, 111, 237, 152, 193, 130, 135, 76, 77, 93, 88],
     [69, 123, 116, 73, 1, 131, 84, 202, 83, 195, 153, 141, 204, 6, 39, 99],
     [55, 41, 170, 126, 249, 156, 47, 220, 173, 35, 161, 100, 53, 107, 97, 155],
     [114, 9, 109, 16, 211, 102, 13, 143, 128, 201, 95, 209, 189, 75, 72, 206]], 81, 175⟩

def c9SnapLit15 : Arc4State :=
  ⟨[[10, 121, 175, 38, 181, 34, 140, 205, 248, 84, 26, 218, 200, 195, 123, 144],
     [169, 160, 157, 162, 42, 83, 219, 9, 115, 135, 149, 110, 44, 214, 15, 31],
     [134, 163, 252, 58, 210, 86, 51, 235, 100, 243, 65, 122, 80, 201, 105, 131],
     [164, 4, 198, 153, 43, 25, 188, 5, 101, 193, 171, 192, 186, 216, 8, 238],
     [36, 73, 1, 133, 23, 64, 61, 78, 68, 227, 194, 32, 66, 117, 154, 183],
     [14, 50, 150, 119, 92, 199, 62, 170, 172, 54, 174, 33, 75, 146, 22, 246],
     [224, 0, 166, 148, 168, 71, 191, 151, 19, 20, 180, 21, 120, 225, 207, 249],
     [212, 118, 206, 93, 237, 182, 139, 104, 152, 102, 132, 90, 91, 107, 29, 173],
     [3, 226, 11, 190, 178, 108, 129, 99, 241, 12, 127, 141, 161, 114, 76, 103],
     [159, 37, 177, 137, 13, 45, 128, 60, 215, 232, 48, 7, 247, 254, 18, 223],
     [209, 63, 125, 233, 72, 24, 255, 88, 203, 185, 202, 217, 96, 57, 242, 208],
     [77, 112, 251, 230, 56, 52, 46, 167, 82, 228, 138, 130, 236, 143, 6, 59],
     [197, 189, 87, 176, 116, 47, 27, 55, 147, 49, 156, 109, 69, 184, 239, 136],
     [234, 221, 179, 196, 240, 126, 2, 253, 250, 41, 229, 81, 35, 98, 85, 30],
     [70, 74, 145, 89, 94, 222, 213, 17, 211, 158, 231, 155, 79, 106, 97, 142],
     [187, 220, 165, 16, 244, 124, 95, 28, 67, 40, 113, 53, 245, 39, 204, 111]], 49, 228⟩

def c9SnapLit16 : Arc4State :=
  ⟨[[170, 50, 98, 152, 233, 54, 38, 205, 138, 70, 227, 115, 123, 63, 139, 84],
     [24, 79, 220, 182, 156, 150, 219, 194, 69, 190, 82, 34, 92, 214, 185, 61],
     [134, 19, 127, 154, 210, 74, 51, 235, 100, 243, 203, 122, 223, 201, 105, 131],
     [60, 4, 191, 101, 207, 103, 87, 32, 57, 43, 135, 254, 67, 247, 36, 183],
     [66, 146, 78, 174, 193, 145, 128, 225, 147, 199, 9, 5, 102, 18, 241, 0],
     [226, 13, 83, 23, 211, 75, 143, 22, 246, 45, 141, 10, 6, 239, 160, 88],
     [114, 107, 104, 218, 80, 64, 166, 49, 35, 187, 132, 237, 244, 136, 3, 245],
     [129, 31, 68, 177, 186, 99, 197, 188, 48, 108, 116, 15, 95, 221, 29, 91],
     [172, 97, 180, 175, 196, 142, 234, 12, 58, 137, 130, 202, 117, 89, 96, 229],
     [251, 253, 16, 56, 2, 189, 232, 59, 242, 47, 216, 118, 167, 41, 14, 33],
     [39, 25, 77, 195, 20, 248, 255, 140, 65, 198, 192, 168, 209, 113, 26, 176],
     [161, 159, 157, 11, 250, 236, 28, 21, 119, 179, 158, 81, 52, 155, 1, 37],
     [17, 30, 46, 184, 72, 7, 178, 55, 106, 204, 42, 151, 148, 213, 112, 169],
     [94, 228, 252, 215, 121, 165, 120, 164, 85, 224, 162, 249, 163, 171, 231, 110],
     [200, 86, 53, 71, 126, 111, 109, 238, 44, 208, 240, 76, 230, 206, 149, 93],
     [212, 144, 217, 90, 222, 153, 27, 124, 40, 181, 133, 8, 62, 73, 125, 173]], 19, 53⟩

def c9SnapLit17 : Arc4State :=
  ⟨[[170, 50, 72, 213, 194, 54, 38, 105, 138, 104, 227, 115, 147, 63, 139, 84],
     [90, 79, 220, 68, 134, 49, 78, 233, 145, 205, 45, 142, 164, 113, 166, 195],
     [132, 67, 81, 75, 250, 5, 20, 3, 162, 114, 69, 204, 58, 156, 148, 130],
     [127, 42, 137, 207, 155, 235, 22, 118, 121, 221, 150, 251, 59, 146, 157, 119],
     [225, 6, 83, 28, 95, 219, 242, 120, 94, 161, 141, 88, 7, 92, 87, 241],
     [29, 16, 239, 82, 165, 143, 174, 237, 21, 238, 97, 202, 191, 172, 243, 198],
     [66, 231, 154, 57, 52, 177, 211, 46, 254, 167, 117, 109, 122, 36, 236, 226],
     [136, 99, 179, 112, 11, 37, 169, 10, 77, 175, 171, 106, 214, 131, 140, 98],
     [206, 133, 183, 229, 89, 15, 17, 71, 41, 56, 173, 76, 160, 111, 224, 168],
     [196, 218, 93, 253, 153, 123, 178, 60, 184, 55, 151, 240, 246, 249, 51, 102],
     [230, 255, 248, 86, 30, 244, 61, 1, 176, 33, 188, 228, 35, 12, 85, 43],
     [13, 158, 39, 135, 103, 197, 100, 53, 210, 182, 128, 232, 149, 80, 192, 73],
     [23, 245, 234, 44, 91, 0, 70, 217, 208, 129, 152, 252, 190, 216, 181, 110],
     [189, 126, 200, 107, 212, 32, 108, 48, 40, 201, 47, 185, 223, 124, 25, 163],
     [4, 26, 215, 96, 14, 101, 34, 18, 180, 247, 187, 2, 27, 144, 222, 186],
     [193, 199, 19, 24, 125, 31, 203, 116, 159, 64, 9, 8, 62, 74, 209, 65]], 245, 170⟩

def c9SnapLit18 : Arc4State :=
  ⟨[[113, 241, 60, 114, 17, 147, 173, 24, 235, 100, 85, 3, 226, 72, 83, 102],
     [210, 178, 99, 190, 78, 213, 128, 41, 73, 174, 6, 123, 189, 155, 52, 250],
     [7, 168, 4, 204, 5, 9, 207, 22, 97, 141, 209, 47, 115, 66, 224, 125],
     [169, 249, 176, 183, 198, 43, 87, 196, 126, 48, 36, 214, 179, 23, 53, 76],
     [195, 234, 86, 67, 145, 54, 192, 251, 153, 131, 57, 112, 246, 163, 111, 206],
     [15, 140, 89, 108, 244, 252, 240, 245, 107, 152, 40, 127, 158, 120, 232, 90],
     [30, 10, 74, 20, 227, 165, 151, 205, 101, 156, 219, 93, 44, 217, 159, 181],
     [220, 94, 95, 69, 149, 80, 42, 171, 238, 65, 146, 253, 105, 182, 109, 135],
     [118, 254, 39, 18, 177, 134, 228, 110, 28, 216, 29, 212, 92, 157, 59, 191],
     [133, 61, 79, 82, 122, 197, 138, 63, 139, 103, 33, 221, 45, 175, 211, 27],
     [31, 130, 188, 184, 13, 12, 154, 136, 98, 35, 84, 148, 34, 225, 143, 161],
     [223, 19, 1, 194, 203, 106, 50, 172, 242, 70, 58, 229, 117, 71, 55, 56],
     [142, 129, 243, 236, 2, 218, 77, 0, 164, 91, 150, 64, 16, 49, 166, 119],
     [68, 11, 144, 8, 237, 186, 25, 46, 162, 21, 75, 185, 167, 124, 239, 160],
     [81, 26, 215, 96, 14, 104, 51, 132, 180, 116, 187, 170, 248, 200, 222, 32],
     [193, 199, 202, 38, 255, 230, 37, 247, 62, 208, 121, 201, 233, 231, 137, 88]], 214, 222⟩

def c9SnapLit19 : Arc4State :=
  ⟨[[82, 3, 50, 13, 111, 17, 160, 61, 54, 6, 142, 212, 165, 171, 243, 99],
     [211, 66, 138, 170, 39, 86, 193, 103, 235, 92, 12, 131, 223, 112, 135, 173],
     [221, 167, 153, 34, 232, 68, 18, 64, 249, 55, 169, 207, 87, 69, 108, 254],
     [191, 104, 163, 48, 100, 43, 214, 117, 31, 19, 20, 102, 120, 229, 141, 156],
     [145, 5, 253, 248, 4, 241, 183, 133, 139, 143, 181, 41, 175, 45, 192, 144],
     [215, 73, 126, 7, 250, 63, 110, 116, 244, 52, 238, 28, 203, 65, 220, 24],
     [121, 98, 219, 177, 201, 125, 242, 228, 188, 130, 128, 56, 76, 195, 176, 132],
     [94, 114, 119, 204, 172, 23, 118, 168, 136, 70, 122, 44, 180, 74, 140, 179],
     [93, 182, 96, 127, 186, 137, 151, 72, 84, 222, 105, 230, 27, 60, 174, 75],
     [90, 194, 162, 216, 124, 234, 148, 147, 231, 30, 161, 42, 197, 134, 149, 57],
     [107, 240, 49, 80, 97, 225, 150, 77, 51, 81, 106, 200, 158, 35, 226, 245],
     [79, 16, 95, 109, 2, 53, 164, 154, 184, 88, 247, 209, 67, 146, 47, 224],
     [115, 129, 233, 21, 178, 218, 40, 185, 157, 91, 198, 22, 113, 190, 166, 202],
     [10, 11, 206, 8, 237, 36, 25, 255, 38, 58, 83, 0, 159, 187, 236, 152],
     [32, 14, 37, 123, 26, 246, 208, 89, 199, 29, 62, 101, 33, 46, 217, 155],
     [213, 59, 1, 78, 189, 71, 227, 239, 252, 9, 210, 205, 15, 196, 85, 251]], 189, 11⟩

def c9SnapLit20 : Arc4State :=
  ⟨[[94, 58, 216, 107, 65, 152, 194, 229, 238, 149, 103, 220, 174, 200, 224, 7],
     [54, 82, 217, 141, 169, 205, 38, 213, 51, 78, 52, 254, 108, 145, 192, 92],
     [19, 247, 251, 24, 90, 20, 203, 102, 125, 138, 44, 135, 56, 72, 31, 42],
     [236, 5, 128, 168, 43, 198, 132, 30, 250, 162, 177, 110, 151, 71, 146, 186],
     [64, 39, 214, 228, 62, 207, 45, 23, 86, 246, 79, 180, 156, 197, 215, 10],
     [119, 105, 182, 201, 242, 179, 140, 9, 18, 202, 126, 91, 75, 6, 137, 235],
     [55, 104, 15, 73, 226, 130, 154, 57, 70, 77, 211, 101, 48, 100, 225, 49],
     [21, 25, 139, 116, 134, 37, 230, 3, 239, 144, 98, 241, 155, 89, 253, 61],
     [95, 84, 248, 183, 4, 27, 136, 181, 74, 8, 243, 69, 26, 12, 165, 85],
     [87, 129, 232, 148, 133, 157, 121, 189, 222, 124, 176, 147, 22, 46, 218, 83],
     [13, 163, 112, 80, 97, 17, 150, 159, 34, 81, 106, 171, 158, 35, 99, 245],
     [118, 16, 93, 109, 2, 53, 164, 223, 184, 88, 32, 209, 0, 142, 113, 115],
     [40, 47, 143, 66, 237, 36, 60, 123, 14, 114, 117, 127, 178, 160, 153, 206],
     [227, 76, 33, 255, 68, 199, 11, 187, 131, 219, 67, 210, 28, 234, 50, 161],
     [167, 193, 29, 188, 96, 166, 244, 240, 190, 208, 221, 212, 196, 172, 191, 231],
     [233, 252, 204, 195, 111, 41, 63, 170, 185, 122, 175, 173, 249, 59, 1, 120]], 159, 219⟩

def c9SnapLit21 : Arc4State :=
  ⟨[[20, 94, 57, 161, 34, 132, 225, 150, 227, 197, 9, 172, 171, 214, 191, 90],
     [126, 152, 112, 27, 219, 19, 66, 254, 107, 247, 179, 75, 121, 250, 5, 160],
     [14, 2, 69, 30, 188, 17, 45, 77, 31, 65, 222, 177, 248, 42, 215, 81],
     [240, 200, 10, 207, 99, 164, 210, 122, 25, 88, 140, 190, 108, 230, 39, 128],
     [70, 40, 187, 133, 156, 52, 241, 244, 36, 63, 18, 78, 167, 33, 213, 16],
     [130, 7, 173, 61, 54, 180, 59, 11, 202, 80, 96, 205, 44, 144, 189, 85],
     [158, 223, 201, 251, 138, 143, 127, 64, 231, 185, 21, 37, 243, 195, 192, 103],
     [174, 229, 115, 146, 165, 116, 35, 226, 12, 106, 87, 155, 246, 24, 123, 141],
     [182, 198, 236, 183, 4, 217, 136, 181, 74, 8, 48, 163, 111, 92, 134, 13],
     [58, 129, 23, 148, 228, 157, 72, 193, 113, 124, 176, 147, 22, 46, 166, 83],
     [117, 249, 71, 131, 0, 142, 109, 204, 79, 119, 206, 98, 82, 47, 104, 135],
     [194, 28, 97, 15, 169, 234, 84, 55, 51, 212, 93, 118, 209, 139, 196, 252],
     [253, 1, 186, 233, 101, 208, 114, 199, 242, 154, 110, 3, 53, 239, 203, 32],
     [91, 245, 62, 184, 89, 221, 149, 178, 168, 224, 216, 162, 151, 170, 60, 125],
     [38, 49, 102, 255, 29, 68, 232, 56, 86, 235, 153, 175, 67, 43, 100, 105],
     [238, 76, 137, 145, 26, 159, 41, 220, 120, 218, 211, 50, 73, 6, 95, 237]], 128, 118⟩

def c9SnapLit22 : Arc4State :=
  ⟨[[125, 200, 176, 172, 108, 113, 1, 84, 5, 197, 17, 141, 25, 107, 226, 63],
     [16, 212, 11, 115, 33, 160, 190, 201, 60, 82, 238, 173, 21, 28, 67, 117],
     [103, 58, 129, 169, 136, 204, 210, 205, 232, 3, 229, 161, 139, 221, 154, 94],
     [90, 211, 88, 253, 109, 54, 157, 251, 171, 40, 46, 4, 142, 112, 52, 68],
     [105, 167, 32, 208, 47, 222, 13, 196, 91, 127, 179, 75, 10, 165, 214, 135],
     [149, 220, 187, 44, 83, 242, 158, 145, 76, 194, 249, 219, 126, 254, 102, 122],
     [188, 110, 7, 195, 70, 99, 71, 78, 132, 185, 57, 37, 124, 100, 192, 14],
     [174, 2, 27, 146, 233, 116, 235, 95, 12, 106, 87, 48, 246, 24, 123, 206],
     [181, 29, 134, 22, 51, 209, 156, 62, 133, 64, 155, 41, 92, 73, 31, 248],
     [215, 18, 180, 159, 224, 35, 72, 203, 183, 166, 121, 79, 74, 230, 243, 163],
     [199, 225, 162, 189, 131, 170, 89, 175, 140, 148, 193, 49, 207, 234, 80, 6],
     [104, 244, 0, 247, 151, 93, 69, 198, 255, 42, 114, 177, 130, 241, 38, 153],
     [15, 245, 227, 77, 228, 128, 101, 23, 223, 137, 143, 120, 168, 59, 118, 8],
     [36, 240, 218, 216, 30, 202, 213, 119, 39, 236, 20, 96, 50, 97, 164, 150],
     [178, 81, 239, 138, 217, 56, 147, 152, 66, 45, 184, 186, 98, 43, 65, 252],
     [26, 86, 53, 55, 231, 111, 9, 61, 85, 182, 34, 237, 250, 144, 191, 19]], 103, 137⟩

def c9R0 : List (Nat × Nat) :=
  [(7164513260985462, 54),
   (7701401263286392, 54),
   (8010553481581155, 53),
   (5818939415568558, 60),
   (4788223769582411, 53),
   (6111308995349571, 55),
   (6749596034908292, 53),
   (8425333994934784, 53),
   (5865781486992428, 56),
   (6794506012065837, 53),
   (8730259567245971, 53),
   (8685922798967211, 54),
   (6411658658098973, 54),
   (6757703686687243, 56),
   (7947028667323054, 53),
   (7686344894014070, 53),
   (4975776731099835, 53),
   (8469911281343326, 53),
   (8479387452605530, 54),
   (7415865877025208, 55),
   (8452984136532107, 53),
   (8394525932302744, 54),
   (4831270586144950, 57),
   (5631146541582628, 57),
   (7182536238469605, 53),
   (8501540705122298, 54),
   (6478979229342918, 54),
   (7450053030022598, 54),
   (8094604201955212, 55),
   (8812755242185116, 53),
   (5792003855268218, 54),
   (8927177774741940, 53)]

def c9R1 : List (Nat × Nat) :=
  [(5593103744548682, 54),
   (5265701125257402, 57),
   (6663226926285116, 54),
   (7775691352073862, 53),
   (6094661712985428, 53),
   (7772244826881155, 53),
   (8811456823790340, 58),
   (6291405179958664, 54),
   (8695250815797420, 53),
   (6751952726639247, 54),
   (6694396572147658, 56),
   (8999313825115025, 53),
   (8211676193894856, 56),
   (8413700997864523, 53),
   (6923881986252156, 53),
   (5514791431122831, 53),
   (7338473297092365, 53),
   (6342091932357738, 53),
   (4818289267610901, 53),
   (5155258961953812, 54),
   (4553156767410063, 54),
   (7043720920866131, 53),
   (6527218689414576, 59),
   (8170523635523492, 53),
   (4712411307573557, 53),
   (8983489578243648, 54),
   (7606763080257558, 53),
   (7482511282683770, 53),
   (5912343403027244, 57),
   (8206435244648508, 53),
   (7279025484543818, 53),
   (7462062498637584, 55)]

def c9R2 : List (Nat × Nat) :=
  [(5036247615589996, 54),
   (5063169147217188, 53),
   (5205814972367972, 55),
   (8550268888314594, 55),
   (6165381537117692, 53),
   (8446193319838264, 53),
   (5744294553607201, 54),
   (8970480810296993, 55),
   (4731194243638616, 53),
   (7461073859131983, 53),
   (4920510412153862, 53),
   (7036163182793486, 54),
   (7381093828650730, 55),
   (8960624662824036, 55),
   (7426940079177552, 54),
   (5421110215162872, 53),
   (5469151041022777, 56),
   (7459252195662099, 57),
   (5663735415808459, 54),
   (8654422605667149, 53),
   (6421062421576476, 56),
   (5885132325948571, 54),
   (5786230390432903, 53),
   (5513931483722428, 53),
   (4773616105165998, 53),
   (5225051122630120, 54),
   (7273875657367991, 53),
   (8413051227975074, 53),
   (5361727742502126, 53),
   (5235385544113595, 53),
   (5925582269085515, 54),
   (7033160395643538, 55)]

def c9R3 : List (Nat × Nat) :=
  [(7151810927889797, 54),
   (6762276319336895, 53),
   (8466597248823600, 53),
   (5340419246891438, 55),
   (8031752524974679, 53),
   (8595636151745906, 53),
   (7816939083631788, 54),
   (8742612404583970, 55),
   (7476060960080581, 53),
   (5680326785992526, 54),
   (8032679476615129, 53),
   (7300573267893859, 53),
   (8984969932049415, 53),
   (5475907296138273, 55),
   (8225475615921545, 53),
   (7244380319206393, 54),
   (5761694435615514, 54),
   (8875719159977719, 53),
   (4945648475678941, 56),
   (8250490725093480, 57),
   (5096794069323983, 58),
   (7288107606966370, 53),
   (5768488171452582, 54),
   (4581111433089731, 53),
   (7750600917007827, 53),
   (5621528639023736, 53),
   (5295695912875924, 55),
   (7902432219106296, 54),
   (5705487514254237, 56),
   (4939025396216870, 54),
   (4727862511042840, 54),
   (8580698381955890, 54)]

def c9R4 : List (Nat × Nat) :=
  [(8815600138773153, 55),
   (5113980662312808, 54),
   (8446928904366409, 54),
   (5295818153639276, 53),
   (5984071251708733, 53),
   (5677744931255450, 54),
   (5267633172555568, 55),
   (6697056646031077, 53),
   (5583076786492480, 54),
   (6858095531113714, 54),
   (6700878137142976, 54),
   (7576801028957442, 53),
   (6118565369860698, 53),
   (7329686035584525, 55),
   (4971712496530093, 54),
   (5563194126665296, 53),
   (7731736270894045, 53),
   (7370598121466474, 53),
   (7753730488963133, 53),
   (4804642330341236, 54),
   (4835911538710864, 53),
   (4526703100350143, 56),
   (7266952607812239, 55),
   (6391635855789102, 55),
   (8231243742380128, 53),
   (6653951678889171, 53),
   (6455588921313054, 55),
   (8330921696339187, 53),
   (8460873750617301, 54),
   (5823160666585944, 54),
   (7511686925740065, 55),
   (5027667452453266, 53)]

def c9R5 : List (Nat × Nat) :=
  [(8048337039953942, 53),
   (5947993519779257, 53),
   (8957992645689803, 53),
   (5455268840827631, 53),
   (4915674255338662, 56),
   (5348484755971330, 53),
   (4816008319673946, 55),
   (5836406370762501, 53),
   (7026271328475584, 54),
   (4779184223710782, 53),
   (5379022043949894, 55),
   (4518466448674140, 54),
   (7058763639246958, 58),
   (7647039268151107, 55),
   (6670445871406181, 55),
   (5284293645960662, 54),
   (5805551021197247, 54),
   (6483553345550501, 53),
   (8182296871727251, 54),
   (6347817349230087, 55),
   (4737226180141493, 55),
   (8294456346799860, 53),
   (6612128888062479, 53),
   (6479530021881353, 54),
   (6849190741508540, 53),
   (7165889261848877, 53),
   (4550694153994497, 55),
   (5542388995726031, 54),
   (5085130940092230, 53),
   (8905337245015718, 53),
   (6877172718590543, 54),
   (8860009554673195, 54)]

def c9R6 : List (Nat × Nat) :=
  [(7241058898846033, 53),
   (4552570814718632, 53),
   (6582862470571629, 54),
   (6110227186908207, 53),
   (8483855244846099, 55),
   (7976676324958055, 53),
   (6754789595443038, 55),
   (6174344538787815, 53),
   (5385173655714867, 54),
   (4612120196881972, 56),
   (5570136846395067, 54),
   (7908303476553226, 53),
   (7694395623635948, 53),
   (5712620190392082, 53),
   (7438413382199605, 53),
   (6012924950839799, 54),
   (4632637525095159, 56),
   (6818038988001866, 54),
   (8619291955982758, 53),
   (8724479448483643, 55),
   (8242902451001286, 56),
   (5933634809938573, 54),
   (6989753586197872, 55),
   (6345736380402954, 53),
   (5003659240416974, 53),
   (7968974339841035, 53),
   (8270442629819413, 54),
   (6556917901815014, 57),
   (8524131649785098, 53),
   (5467071408312169, 55),
   (5137318059345781, 53),
   (5693352418515103, 55)]

def c9R7 : List (Nat × Nat) :=
  [(5407943966701435, 55),
   (5425066543282610, 53),
   (7194487152137270, 54),
   (7509782844185199, 54),
   (8585441963388832, 53),
   (6270479028765288, 53),
   (4542035461581086, 53),
   (7559188555408272, 53),
   (5742094193299588, 53),
   (5771301150566786, 53),
   (5396855026125330, 53),
   (5080653012774778, 55),
   (6618096281272357, 54),
   (4772169968751499, 55),
   (5251911928277734, 56),
   (5437450343302114, 56),
   (6807114349218265, 53),
   (8364464863678445, 54),
   (4535564818326403, 54),
   (6401068798654600, 55),
   (8323709785415188, 53),
   (8945112198105231, 54),
   (7185182014053578, 54),
   (7560545026549878, 53),
   (5446905841595040, 53),
   (6356857406233524, 54),
   (5124127312774287, 55),
   (7639057915821219, 54),
   (7179120979129814, 53),
   (8013009619951362, 55),
   (5425399405232026, 54),
   (4672354616807862, 56)]

def c9R8 : List (Nat × Nat) :=
  [(4790870962118908, 53),
   (7479701129671880, 53),
   (7575066738047756, 53),
   (7687886847532348, 53),
   (8233720371234392, 54),
   (4769198210774956, 53),
   (5927057671736884, 55),
   (5693063849487364, 54),
   (7363566579395243, 53),
   (5303234773882654, 53),
   (7296360560826378, 53),
   (8349994737459467, 53),
   (5977999900887624, 53),
   (7820224160676082, 54),
   (7653477155707108, 56),
   (5914470747779492, 54),
   (4978997282248745, 53),
   (6668629496818637, 54),
   (9007066091271849, 54),
   (4799480215262232, 54),
   (5288573968473471, 55),
   (4656334661818247, 54),
   (6832660225555759, 53),
   (4967836464900052, 53),
   (5233688664438508, 53),
   (8817611660228963, 53),
   (5901366497290482, 53),
   (6083401112380181, 53),
   (8880880632742660, 54),
   (4863879261222034, 54),
   (8973510803971349, 56),
   (6874178428904837, 54)]

def c9R9 : List (Nat × Nat) :=
  [(6455226724586401, 56),
   (6992312067382327, 54),
   (5320472145327984, 53),
   (7391824141584872, 54),
   (8829943729520600, 56),
   (7579742809017167, 53),
   (7984283816643914, 53),
   (8080988520421393, 54),
   (8445185976592636, 53),
   (8906646497910802, 53),
   (6701652649503935, 53),
   (4592900854155068, 53),
   (8455825641702716, 55),
   (8239694897584554, 54),
   (6697410152065034, 55),
   (4523071212197568, 55),
   (7693537181507427, 53),
   (5586351979726195, 55),
   (8023476408159002, 54),
   (7904170232676628, 53),
   (7061847602053893, 53),
   (5611852595712208, 53),
   (7060609001143104, 53),
   (8473966973977375, 53),
   (5548838275783980, 55),
   (4952756872358490, 53),
   (8287035151977706, 54),
   (7934381479893537, 54),
   (8961977128159721, 56),
   (6936135312979746, 54),
   (8164627758568109, 56),
   (7542746809661834, 54)]

def c9R10 : List (Nat × Nat) :=
  [(6393437243927944, 53),
   (8604503524318548, 56),
   (4973482857520554, 54),
   (7614219613889289, 54),
   (7103884866403567, 53),
   (7947526513687510, 53),
   (5761272388990510, 54),
   (8567561171478087, 53),
   (6362346673726468, 55),
   (8590279375403212, 53),
   (6777490006823060, 54),
   (7879709404440894, 55),
   (6803815827360643, 53),
   (5718197609597904, 57),
   (8917974296004830, 53),
   (7559765360723714, 54),
   (7462477324190376, 53),
   (8091671496912933, 54),
   (5633404293735129, 56),
   (7423889565143191, 54),
   (8947910334183587, 56),
   (8649352534083919, 55),
   (8199904879903880, 53),
   (4722610659585310, 53),
   (8773532633233840, 53),
   (7433550866574020, 54),
   (6911536318405135, 55),
   (4998395823931410, 53),
   (7563360967169224, 53),
   (6362104799112740, 53),
   (7612587683562405, 58),
   (7098762773566398, 54)]

def c9R11 : List (Nat × Nat) :=
  [(4547848775373826, 53),
   (7708740416322709, 53),
   (5589473801678793, 53),
   (8395738634594179, 53),
   (8856429127750425, 53),
   (6333057180712029, 55),
   (7678527660089448, 53),
   (5356770760540869, 53),
   (7580490690272276, 55),
   (7057016151430572, 54),
   (6002123271257090, 53),
   (7250108717324030, 53),
   (8455108953918224, 53),
   (8192706877720262, 56),
   (7666888185886068, 54),
   (7714428661258816, 55),
   (4674287532879608, 54),
   (6122908996870175, 54),
   (5179014514722124, 53),
   (6632714434826783, 56),
   (7716821149356466, 55),
   (5170900738929349, 53),
   (5785002543110199, 53),
   (7035019332429957, 54),
   (5292628565375550, 56),
   (6191106536674526, 55),
   (5489886010809218, 53),
   (7517818494365074, 53),
   (5233269041215502, 55),
   (8350286296769903, 53),
   (6088985462287717, 54),
   (4656704758968048, 54)]

def c9R12 : List (Nat × Nat) :=
  [(8182863019212297, 53),
   (7277288747429722, 54),
   (5359720792104973, 53),
   (5421233791689522, 53),
   (8263830311186692, 53),
   (7502872930400792, 57),
   (7549992729374213, 53),
   (8585304325458844, 53),
   (4751487569951566, 55),
   (7310539698010489, 54),
   (5278165918819308, 59),
   (8020162931413128, 54),
   (7266724790836921, 54),
   (7069330043575400, 54),
   (4770803039874508, 53),
   (5573408447076291, 53),
   (8572317979461827, 53),
   (8879328294633450, 54),
   (7934028883317376, 53),
   (6105523218841191, 53),
   (8466783963659818, 53),
   (8404836069072187, 53),
   (5203163209471360, 56),
   (7350177337062919, 53),
   (4693878074023627, 53),
   (5649252255333214, 53),
   (8013187286426582, 53),
   (6422640906460063, 55),
   (8257082111964197, 53),
   (6829391733124478, 53),
   (5187867505020888, 53),
   (8648838613769489, 53)]

def c9R13 : List (Nat × Nat) :=
  [(4622635814438593, 54),
   (7576911735139588, 53),
   (6795214476115776, 53),
   (4546326270918845, 55),
   (7064012083974297, 53),
   (7837818560622182, 53),
   (6253082221366430, 54),
   (7441392978963905, 53),
   (5255680381620121, 53),
   (6461150034877682, 57),
   (8069087650065638, 54),
   (7025821387229450, 53),
   (5752913831288893, 54),
   (6148151389344290, 53),
   (6615444880778589, 55),
   (6328417316146106, 54),
   (4600925788752895, 54),
   (8414585918306684, 56),
   (8295951045769725, 56),
   (8346561728798392, 53),
   (5999033633202423, 53),
   (6759051396269907, 53),
   (7066923130922855, 53),
   (8307991817235927, 53),
   (5730707929803284, 54),
   (5070892393754060, 53),
   (8111202748298847, 54),
   (8862479336414570, 56),
   (4626984058595210, 53),
   (7136866909710175, 55),
   (7913372654702354, 53),
   (7805198065818896, 53)]

def c9R14 : List (Nat × Nat) :=
  [(4746654776701902, 54),
   (8816357720028452, 55),
   (7638185178515422, 53),
   (8505482831176915, 54),
   (8957506814012589, 53),
   (5185399255146604, 54),
   (5485025658477326, 53),
   (8486039923665001, 53),
   (8197103794158121, 53),
   (8760946182836467, 53),
   (6916509742091103, 56),
   (7350905667949635, 55),
   (6374504453950305, 53),
   (8199363012928389, 54),
   (6637695658380892, 53),
   (4777795087036702, 55),
   (8870889449510231, 54),
   (7731846012201341, 54),
   (4880130360521889, 55),
   (8938318840878167, 54),
   (5640932062882263, 53),
   (4656183376056893, 53),
   (6280226037300166, 53),
   (7054451947160362, 54),
   (8267482103806746, 53),
   (5037898555583859, 53),
   (6804568613882856, 54),
   (5984507486655750, 54),
   (8559000597375636, 53),
   (7954454675675857, 53),
   (8646720580235168, 54),
   (8805063244057300, 53)]

def c9R15 : List (Nat × Nat) :=
  [(5596437605317730, 53),
   (5614826568716760, 54),
   (5602156101090217, 53),
   (4636197308930400, 53),
   (6637748002999920, 53),
   (6874592398608972, 54),
   (7802948084758750, 54),
   (6806801636029216, 53),
   (8638581544390304, 53),
   (7709370176876789, 55),
   (5696092713268129, 54),
   (7258382345397983, 53),
   (8350644833303881, 53),
   (6273296981002215, 53),
   (5478323353478272, 53),
   (7627438607648894, 53),
   (5797883363280754, 54),
   (8784572772741449, 58),
   (6893004153273373, 53),
   (5318001571190591, 53),
   (8025472493654357, 54),
   (8324735380420856, 53),
   (6268282235238857, 54),
   (4911855743214817, 53),
   (7985963311466377, 54),
   (5173521847861671, 53),
   (8452451377050377, 59),
   (8597289981897566, 53),
   (8369360086690386, 53),
   (5593581058630110, 53),
   (5544329134460661, 53),
   (6958634870725045, 54)]

def c9R16 : List (Nat × Nat) :=
  [(6059401954687307, 53),
   (5255138955080253, 58),
   (7853738413705610, 54),
   (5116820220061394, 53),
   (6705305904377245, 53),
   (5535668555883203, 53),
   (4851278630630781, 54),
   (4790172008463330, 54),
   (6848318548831673, 59),
   (8695651950600462, 54),
   (5352452884793987, 53),
   (4745372418311228, 54),
   (7281244976006317, 54),
   (7546580412861171, 53),
   (5277082500032600, 53),
   (7296766883093925, 53),
   (7091129091994086, 53),
   (5109974164935285, 55),
   (4570585962956113, 55),
   (6860197687934942, 56),
   (7476405429266846, 54),
   (8379991150842983, 53),
   (5712697396854849, 55),
   (5088682537507224, 53),
   (6049050337084522, 53),
   (5445894145806622, 53),
   (7003342124467627, 53),
   (5857993523781832, 54),
   (8914029610617333, 53),
   (8907030011439658, 54),
   (5830032997285109, 54),
   (4576462718694062, 54)]

def c9R17 : List (Nat × Nat) :=
  [(6805676517548320, 53),
   (5964641320938649, 55),
   (6138218825644809, 53),
   (8316506297090291, 53),
   (8401867292068768, 54),
   (7486409000750031, 54),
   (5348728032206616, 54),
   (6143031928775044, 53),
   (7157833473335177, 53),
   (7372471332760023, 53),
   (7815552710081472, 53),
   (6007945690087136, 53),
   (8990601724530780, 54),
   (6002419790894995, 53),
   (5486339408771767, 53),
   (5065678517316925, 55),
   (4601632396538639, 53),
   (7971498027682485, 53),
   (8106112497563707, 53),
   (8719697754100279, 53),
   (7518859051304448, 53),
   (4688734146285410, 53),
   (4629637485790230, 53),
   (7775811538514693, 54),
   (6121895520815717, 53),
   (8169161685999197, 53),
   (7679020874475440, 55),
   (8327723906981309, 53),
   (8068724191788706, 56),
   (8718265878111333, 57),
   (5906672873678367, 53),
   (8490158353312125, 53)]

def c9R18 : List (Nat × Nat) :=
  [(7423070267037720, 53),
   (7463903504119337, 64),
   (6049252986278645, 53),
   (7002297364140058, 54),
   (8027167340228589, 57),
   (8886825016910420, 53),
   (5019757102791900, 57),
   (6951739150614941, 53),
   (6548503733194920, 53),
   (6435092782429666, 54),
   (6424027017104386, 53),
   (8456620160761581, 53),
   (8669428532911756, 53),
   (4810869363159963, 58),
   (8610225369796149, 57),
   (8215634396289304, 58),
   (5699568205905917, 54),
   (7380421573429726, 55),
   (7413244141390421, 54),
   (4920685460854589, 53),
   (6503250858302724, 54),
   (6551316528618635, 53),
   (7967964144266395, 53),
   (7322595562324756, 53),
   (7000619086505422, 54),
   (5944966424760615, 53),
   (5957212802272176, 53),
   (8511323966906526, 56),
   (8373932835851589, 54),
   (8085696570650093, 53),
   (8907861895593583, 56),
   (6436176158514915, 58)]

def c9R19 : List (Nat × Nat) :=
  [(8730391657897701, 53),
   (8577562864766175, 53),
   (4850831402156237, 55),
   (8591252949890081, 55),
   (5208361860653676, 53),
   (7249049280418801, 53),
   (7464792667046003, 53),
   (7569890848233310, 56),
   (5047642691651302, 53),
   (8828913381694910, 53),
   (6701106408336550, 58),
   (5833543737138710, 53),
   (6980136158504172, 53),
   (7804777693846473, 53),
   (5274052868346054, 53),
   (7874257485528193, 56),
   (8550869702306147, 53),
   (8387087396169863, 53),
   (7905967901081486, 55),
   (5628176716598440, 53),
   (8877226703754591, 56),
   (6166251411645760, 55),
   (7339437764674522, 54),
   (4887611242639527, 54),
   (5837458180077677, 58),
   (8950396370336460, 56),
   (6028468405036146, 54),
   (5663834578450017, 54),
   (8006402331463064, 54),
   (7376106860689244, 53),
   (7155530787147511, 53),
   (5887686541854242, 53)]

def c9R20 : List (Nat × Nat) :=
  [(8940559890519290, 54),
   (7142427512154646, 54),
   (8960054709330200, 54),
   (6524818570150090, 54),
   (5354149474810674, 54),
   (7448993917324255, 53),
   (8003065776487618, 54),
   (5622211609040306, 55),
   (4763609657352186, 53),
   (5482989456804299, 53),
   (5314629785614059, 53),
   (4921542166560733, 54),
   (5036367327927767, 57),
   (7362262515162816, 56),
   (6132227446290851, 53),
   (6065977008979989, 53),
   (5386783835474093, 53),
   (4842241065387669, 54),
   (8853469261241654, 53),
   (7482907254397932, 56),
   (4830882968517302, 56),
   (7910349670151560, 53),
   (7290059964387599, 53),
   (8490053097477515, 53),
   (7846204377203542, 53),
   (7672706221969246, 53),
   (8091213477709713, 53),
   (6255863586377240, 55),
   (8689380795099867, 53),
   (8529927219576068, 56),
   (7237144460437082, 53),
   (5962858734120412, 53)]

def c9R21 : List (Nat × Nat) :=
  [(6008587367053338, 57),
   (8305330758469465, 55),
   (6303545055346538, 54),
   (7506009001458975, 53),
   (5867593363197967, 53),
   (7447594232431463, 54),
   (5564254460440827, 59),
   (4938067945372872, 54),
   (5432393635067146, 54),
   (6478219326916480, 53),
   (7248831868717627, 54),
   (5123016888252589, 59),
   (4972706482444775, 57),
   (5538626878792930, 55),
   (5056494221858652, 54),
   (5449399686234741, 54),
   (5675561559308207, 53),
   (7690160253516517, 54),
   (4673164795305741, 55),
   (5970209794566535, 54),
   (7043488190746530, 53),
   (6688702701600252, 57),
   (8217331243375585, 54),
   (7579166228482858, 55),
   (4921476800437840, 59),
   (8105365806489916, 57),
   (7162418526582627, 55),
   (5515149909495204, 53),
   (4743923329448335, 55),
   (7291597076630753, 53),
   (7536467315590208, 55),
   (5367349118677647, 55)]


def c9RawTable : List (Nat × Nat) :=
  c9R0 ++ (c9R1 ++ (c9R2 ++ (c9R3 ++ (c9R4 ++ (c9R5 ++ (c9R6 ++ (c9R7 ++ (c9R8 ++ (c9R9 ++ (c9R10 ++ (c9R11 ++ (c9R12 ++ (c9R13 ++ (c9R14 ++ (c9R15 ++ (c9R16 ++ (c9R17 ++ (c9R18 ++ (c9R19 ++ (c9R20 ++ (c9R21)))))))))))))))))))))

def c9Stream (n : Nat) : ℚ :=
  let p := c9RawTable.getD n (0, 53)
  (p.1 : ℚ) / 2 ^ p.2

def c9Ops : RngOps Nat := ⟨fun n => (c9Stream n, n + 1), jsFloorMul⟩

def c9Refutes : Bool :=
  match generateCase c9Ops (fun _ => 0) 9 defaultConfig 1 "test-reducer-seed" with
  | none => false
  | some c =>
      match generateTestimonies c9Ops c 0 with
      | none => false
      | some (tms, used2) =>
          decide (used2 ≤ 704) &&
          (match generateCaseOnce c9Ops 9 "test-reducer-seed" defaultConfig 0 with
           | none => false
           | some (_, used) => decide (used ≤ 704)) &&
          c.suspects.any (fun sp =>
            sp.id = 1 && !sp.isVictim &&
            tms.any (fun p => p.1 = sp.id &&
              decide (interrogationIndexAfter3 c sp.id ≠
                some (p.2.statements.length - 1))))



/-! ## Supporting lemmas -/

theorem streamOps_valid {f : Nat → ℚ} (hf : ValidStream f) :
    (streamOps f).Valid := by
  constructor
  · intro s; exact hf s
  · intro r m hr0 hr1 hm
    have h1 : (r * m : ℚ) < m := by
      have hm' : (0 : ℚ) < m := by exact_mod_cast hm
      nlinarith
    have h0 : (0 : ℚ) ≤ r * m := by positivity
    have : ⌊(r * m : ℚ)⌋ < (m : ℤ) := by
      exact Int.floor_lt.mpr (by push_cast; linarith)
    simp only [streamOps]
    omega

@[simp] theorem Gen.pure_apply (a : α) (s : σ) :
    (pure a : Gen σ α) s = some (a, s) := rfl

@[simp] theorem Gen.bind_apply (m : Gen σ α) (f : α → Gen σ β) (s : σ) :
    (m >>= f) s = match m s with
      | none => none
      | some (a, s') => f a s' := rfl

@[simp] theorem Gen.lift_apply (f : σ → α × σ) (s : σ) :
    (Gen.lift f) s = some (f s) := rfl

@[simp] theorem Gen.req_apply (x : Option α) (s : σ) :
    (Gen.req x : Gen σ α) s = x.map (fun a => (a, s)) := rfl

@[simp] theorem Gen.fail_apply (s : σ) : (Gen.fail : Gen σ α) s = none := rfl

theorem cons_append_cons_perm (x y : α) (m r : List α) :
    (x :: (m ++ y :: r)).Perm (y :: (m ++ x :: r)) :=
  ((List.perm_middle).cons x).trans
    ((List.Perm.swap y x (m ++ r)).trans ((List.perm_middle).symm.cons y))

theorem take_cons_drop_eq (xs : List α) (m : Nat) (hm : m < xs.length) :
    xs.take m ++ xs.get ⟨m, hm⟩ :: xs.drop (m + 1) = xs := by
  rw [List.get_eq_getElem, ← List.drop_eq_getElem_cons hm, List.take_append_drop]

theorem set_set_swap_perm (l : List α) (i j : Nat) (hi : i < l.length)
    (hj : j < l.length) :
    ((l.set i (l.get ⟨j, hj⟩)).set j (l.get ⟨i, hi⟩)).Perm l := by
  induction l generalizing i j with
  | nil => simp at hi
  | cons x xs ih =>
    cases i with
    | zero =>
      cases j with
      | zero => simp
      | succ m =>
        have hm : m < xs.length := by simpa using hj
        show (xs.get ⟨m, hm⟩ :: xs.set m x).Perm (x :: xs)
        rw [List.set_eq_take_cons_drop x hm]
        exact (cons_append_cons_perm _ x _ _).trans
          (by rw [take_cons_drop_eq xs m hm])
    | succ k =>
      cases j with
      | zero =>
        have hk : k < xs.length := by simpa using hi
        show (xs.get ⟨k, hk⟩ :: xs.set k x).Perm (x :: xs)
        rw [List.set_eq_take_cons_drop x hk]
        exact (cons_append_cons_perm _ x _ _).trans
          (by rw [take_cons_drop_eq xs k hk])
      | succ m =>
        have hk : k < xs.length := by simpa using hi
        have hm : m < xs.length := by simpa using hj
        exact ((ih k m hk hm).cons x :
          (x :: ((xs.set k (xs.get ⟨m, hm⟩)).set m (xs.get ⟨k, hk⟩))).Perm (x :: xs))

theorem listSwap_perm (l : List α) (i j : Nat) : (listSwap l i j).Perm l := by
  unfold listSwap
  cases hi : l.get? i with
  | none => exact List.Perm.refl l
  | some a =>
    cases hj : l.get? j with
    | none => exact List.Perm.refl l
    | some b =>
      have hi' : i < l.length := by
        by_contra hcon
        rw [List.get?_eq_none.mpr (by omega)] at hi
        exact Option.noConfusion hi
      have hj' : j < l.length := by
        by_contra hcon
        rw [List.get?_eq_none.mpr (by omega)] at hj
        exact Option.noConfusion hj
      have ha : l.get ⟨i, hi'⟩ = a := by
        rw [List.get?_eq_get hi'] at hi
        exact Option.some.inj hi
      have hb : l.get ⟨j, hj'⟩ = b := by
        rw [List.get?_eq_get hj'] at hj
        exact Option.some.inj hj
      rw [← ha, ← hb]
      exact set_set_swap_perm l i j hi' hj'

/-- Every list the shuffle loop returns is a permutation of its input. -/
theorem shuffleGo_perm (ops : RngOps σ) :
    ∀ (n : Nat) (l l' : List α) (s s' : σ),
      shuffleGo ops n l s = some (l', s') → l'.Perm l := by
  intro n
  induction n with
  | zero =>
    intro l l' s s' h
    simp only [shuffleGo, Gen.pure_apply] at h
    obtain ⟨h1, _⟩ := Prod.mk.injEq .. ▸ Option.some.inj h
    exact h1 ▸ List.Perm.refl l
  | succ i ih =>
    intro l l' s s' h
    simp only [shuffleGo, Gen.bind_apply, Gen.lift_apply] at h
    exact (ih _ l' _ s' h).trans (listSwap_perm l (i + 1) _)

theorem shuffle_perm (ops : RngOps σ) (l l' : List α) (s s' : σ)
    (h : shuffle ops l s = some (l', s')) : l'.Perm l :=
  shuffleGo_perm ops (l.length - 1) l l' s s' h

theorem Gen.bind_eq_some {m : Gen σ α} {f : α → Gen σ β} {s : σ} {b : β} {sfin : σ}
    (h : (m >>= f) s = some (b, sfin)) :
    ∃ a sm, m s = some (a, sm) ∧ f a sm = some (b, sfin) := by
  cases hm : m s with
  | none =>
      rw [Gen.bind_apply, hm] at h
      exact absurd h (by simp)
  | some p =>
      obtain ⟨a, sm⟩ := p
      rw [Gen.bind_apply, hm] at h
      exact ⟨a, sm, rfl, h⟩

theorem Gen.pure_eq_some {a b : α} {s sfin : σ}
    (h : (pure a : Gen σ α) s = some (b, sfin)) : b = a ∧ sfin = s := by
  rw [Gen.pure_apply] at h
  obtain ⟨h1, h2⟩ := Prod.mk.injEq .. ▸ Option.some.inj h
  exact ⟨h1.symm, h2.symm⟩

theorem Gen.req_eq_some {x : Option α} {a : α} {s sfin : σ}
    (h : (Gen.req x : Gen σ α) s = some (a, sfin)) : x = some a ∧ sfin = s := by
  cases x with
  | none => exact absurd h (by simp)
  | some y =>
      rw [Gen.req_apply] at h
      simp only [Option.map_some'] at h
      obtain ⟨h1, h2⟩ := Prod.mk.injEq .. ▸ Option.some.inj h
      exact ⟨by rw [h1], h2.symm⟩

theorem pick_eq_some {ops : RngOps σ} {l : List α} {o : Option α} {s sfin : σ}
    (h : pick ops l s = some (o, sfin)) :
    o = l.get? (ops.floorMul (ops.random s).1 l.length) := by
  simp only [pick, Gen.lift_apply] at h
  obtain ⟨h1, _⟩ := Prod.mk.injEq .. ▸ Option.some.inj h
  exact h1.symm

theorem pickReq_mem {ops : RngOps σ} {l : List α} {a : α} {s sfin : σ}
    (h : pickReq ops l s = some (a, sfin)) : a ∈ l := by
  obtain ⟨o, sm, hp, hr⟩ := Gen.bind_eq_some h
  obtain ⟨ho, _⟩ := Gen.req_eq_some hr
  rw [pick_eq_some hp] at ho
  exact List.get?_mem ho

theorem randomInt_nonneg {ops : RngOps σ} {lo hi : Int} {k : Int} {s sfin : σ}
    (hlo : 0 ≤ lo) (hspan : 0 ≤ hi - lo + 1)
    (h : randomInt ops lo hi s = some (k, sfin)) : 0 ≤ k := by
  simp only [randomInt, Gen.lift_apply] at h
  rw [if_pos hspan] at h
  obtain ⟨h1, _⟩ := Prod.mk.injEq .. ▸ Option.some.inj h
  rw [← h1]
  positivity

theorem generateSuspectsGo_spec (ops : RngOps σ) (fns lns : List String)
    (ocs : List Occupation) (dss : List String) :
    ∀ (n i : Nat) (l : List Suspect) (s sfin : σ),
      generateSuspectsGo ops fns lns ocs dss i n s = some (l, sfin) →
      (∀ k sp, l.get? k = some sp → sp.id = i + k) ∧
        (∀ sp ∈ l, sp.isVictim = false ∧ sp.isKiller = false) := by
  intro n
  induction n with
  | zero =>
      intro i l s sfin h
      obtain ⟨hl, _⟩ := Gen.pure_eq_some h
      subst hl
      exact ⟨fun k sp hk => by simp at hk, fun sp hsp => by simp at hsp⟩
  | succ m ih =>
      intro i l s sfin h
      simp only [generateSuspectsGo] at h
      obtain ⟨personality, s1, _, h⟩ := Gen.bind_eq_some h
      obtain ⟨age, s2, _, h⟩ := Gen.bind_eq_some h
      obtain ⟨rest, s3, hrest, h⟩ := Gen.bind_eq_some h
      obtain ⟨hl, _⟩ := Gen.pure_eq_some h
      subst hl
      obtain ⟨ih1, ih2⟩ := ih (i + 1) rest s2 s3 hrest
      constructor
      · intro k sp hk
        cases k with
        | zero =>
            simp only [List.get?_cons_zero] at hk
            rw [← Option.some.inj hk]
            simp
        | succ k' =>
            simp only [List.get?_cons_succ] at hk
            rw [ih1 k' sp hk, Nat.add_assoc, Nat.add_comm 1 k']
      · intro sp hsp
        cases List.mem_cons.mp hsp with
        | inl he => rw [he]; exact ⟨rfl, rfl⟩
        | inr hm => exact ih2 sp hm

theorem drawKillerIndex_spec (ops : RngOps σ) (len : Nat) (vIdx : Int)
    (hlen : 0 < len) :
    ∀ (fuel : Nat) (k : Int) (s sfin : σ),
      drawKillerIndex ops len vIdx fuel s = some (k, sfin) → k ≠ vIdx ∧ 0 ≤ k := by
  intro fuel
  induction fuel with
  | zero => intro k s sfin h; exact absurd h (by simp [drawKillerIndex, Gen.fail])
  | succ f ih =>
      intro k s sfin h
      simp only [drawKillerIndex] at h
      obtain ⟨k0, s1, hk0, h⟩ := Gen.bind_eq_some h
      by_cases he : k0 = vIdx
      · rw [if_pos he] at h
        exact ih k s1 sfin h
      · rw [if_neg he] at h
        obtain ⟨hk, _⟩ := Gen.pure_eq_some h
        subst hk
        refine ⟨he, ?_⟩
        exact randomInt_nonneg (by omega) (by omega) hk0

theorem assignVictimAndKiller_spec (ops : RngOps σ) (fuel : Nat)
    (suspects : List Suspect) (split : VictimKillerSplit) (s sfin : σ)
    (hids : ∀ k sp, suspects.get? k = some sp → sp.id = k)
    (hflags : ∀ sp ∈ suspects, sp.isVictim = false ∧ sp.isKiller = false)
    (h : assignVictimAndKiller ops fuel suspects s = some (split, sfin)) :
    split.victim.isVictim = true ∧ split.victim.isKiller = false ∧
    split.killer.isKiller = true ∧ split.killer.isVictim = false ∧
    split.victim.id ≠ split.killer.id ∧
    (∀ x ∈ split.others, x.isVictim = false ∧ x.isKiller = false ∧
      x.id ≠ split.killer.id ∧ x.id ≠ split.victim.id) := by
  simp only [assignVictimAndKiller] at h
  by_cases hlen : suspects.length < 3
  · rw [if_pos hlen] at h
    exact absurd h (by simp [Gen.fail])
  rw [if_neg hlen] at h
  obtain ⟨vIdx, s1, hv, h⟩ := Gen.bind_eq_some h
  obtain ⟨kIdx, s2, hk, h⟩ := Gen.bind_eq_some h
  obtain ⟨victimBase, s3, hvb, h⟩ := Gen.bind_eq_some h
  obtain ⟨killerBase, s4, hkb, h⟩ := Gen.bind_eq_some h
  obtain ⟨shuffledOthers, s5, hsh, h⟩ := Gen.bind_eq_some h
  obtain ⟨hsplit, _⟩ := Gen.pure_eq_some h
  subst hsplit
  obtain ⟨hvb', _⟩ := Gen.req_eq_some hvb
  obtain ⟨hkb', _⟩ := Gen.req_eq_some hkb
  have hvnonneg : 0 ≤ vIdx := randomInt_nonneg (by omega) (by omega) hv
  obtain ⟨hkne, hknonneg⟩ := drawKillerIndex_spec ops suspects.length vIdx
    (by omega) fuel kIdx s1 s2 hk
  have hvid : victimBase.id = vIdx.toNat := hids _ _ hvb'
  have hkid : killerBase.id = kIdx.toNat := hids _ _ hkb'
  have hvflags := hflags victimBase (List.get?_mem hvb')
  have hkflags := hflags killerBase (List.get?_mem hkb')
  refine ⟨rfl, hvflags.2, rfl, hkflags.1, ?_, ?_⟩
  · show victimBase.id ≠ killerBase.id
    rw [hvid, hkid]
    intro hcon
    apply hkne
    have h1 : (vIdx.toNat : Int) = vIdx := Int.toNat_of_nonneg hvnonneg
    have h2 : (kIdx.toNat : Int) = kIdx := Int.toNat_of_nonneg hknonneg
    calc kIdx = ((kIdx.toNat : Nat) : Int) := h2.symm
      _ = ((vIdx.toNat : Nat) : Int) := by rw [hcon]
      _ = vIdx := h1
  · intro x hx
    have hxo : x ∈ (suspects.enum.filter
        (fun p => (p.1 : Int) ≠ vIdx ∧ (p.1 : Int) ≠ kIdx)).map (·.2) :=
      (shuffle_perm ops _ _ _ _ hsh).mem_iff.mp hx
    obtain ⟨⟨ix, x'⟩, hpmem, hxeq⟩ := List.mem_map.mp hxo
    obtain ⟨hmem, hcond⟩ := List.mem_filter.mp hpmem
    simp only [decide_eq_true_eq] at hcond
    have hget : suspects[ix]? = some x' := List.mk_mem_enum_iff_getElem?.mp hmem
    have hget' : suspects.get? ix = some x' := by
      rw [List.get?_eq_getElem?]; exact hget
    have hxid : x'.id = ix := hids _ _ hget'
    have hxflags := hflags x' (List.get?_mem hget')
    subst hxeq
    refine ⟨hxflags.1, hxflags.2, ?_, ?_⟩
    · show x'.id ≠ killerBase.id
      rw [hxid, hkid]
      intro hcon
      apply hcond.2
      have h2 : (kIdx.toNat : Int) = kIdx := Int.toNat_of_nonneg hknonneg
      rw [hcon]
      exact h2
    · show x'.id ≠ victimBase.id
      rw [hxid, hvid]
      intro hcon
      apply hcond.1
      have h1 : (vIdx.toNat : Int) = vIdx := Int.toNat_of_nonneg hvnonneg
      rw [hcon]
      exact h1

theorem generateSuspects_spec (ops : RngOps σ) (count : Nat) (l : List Suspect)
    (s sfin : σ) (h : generateSuspects ops count s = some (l, sfin)) :
    (∀ k sp, l.get? k = some sp → sp.id = k) ∧
      (∀ sp ∈ l, sp.isVictim = false ∧ sp.isKiller = false) := by
  simp only [generateSuspects] at h
  obtain ⟨f1, s1, _, h⟩ := Gen.bind_eq_some h
  obtain ⟨f2, s2, _, h⟩ := Gen.bind_eq_some h
  obtain ⟨f3, s3, _, h⟩ := Gen.bind_eq_some h
  obtain ⟨f4, s4, _, h⟩ := Gen.bind_eq_some h
  obtain ⟨h1, h2⟩ := generateSuspectsGo_spec ops f1 f2 f3 f4 count 0 l s4 sfin h
  exact ⟨fun k sp hk => (h1 k sp hk).trans (Nat.zero_add k), h2⟩

theorem generateLocations_spec (ops : RngOps σ) (locs : List Location)
    (s sfin : σ) (h : generateLocations ops s = some (locs, sfin)) :
    ∀ l ∈ locs, l.isCrimeScene = false := by
  simp only [generateLocations] at h
  obtain ⟨sh, s1, _, h⟩ := Gen.bind_eq_some h
  obtain ⟨cnt, s2, _, h⟩ := Gen.bind_eq_some h
  obtain ⟨hl, _⟩ := Gen.pure_eq_some h
  subst hl
  intro l hl
  obtain ⟨p, _, hpe⟩ := List.mem_map.mp hl
  rw [← hpe]

theorem selectCrimeScene_spec (ops : RngOps σ) (locations : List Location)
    (scene : Location) (s sfin : σ)
    (h : selectCrimeScene ops locations s = some (scene, sfin)) :
    ∃ loc ∈ locations, scene.id = loc.id := by
  simp only [selectCrimeScene] at h
  obtain ⟨base, s1, hpick, h⟩ := Gen.bind_eq_some h
  obtain ⟨hs, _⟩ := Gen.pure_eq_some h
  subst hs
  have hmem := pickReq_mem hpick
  by_cases hp : (locations.filter (fun l => !l.isPublic)).length > 0
  · rw [if_pos hp] at hmem
    exact ⟨base, List.mem_of_mem_filter hmem, rfl⟩
  · rw [if_neg hp] at hmem
    exact ⟨base, hmem, rfl⟩

theorem innocentAlibiCluesLoop_spec (ops : RngOps σ) (allLocations : List Location) :
    ∀ (innocents : List Suspect) (idx : Nat) (out : List Clue) (s sfin : σ),
      innocentAlibiCluesLoop ops allLocations innocents idx s = some (out, sfin) →
      ∀ cl ∈ out, ∃ sp ∈ innocents, cl.pointsTo = some sp.id ∧
        cl.isRedHerring = false ∧ cl.type = ClueType.testimonial := by
  intro innocents
  induction innocents with
  | nil =>
      intro idx out s sfin h cl hcl
      obtain ⟨ho, _⟩ := Gen.pure_eq_some h
      subst ho
      simp at hcl
  | cons innocent rest ih =>
      intro idx out s sfin h cl hcl
      simp only [innocentAlibiCluesLoop] at h
      obtain ⟨wl, s1, _, h⟩ := Gen.bind_eq_some h
      obtain ⟨fl, s2, _, h⟩ := Gen.bind_eq_some h
      obtain ⟨rest2, s3, hrest, h⟩ := Gen.bind_eq_some h
      obtain ⟨ho, _⟩ := Gen.pure_eq_some h
      subst ho
      cases List.mem_cons.mp hcl with
      | inl he =>
          subst he
          exact ⟨innocent, List.mem_cons_self .., rfl, rfl, rfl⟩
      | inr hm =>
          obtain ⟨sp, hsp, hprops⟩ := ih (idx + 1) rest2 s2 s3 hrest cl hm
          exact ⟨sp, List.mem_cons_of_mem _ hsp, hprops⟩

theorem redHerringCluesLoop_spec (ops : RngOps σ) (crimeSceneId : LocationId) :
    ∀ (targets : List Suspect) (acc : List Clue) (idx : Nat) (out : List Clue)
      (s sfin : σ),
      redHerringCluesLoop ops crimeSceneId targets acc idx s = some (out, sfin) →
      ∃ news, out = acc ++ news ∧ ∀ cl ∈ news, cl.isRedHerring = true := by
  intro targets
  induction targets with
  | nil =>
      intro acc idx out s sfin h
      obtain ⟨ho, _⟩ := Gen.pure_eq_some h
      subst ho
      exact ⟨[], by simp, by simp⟩
  | cons target rest ih =>
      intro acc idx out s sfin h
      simp only [redHerringCluesLoop] at h
      obtain ⟨nm, s1, _, h⟩ := Gen.bind_eq_some h
      obtain ⟨news, hng, hprops⟩ := ih _ _ _ _ _ h
      rw [List.append_assoc] at hng
      refine ⟨_, hng, fun cl hcl => ?_⟩
      rcases List.mem_append.mp hcl with hm | hm
      · rw [List.mem_singleton.mp hm]
      · exact hprops cl hm

theorem generateClues_killer_count (ops : RngOps σ) (killer victim : Suspect)
    (others : List Suspect) (motive : MotiveType) (weapon : WeaponType)
    (crimeScene : Location) (allLocations : List Location)
    (relationships : List Relationship) (config : ClueGeneratorConfig)
    (clues : List Clue) (s sfin : σ)
    (hothers : ∀ sp ∈ others, sp.id ≠ killer.id)
    (h : generateClues ops killer victim others motive weapon crimeScene
      allLocations relationships config s = some (clues, sfin)) :
    killerClueCount killer.id clues = 4 := by
  simp only [generateClues] at h
  obtain ⟨name0, s1, _, h⟩ := Gen.bind_eq_some h
  obtain ⟨desc0, s2, _, h⟩ := Gen.bind_eq_some h
  obtain ⟨name1, s3, _, h⟩ := Gen.bind_eq_some h
  obtain ⟨desc1, s4, _, h⟩ := Gen.bind_eq_some h
  obtain ⟨found1, s5, _, h⟩ := Gen.bind_eq_some h
  obtain ⟨found3, s6, _, h⟩ := Gen.bind_eq_some h
  obtain ⟨alibiClues, s7, halibi, h⟩ := Gen.bind_eq_some h
  obtain ⟨shuffledInnocents, s8, _, h⟩ := Gen.bind_eq_some h
  obtain ⟨withHerrings, s9, hherr, h⟩ := Gen.bind_eq_some h
  have hin : ∀ cl ∈ alibiClues,
      (decide (cl.pointsTo = some killer.id) && !cl.isRedHerring) = false := by
    intro cl hcl
    obtain ⟨sp, hsp, hpt, _⟩ :=
      innocentAlibiCluesLoop_spec ops allLocations others 5 alibiClues s6 s7 halibi cl hcl
    simp [hpt, hothers sp hsp]
  obtain ⟨news, hng, hnews⟩ := redHerringCluesLoop_spec ops crimeScene.id _ _ _
    withHerrings s8 s9 hherr
  have hwh : killerClueCount killer.id withHerrings = 4 := by
    subst hng
    simp only [killerClueCount, List.countP_append, List.countP_cons, List.countP_nil]
    have h1 : alibiClues.countP
        (fun cl => decide (cl.pointsTo = some killer.id) && !cl.isRedHerring) = 0 :=
      List.countP_eq_zero.mpr (by simpa using hin)
    have h2 : news.countP
        (fun cl => decide (cl.pointsTo = some killer.id) && !cl.isRedHerring) = 0 := by
      refine List.countP_eq_zero.mpr ?_
      intro cl hcl
      simp [hnews cl hcl]
    simp [h1, h2]
  rcases hfind : relationships.find? (fun r => !r.isPublicKnowledge) with _ | sr <;>
    rw [hfind] at h <;> dsimp only at h
  · obtain ⟨ac, s10, hpure, hshuf⟩ := Gen.bind_eq_some h
    obtain ⟨hac, _⟩ := Gen.pure_eq_some hpure
    subst hac
    rw [killerClueCount, (shuffle_perm ops _ _ _ _ hshuf).countP_eq _]
    exact hwh
  · have hfinish : ∀ (ac : List Clue) (s11 : σ),
        (∃ hl : Location, ac = withHerrings ++
          [{ id := 5 + others.length +
                (shuffledInnocents.take config.redHerringCount).length
             type := ClueType.documentary
             name := "Hidden Correspondence"
             description := "Letters revealing a secret "
               ++ toString (repr sr.type) ++ " relationship."
             foundAt := hl.id
             significance := .normal }]) →
        shuffle ops ac s11 = some (clues, sfin) →
        killerClueCount killer.id clues = 4 := by
      intro ac s11 hac hshuf
      obtain ⟨hl, hac⟩ := hac
      subst hac
      rw [killerClueCount, (shuffle_perm ops _ _ _ _ hshuf).countP_eq _]
      simp only [killerClueCount] at hwh
      simp [List.countP_append, hwh]
    by_cases hp : (allLocations.filter (fun l => !l.isPublic)).length > 0
    · rw [if_pos hp] at h
      obtain ⟨hl, s10, _, h⟩ := Gen.bind_eq_some h
      obtain ⟨ac, s11, hpure, hshuf⟩ := Gen.bind_eq_some h
      obtain ⟨hac, _⟩ := Gen.pure_eq_some hpure
      exact hfinish ac s11 ⟨hl, hac⟩ hshuf
    · rw [if_neg hp] at h
      obtain ⟨hl, s10, _, h⟩ := Gen.bind_eq_some h
      obtain ⟨ac, s11, hpure, hshuf⟩ := Gen.bind_eq_some h
      obtain ⟨hac, _⟩ := Gen.pure_eq_some hpure
      exact hfinish ac s11 ⟨hl, hac⟩ hshuf

theorem generateKillerAlibi_spec (ops : RngOps σ) (killer : Suspect)
    (others : List Suspect) (pubs privs : List Location) (tod : TimeSlot)
    (strat : KillerAlibiStrategy) (a : Alibi) (s sfin : σ)
    (h : generateKillerAlibi ops killer others pubs privs tod strat s = some (a, sfin)) :
    a.suspectId = killer.id ∧ a.isFalse = true ∧ a.isVerifiable = false := by
  cases strat with
  | noWitnesses =>
      simp only [generateKillerAlibi] at h
      by_cases hp : privs.length > 0 <;> [rw [if_pos hp] at h; rw [if_neg hp] at h] <;>
      · obtain ⟨loc, s1, _, h⟩ := Gen.bind_eq_some h
        obtain ⟨ph, s2, _, h⟩ := Gen.bind_eq_some h
        obtain ⟨ha, _⟩ := Gen.pure_eq_some h
        subst ha
        exact ⟨rfl, rfl, rfl⟩
  | unreliableWitness =>
      simp only [generateKillerAlibi] at h
      obtain ⟨loc, s1, _, h⟩ := Gen.bind_eq_some h
      obtain ⟨fw, s2, _, h⟩ := Gen.bind_eq_some h
      obtain ⟨ph, s3, _, h⟩ := Gen.bind_eq_some h
      obtain ⟨ha, _⟩ := Gen.pure_eq_some h
      subst ha
      exact ⟨rfl, rfl, rfl⟩
  | partialAlibi =>
      simp only [generateKillerAlibi] at h
      obtain ⟨loc, s1, _, h⟩ := Gen.bind_eq_some h
      obtain ⟨wits, s2, _, h⟩ := Gen.bind_eq_some h
      obtain ⟨ph, s3, _, h⟩ := Gen.bind_eq_some h
      obtain ⟨ha, _⟩ := Gen.pure_eq_some h
      subst ha
      exact ⟨rfl, rfl, rfl⟩
  | conflictingTimes =>
      simp only [generateKillerAlibi] at h
      obtain ⟨loc, s1, _, h⟩ := Gen.bind_eq_some h
      obtain ⟨ph, s2, _, h⟩ := Gen.bind_eq_some h
      obtain ⟨ha, _⟩ := Gen.pure_eq_some h
      subst ha
      exact ⟨rfl, rfl, rfl⟩

theorem innocentAlibisLoop_spec (ops : RngOps σ) (pubs : List Location)
    (allSuspects : List Suspect) (tod : TimeSlot) :
    ∀ (l : List Suspect) (out : List Alibi) (s sfin : σ),
      innocentAlibisLoop ops pubs allSuspects tod l s = some (out, sfin) →
      (∀ a ∈ out, ∃ sp ∈ l, a.suspectId = sp.id ∧ a.isFalse = false ∧
        a.isVerifiable = true) ∧
      (∀ sp ∈ l, ∃ a ∈ out, a.suspectId = sp.id ∧ a.isFalse = false ∧
        a.isVerifiable = true) := by
  intro l
  induction l with
  | nil =>
      intro out s sfin h
      obtain ⟨ho, _⟩ := Gen.pure_eq_some h
      subst ho
      exact ⟨by simp, by simp⟩
  | cons innocent rest ih =>
      intro out s sfin h
      simp only [innocentAlibisLoop] at h
      obtain ⟨loc, s1, _, h⟩ := Gen.bind_eq_some h
      obtain ⟨wits, s2, _, h⟩ := Gen.bind_eq_some h
      obtain ⟨r, s3, _, h⟩ := Gen.bind_eq_some h
      have hfin : ∀ (alibi : Alibi) (rest2 : List Alibi) (s4 s5 : σ),
          alibi.suspectId = innocent.id → alibi.isFalse = false →
          alibi.isVerifiable = true →
          innocentAlibisLoop ops pubs allSuspects tod rest s4 = some (rest2, s5) →
          (∀ a ∈ alibi :: rest2, ∃ sp ∈ innocent :: rest,
            a.suspectId = sp.id ∧ a.isFalse = false ∧ a.isVerifiable = true) ∧
          (∀ sp ∈ innocent :: rest, ∃ a ∈ alibi :: rest2,
            a.suspectId = sp.id ∧ a.isFalse = false ∧ a.isVerifiable = true) := by
        intro alibi rest2 s4 s5 h1 h2 h3 hrest
        obtain ⟨ih1, ih2⟩ := ih rest2 s4 s5 hrest
        constructor
        · intro a ha
          cases List.mem_cons.mp ha with
          | inl he =>
              subst he
              exact ⟨innocent, List.mem_cons_self .., h1, h2, h3⟩
          | inr hm =>
              obtain ⟨sp, hsp, hp⟩ := ih1 a hm
              exact ⟨sp, List.mem_cons_of_mem _ hsp, hp⟩
        · intro sp hsp
          cases List.mem_cons.mp hsp with
          | inl he =>
              subst he
              exact ⟨alibi, List.mem_cons_self .., h1, h2, h3⟩
          | inr hm =>
              obtain ⟨a, ha, hp⟩ := ih2 sp hm
              exact ⟨a, List.mem_cons_of_mem _ ha, hp⟩
      by_cases hr : r < jsPointTwo <;> [rw [if_pos hr] at h; rw [if_neg hr] at h] <;>
      · obtain ⟨ph, s3a, _, h⟩ := Gen.bind_eq_some h
        obtain ⟨alibi, s3b, hal, h⟩ := Gen.bind_eq_some h
        obtain ⟨rest2, s5, hrest, h⟩ := Gen.bind_eq_some h
        obtain ⟨ho, _⟩ := Gen.pure_eq_some h
        subst ho
        obtain ⟨hae, _⟩ := Gen.pure_eq_some hal
        subst hae
        exact hfin _ rest2 s3b s5 rfl rfl rfl hrest

theorem generateAlibis_spec (ops : RngOps σ) (killer victim : Suspect)
    (others : List Suspect) (locations : List Location) (tod : TimeSlot)
    (out : List Alibi) (s sfin : σ)
    (h : generateAlibis ops killer victim others locations tod s = some (out, sfin)) :
    (∃ a ∈ out, a.suspectId = killer.id ∧ a.isFalse = true ∧ a.isVerifiable = false) ∧
    (∀ a ∈ out, (a.suspectId = killer.id ∧ a.isFalse = true ∧ a.isVerifiable = false) ∨
      ∃ sp ∈ others, a.suspectId = sp.id ∧ a.isFalse = false ∧ a.isVerifiable = true) ∧
    (∀ sp ∈ others, ∃ a ∈ out, a.suspectId = sp.id ∧ a.isFalse = false ∧
      a.isVerifiable = true) := by
  simp only [generateAlibis] at h
  obtain ⟨strat, s1, _, h⟩ := Gen.bind_eq_some h
  obtain ⟨inn, s2, hinn, h⟩ := Gen.bind_eq_some h
  obtain ⟨ka, s3, hka, h⟩ := Gen.bind_eq_some h
  have hperm := shuffle_perm ops _ _ _ _ h
  obtain ⟨hi1, hi2⟩ := innocentAlibisLoop_spec ops _ _ tod others inn s1 s2 hinn
  obtain ⟨hk1, hk2, hk3⟩ :=
    generateKillerAlibi_spec ops killer others _ _ tod strat ka s2 s3 hka
  refine ⟨⟨ka, ?_, hk1, hk2, hk3⟩, ?_, ?_⟩
  · exact hperm.mem_iff.mpr (List.mem_append.mpr (Or.inr (List.mem_singleton.mpr rfl)))
  · intro a ha
    rcases List.mem_append.mp (hperm.mem_iff.mp ha) with hm | hm
    · obtain ⟨sp, hsp, hp⟩ := hi1 a hm
      exact Or.inr ⟨sp, hsp, hp⟩
    · rw [List.mem_singleton.mp hm]
      exact Or.inl ⟨hk1, hk2, hk3⟩
  · intro sp hsp
    obtain ⟨a, ha, hp⟩ := hi2 sp hsp
    exact ⟨a, hperm.mem_iff.mpr (List.mem_append.mpr (Or.inl ha)), hp⟩

theorem generateCaseOnce_spec (ops : RngOps σ) (fuelKiller : Nat) (seed : String)
    (config : CaseGeneratorConfig) (c : Case) (s sfin : σ)
    (h : generateCaseOnce ops fuelKiller seed config s = some (c, sfin)) :
    ∃ victim killer others,
      c.suspects = victim :: killer :: others ∧
      c.victim = victim.id ∧ c.killer = killer.id ∧
      victim.isVictim = true ∧ killer.isVictim = false ∧ killer.isKiller = true ∧
      (∀ x ∈ others, x.isVictim = false ∧ x.isKiller = false ∧
        x.id ≠ killer.id ∧ x.id ≠ victim.id) ∧
      (∀ l ∈ c.locations, l.isCrimeScene = false) ∧
      (∃ l ∈ c.locations, l.id = c.crimeScene) ∧
      killerClueCount c.killer c.clues = 4 ∧
      (∃ a ∈ c.alibis, a.suspectId = c.killer ∧ a.isFalse = true ∧
        a.isVerifiable = false) ∧
      (∀ a ∈ c.alibis, (a.suspectId = c.killer ∧ a.isFalse = true ∧
          a.isVerifiable = false) ∨
        ∃ sp ∈ others, a.suspectId = sp.id ∧ a.isFalse = false ∧
          a.isVerifiable = true) ∧
      (∀ sp ∈ others, ∃ a ∈ c.alibis, a.suspectId = sp.id ∧ a.isFalse = false ∧
        a.isVerifiable = true) := by
  simp only [generateCaseOnce] at h
  obtain ⟨locations, s1, hlocs, h⟩ := Gen.bind_eq_some h
  obtain ⟨suspects, s2, hsus, h⟩ := Gen.bind_eq_some h
  obtain ⟨split, s3, hsplit, h⟩ := Gen.bind_eq_some h
  obtain ⟨motive, s4, _, h⟩ := Gen.bind_eq_some h
  obtain ⟨weapon, s5, _, h⟩ := Gen.bind_eq_some h
  obtain ⟨crimeScene, s6, hcs, h⟩ := Gen.bind_eq_some h
  obtain ⟨timeOfDeath, s7, _, h⟩ := Gen.bind_eq_some h
  obtain ⟨relationships, s8, _, h⟩ := Gen.bind_eq_some h
  obtain ⟨clues, s9, hclues, h⟩ := Gen.bind_eq_some h
  obtain ⟨alibis, s10, halibis, h⟩ := Gen.bind_eq_some h
  obtain ⟨hc, _⟩ := Gen.pure_eq_some h
  subst hc
  obtain ⟨hids, hflags⟩ := generateSuspects_spec ops config.suspectCount suspects s1 s2 hsus
  obtain ⟨hv1, hv2, hk1, hk2, hvk, hoth⟩ :=
    assignVictimAndKiller_spec ops fuelKiller suspects split s2 s3 hids hflags hsplit
  refine ⟨split.victim, split.killer, split.others, rfl, rfl, rfl, hv1, hk2, hk1,
    ?_, ?_, ?_, ?_, ?_, ?_, ?_⟩
  · intro x hx
    obtain ⟨f1, f2, f3, f4⟩ := hoth x hx
    exact ⟨f1, f2, fun he => f3 (by rw [he]), fun he => f4 (by rw [he])⟩
  · exact generateLocations_spec ops locations s s1 hlocs
  · obtain ⟨loc, hloc, hid⟩ := selectCrimeScene_spec ops locations crimeScene s5 s6 hcs
    exact ⟨loc, hloc, hid.symm⟩
  · exact generateClues_killer_count ops split.killer split.victim split.others
      motive weapon crimeScene locations relationships _ clues s8 s9
      (fun sp hsp => fun he => (hoth sp hsp).2.2.1 (by rw [he])) hclues
  · exact (generateAlibis_spec ops split.killer split.victim split.others
      locations timeOfDeath alibis s9 s10 halibis).1
  · exact (generateAlibis_spec ops split.killer split.victim split.others
      locations timeOfDeath alibis s9 s10 halibis).2.1
  · exact (generateAlibis_spec ops split.killer split.victim split.others
      locations timeOfDeath alibis s9 s10 halibis).2.2

theorem generateCase_inv (ops : RngOps σ) (seedToState : String → σ)
    (fuelKiller : Nat) (config : CaseGeneratorConfig) :
    ∀ (fuelRetry : Nat) (seed : String) (c : Case),
      generateCase ops seedToState fuelKiller config fuelRetry seed = some c →
      isCaseSolvable c = true ∧
      ∃ seed2 sfin, generateCaseOnce ops fuelKiller seed2 config
        (seedToState seed2) = some (c, sfin) := by
  intro fuelRetry
  induction fuelRetry with
  | zero =>
      intro seed c h
      exact absurd h (by simp [generateCase])
  | succ f ih =>
      intro seed c h
      simp only [generateCase] at h
      rcases hone : generateCaseOnce ops fuelKiller seed config (seedToState seed)
        with _ | pr
      · rw [hone] at h
        exact absurd h (by simp)
      · rw [hone] at h
        obtain ⟨c1, s1⟩ := pr
        dsimp only at h
        by_cases hs : isCaseSolvable c1
        · rw [if_pos hs] at h
          obtain hc := Option.some.inj h
          subst hc
          exact ⟨hs, seed, s1, hone⟩
        · rw [if_neg hs] at h
          exact ih (seed ++ "-retry") c h

theorem generateAlibiStatement_honest (id : SuspectId × Nat) (suspect : Suspect)
    (a : Alibi) (c : Case) (hf : a.isFalse = false) :
    (generateAlibiStatement id suspect a c).isLie = false := by
  simp [generateAlibiStatement, hf]

theorem generateRelationshipStatement_spec (id : SuspectId × Nat)
    (suspect victim : Suspect) (r : Relationship) (c : Case) :
    (generateRelationshipStatement id suspect victim r c).topic =
      StatementTopic.relationships ∧
    ((generateRelationshipStatement id suspect victim r c).isLie = true →
      r.isPublicKnowledge = false) := by
  simp only [generateRelationshipStatement]
  by_cases hsec : r.isPublicKnowledge
  · by_cases hhost : r.sentiment < -3 <;> simp [hsec, hhost]
  · simp [Bool.not_eq_true] at hsec
    simp [hsec]

theorem generateObservationStatement_innocent (ops : RngOps σ)
    (id : SuspectId × Nat) (suspect : Suspect) (c : Case) (st : Statement)
    (s sfin : σ) (hk : suspect.isKiller = false)
    (h : generateObservationStatement ops id suspect c s = some (st, sfin)) :
    st.isLie = false := by
  simp only [generateObservationStatement, hk, Bool.false_eq_true, if_false] at h
  obtain ⟨ks, s1, _, h⟩ := Gen.bind_eq_some h
  obtain ⟨txt, s2, _, h⟩ := Gen.bind_eq_some h
  obtain ⟨hst, _⟩ := Gen.pure_eq_some h
  subst hst
  rfl

theorem generateSelfStatement_innocent (ops : RngOps σ) (id : SuspectId × Nat)
    (suspect victim : Suspect) (c : Case) (st : Statement) (s sfin : σ)
    (hk : suspect.isKiller = false)
    (h : generateSelfStatement ops id suspect victim c s = some (st, sfin)) :
    st.isLie = false := by
  simp only [generateSelfStatement, hk, Bool.false_eq_true, if_false] at h
  obtain ⟨txt, s1, _, h⟩ := Gen.bind_eq_some h
  obtain ⟨hst, _⟩ := Gen.pure_eq_some h
  subst hst
  rfl

theorem generateSuspectStatements_spec (ops : RngOps σ) (suspect victim : Suspect)
    (alibi : Option Alibi) (rels : List Relationship) (c : Case)
    (stmts : List Statement) (s sfin : σ)
    (hk : suspect.isKiller = false)
    (ha : ∀ a, alibi = some a → a.isFalse = false)
    (hrels : ∀ r ∈ rels, r ∈ c.relationships ∧
      (r.fromId = suspect.id ∨ r.toId = suspect.id))
    (h : generateSuspectStatements ops suspect victim alibi rels c s =
      some (stmts, sfin)) :
    (∀ st ∈ stmts, st.isLie = true → st.topic = .relationships ∧
      ∃ r ∈ c.relationships, (r.fromId = suspect.id ∨ r.toId = suspect.id) ∧
        (r.toId = victim.id ∨ r.fromId = victim.id) ∧
        r.isPublicKnowledge = false) ∧
    stmts.countP (·.isLie) ≤ 1 := by
  simp only [generateSuspectStatements] at h
  have hfinish : ∀ (pre : List Statement) (s1 : σ),
      (∀ st ∈ pre, st.isLie = false) →
      ((generateObservationStatement ops (suspect.id,
          (pre.length)) suspect c >>= fun obsStatement =>
        generateSelfStatement ops (suspect.id, pre.length + 1) suspect victim c >>=
          fun selfStatement =>
        pure (pre ++ [obsStatement, selfStatement])) s1 = some (stmts, sfin)) →
      (∀ st ∈ stmts, st.isLie = false) := by
    intro pre s1 hpre hrun
    obtain ⟨obs, sa, hobs, hrun⟩ := Gen.bind_eq_some hrun
    obtain ⟨slf, sb, hslf, hrun⟩ := Gen.bind_eq_some hrun
    obtain ⟨hst, _⟩ := Gen.pure_eq_some hrun
    subst hst
    intro st hst
    rcases List.mem_append.mp hst with hm | hm
    · exact hpre st hm
    · rcases List.mem_cons.mp hm with he | hm2
      · subst he
        exact generateObservationStatement_innocent ops _ suspect c st s1 sa hk hobs
      · rw [List.mem_singleton.mp hm2]
        exact generateSelfStatement_innocent ops _ suspect victim c slf sa sb hk hslf
  rcases alibi with _ | a <;> dsimp only at h <;>
    rcases hfind : rels.find? (fun r => r.toId = victim.id ∨ r.fromId = victim.id)
      with _ | r <;> rw [hfind] at h <;> dsimp only at h
  · -- no alibi, no victim relationship: no statement can be a lie
    have hall := hfinish [] _ (by simp) h
    constructor
    · intro st hst hlie
      rw [hall st hst] at hlie
      exact absurd hlie (by simp)
    · have h0 : stmts.countP (fun st => st.isLie) = 0 :=
        List.countP_eq_zero.mpr (fun st hstm => by simp [hall st hstm])
      omega
  · -- no alibi, victim relationship present
    obtain ⟨obs, sa, hobs, h⟩ := Gen.bind_eq_some h
    obtain ⟨slf, sb, hslf, h⟩ := Gen.bind_eq_some h
    obtain ⟨hst, _⟩ := Gen.pure_eq_some h
    subst hst
    obtain ⟨htopic, hlie⟩ := generateRelationshipStatement_spec (suspect.id, 0)
      suspect victim r c
    have hrmem := List.mem_of_find?_eq_some hfind
    have hrpred := List.find?_some hfind
    simp only [decide_eq_true_eq] at hrpred
    obtain ⟨hrrel, hrside⟩ := hrels r hrmem
    have hobs0 := generateObservationStatement_innocent ops _ suspect c obs s sa hk hobs
    have hslf0 := generateSelfStatement_innocent ops _ suspect victim c slf sa sb hk hslf
    constructor
    · intro st hst hliest
      rcases List.mem_append.mp hst with hm | hm
      · rcases List.mem_singleton.mp hm with he
        subst he
        exact ⟨htopic, r, hrrel, hrside, hrpred, hlie hliest⟩
      · rcases List.mem_cons.mp hm with he | hm2
        · subst he
          rw [hobs0] at hliest
          exact absurd hliest (by simp)
        · rw [List.mem_singleton.mp hm2] at hliest
          rw [hslf0] at hliest
          exact absurd hliest (by simp)
    · simp [List.countP_cons, List.countP_append, hobs0, hslf0]
      split <;> simp
  · -- alibi present, no victim relationship
    have hfst := generateAlibiStatement_honest (suspect.id, 0) suspect a c
      (ha a rfl)
    have hall := hfinish [generateAlibiStatement (suspect.id, 0) suspect a c] _
      (by simpa using hfst) h
    constructor
    · intro st hst hlie
      rw [hall st hst] at hlie
      exact absurd hlie (by simp)
    · have h0 : stmts.countP (fun st => st.isLie) = 0 :=
        List.countP_eq_zero.mpr (fun st hstm => by simp [hall st hstm])
      omega
  · -- alibi and victim relationship both present
    obtain ⟨obs, sa, hobs, h⟩ := Gen.bind_eq_some h
    obtain ⟨slf, sb, hslf, h⟩ := Gen.bind_eq_some h
    obtain ⟨hst, _⟩ := Gen.pure_eq_some h
    subst hst
    obtain ⟨htopic, hlie⟩ := generateRelationshipStatement_spec (suspect.id, 1)
      suspect victim r c
    have hrmem := List.mem_of_find?_eq_some hfind
    have hrpred := List.find?_some hfind
    simp only [decide_eq_true_eq] at hrpred
    obtain ⟨hrrel, hrside⟩ := hrels r hrmem
    have hfst := generateAlibiStatement_honest (suspect.id, 0) suspect a c
      (ha a rfl)
    have hobs0 := generateObservationStatement_innocent ops _ suspect c obs s sa hk hobs
    have hslf0 := generateSelfStatement_innocent ops _ suspect victim c slf sa sb hk hslf
    constructor
    · intro st hst hliest
      rcases List.mem_append.mp hst with hm | hm
      · rcases List.mem_append.mp hm with hm1 | hm1
        · rcases List.mem_singleton.mp hm1 with he
          subst he
          rw [hfst] at hliest
          exact absurd hliest (by simp)
        · rcases List.mem_singleton.mp hm1 with he
          subst he
          exact ⟨htopic, r, hrrel, hrside, hrpred, hlie hliest⟩
      · rcases List.mem_cons.mp hm with he | hm2
        · subst he
          rw [hobs0] at hliest
          exact absurd hliest (by simp)
        · rw [List.mem_singleton.mp hm2] at hliest
          rw [hslf0] at hliest
          exact absurd hliest (by simp)
    · simp [List.countP_cons, List.countP_append, hobs0, hslf0, hfst]
      split <;> simp

theorem generateTestimoniesGo_spec (ops : RngOps σ) (c : Case)
    (hvfind : ∀ v, c.suspects.find? (fun sp => sp.isVictim) = some v →
      v.id = c.victim)
    (halibis : ∀ sid, sid ≠ c.killer → ∀ a ∈ c.alibis, a.suspectId = sid →
      a.isFalse = false) :
    ∀ (l : List Suspect) (out : List (SuspectId × Testimony)) (s sfin : σ),
      (∀ sp ∈ l, sp.id ≠ c.killer → sp.isKiller = false) →
      generateTestimoniesGo ops c l s = some (out, sfin) →
      ∀ p ∈ out, p.1 ≠ c.killer →
        (∀ st ∈ p.2.statements, st.isLie = true →
          st.topic = .relationships ∧ ∃ r ∈ c.relationships,
            (r.fromId = p.1 ∨ r.toId = p.1) ∧
            (r.toId = c.victim ∨ r.fromId = c.victim) ∧
            r.isPublicKnowledge = false) ∧
        p.2.statements.countP (·.isLie) ≤ 1 := by
  intro l
  induction l with
  | nil =>
      intro out s sfin _ h p hp
      obtain ⟨ho, _⟩ := Gen.pure_eq_some h
      subst ho
      simp at hp
  | cons sp rest ih =>
      intro out s sfin hliving h p hp hkp
      simp only [generateTestimoniesGo] at h
      obtain ⟨vic, s1, hvic, h⟩ := Gen.bind_eq_some h
      obtain ⟨stmts, s2, hstmts, h⟩ := Gen.bind_eq_some h
      obtain ⟨rest2, s3, hrest, h⟩ := Gen.bind_eq_some h
      obtain ⟨ho, _⟩ := Gen.pure_eq_some h
      subst ho
      rcases List.mem_cons.mp hp with he | hm
      · subst he
        have hkp2 : sp.id ≠ c.killer := hkp
        have hvid : vic.id = c.victim :=
          hvfind vic (Gen.req_eq_some hvic).1
        obtain ⟨h1, h2⟩ := generateSuspectStatements_spec ops sp vic
          (c.alibis.find? (fun a => a.suspectId = sp.id))
          (c.relationships.filter (fun r => r.fromId = sp.id ∨ r.toId = sp.id))
          c stmts s1 s2
          (hliving sp (List.mem_cons_self ..) hkp2)
          (fun a hfa => halibis sp.id hkp2 a (List.mem_of_find?_eq_some hfa)
            (by simpa using List.find?_some hfa))
          (fun r hr => ⟨List.mem_of_mem_filter hr,
            by simpa using List.of_mem_filter hr⟩)
          hstmts
        refine ⟨fun st hst hlie => ?_, h2⟩
        obtain ⟨htopic, r, hrrel, hrside, hrvic, hrpub⟩ := h1 st hst hlie
        rw [hvid] at hrvic
        exact ⟨htopic, r, hrrel, hrside, hrvic, hrpub⟩
      · exact ih rest2 s2 s3
          (fun q hq hne => hliving q (List.mem_cons_of_mem _ hq) hne) hrest p hm hkp

theorem processMatchesLoop_bonus (ms : List PuzzleMatch) :
    ∀ (g : Grid) (q : List (GridPos × BonusType)) (b : Option PendingBonus),
      (processMatchesLoop ms g q b).2.2 = (lastQualifyingBonus ms).or b := by
  induction ms with
  | nil =>
      intro g q b
      simp [processMatchesLoop, lastQualifyingBonus]
  | cons m rest ih =>
      intro g q b
      simp only [processMatchesLoop]
      rw [ih]
      unfold lastQualifyingBonus
      rw [List.reverse_cons, List.findSome?_append]
      cases hr : rest.reverse.findSome? bonusForMatch <;>
        cases hb : bonusForMatch m <;>
          simp [List.findSome?, hb, Option.or]

/-! ## Puzzle-engine claims -/

/-- C7: with a non-null selection, `trySwap` rejects a non-adjacent
target with the state unchanged; rejects an adjacent target whose
tentative swap yields zero matches, keeping the original grid and
clearing only the selection; and otherwise commits the swapped grid. -/
theorem trySwap_spec (state : PanelPuzzleState) (sel target : GridPos)
    (hsel : state.selected = some sel) :
    (isAdjacent sel target = false → trySwap state target = ⟨false, state⟩) ∧
    (isAdjacent sel target = true →
      findMatches (swapGrid state.grid sel target) = [] →
      trySwap state target = ⟨false, { state with selected := none }⟩) ∧
    (isAdjacent sel target = true →
      findMatches (swapGrid state.grid sel target) ≠ [] →
      trySwap state target =
        ⟨true, { state with
                   grid := swapGrid state.grid sel target
                   selected := none
                   isAnimating := true }⟩) := by
  refine ⟨?_, ?_, ?_⟩
  · intro hadj
    simp [trySwap, hsel, hadj]
  · intro hadj hnm
    simp [trySwap, hsel, hadj, hnm]
  · intro hadj hnm
    simp [trySwap, hsel, hadj, hnm]

theorem trySwap_spec_witness :
    (trySwap settleState (⟨10, by decide⟩, ⟨3, by decide⟩) = ⟨false, settleState⟩) ∧
    (trySwap settleState (⟨11, by decide⟩, ⟨1, by decide⟩) =
      ⟨false, { settleState with selected := none }⟩) ∧
    (trySwap witnessState (⟨11, by decide⟩, ⟨1, by decide⟩) =
      ⟨true, { witnessState with
                 grid := swapGrid witnessState.grid
                   (⟨11, by decide⟩, ⟨0, by decide⟩) (⟨11, by decide⟩, ⟨1, by decide⟩)
                 selected := none
                 isAnimating := true }⟩) :=
  ⟨(trySwap_spec settleState (⟨11, by decide⟩, ⟨0, by decide⟩)
      (⟨10, by decide⟩, ⟨3, by decide⟩) rfl).1 (by decide),
   (trySwap_spec settleState (⟨11, by decide⟩, ⟨0, by decide⟩)
      (⟨11, by decide⟩, ⟨1, by decide⟩) rfl).2.1 (by decide) (by decide),
   (trySwap_spec witnessState (⟨11, by decide⟩, ⟨0, by decide⟩)
      (⟨11, by decide⟩, ⟨1, by decide⟩) rfl).2.2 (by decide) (by decide)⟩

/-- C8 (amended): a `processMatches` wave that finds at least one match
increments the combo by one and adds the floored combo-scaled base score;
a settle pass that finds none only lowers `isAnimating`, leaving the
combo unchanged — the reset to 0 is performed by `resetComboIfNoMatch`. -/
theorem processMatches_combo_spec (pid : Nat) (s : PanelPuzzleState) :
    (findMatches s.grid ≠ [] →
      (processMatches pid s).combo = s.combo + 1 ∧
      (processMatches pid s).score = s.score +
        ⌊((((findMatches s.grid).foldl
              (fun sum m => sum + m.positions.length * 10) 0 : Nat)) : ℚ)
          * (1 + (s.combo : ℚ) * (1 / 2))⌋) ∧
    (findMatches s.grid = [] →
      processMatches pid s = { s with isAnimating := false }) ∧
    (findMatches s.grid = [] →
      resetComboIfNoMatch s = { s with combo := 0 }) := by
  refine ⟨?_, ?_, ?_⟩
  · intro h
    unfold processMatches
    rw [if_neg h]
    exact ⟨rfl, rfl⟩
  · intro h
    unfold processMatches
    rw [if_pos h]
  · intro h
    unfold resetComboIfNoMatch
    rw [if_pos h]

theorem processMatches_combo_spec_witness :
    findMatches witnessState.grid ≠ [] ∧
    (processMatches 7 witnessState).combo = witnessState.combo + 1 ∧
    (processMatches 7 witnessState).score = witnessState.score +
      ⌊((((findMatches witnessState.grid).foldl
            (fun sum m => sum + m.positions.length * 10) 0 : Nat)) : ℚ)
        * (1 + (witnessState.combo : ℚ) * (1 / 2))⌋ :=
  ⟨by decide, (processMatches_combo_spec 7 witnessState).1 (by decide)⟩

/-- C8 counterexample: a settle pass of `processMatches` that finds zero
matches does not reset the combo to 0 — on an empty grid with combo 1 the
returned combo is still 1. -/
theorem processMatches_settle_keeps_combo :
    findMatches settleState.grid = [] ∧ (processMatches 0 settleState).combo ≠ 0 := by
  exact ⟨by decide, by decide⟩

/-- C10: one `processMatches` call creates at most one bonus tile — only
the bonus of the last qualifying match survives the per-match loop, it is
placed only on a cell left empty by clearing and activation, and no other
cell is touched by placement. -/
theorem processMatches_bonus_spec (pid : Nat) (s : PanelPuzzleState)
    (hne : findMatches s.grid ≠ []) : CreatesAtMostOneBonus pid s := by
  unfold CreatesAtMostOneBonus
  have hbtc : (processMatchesLoop (findMatches s.grid) s.grid [] none).2.2 =
      lastQualifyingBonus (findMatches s.grid) := by
    rw [processMatchesLoop_bonus]
    cases lastQualifyingBonus (findMatches s.grid) <;> rfl
  have hgrid : (processMatches pid s).grid =
      (match (processMatchesLoop (findMatches s.grid) s.grid [] none).2.2 with
        | some b =>
            if activationLoop (processMatchesLoop (findMatches s.grid) s.grid [] none).1
                (processMatchesLoop (findMatches s.grid) s.grid [] none).2.1 ∅ b.pos = none then
              Function.update
                (activationLoop (processMatchesLoop (findMatches s.grid) s.grid [] none).1
                  (processMatchesLoop (findMatches s.grid) s.grid [] none).2.1 ∅) b.pos
                (some ⟨b.type, some b.bonus, b.pos.1.val, b.pos.2.val, pid⟩)
            else activationLoop (processMatchesLoop (findMatches s.grid) s.grid [] none).1
              (processMatchesLoop (findMatches s.grid) s.grid [] none).2.1 ∅
        | none => activationLoop (processMatchesLoop (findMatches s.grid) s.grid [] none).1
            (processMatchesLoop (findMatches s.grid) s.grid [] none).2.1 ∅) := by
    unfold processMatches
    rw [if_neg hne]
  rw [hbtc] at hgrid
  refine ⟨hbtc, ?_, ?_, ?_⟩
  · cases hb : lastQualifyingBonus (findMatches s.grid) with
    | none =>
        rw [hb] at hgrid
        dsimp only at hgrid
        simp only [hgrid]
        simp
    | some b =>
        rw [hb] at hgrid
        dsimp only at hgrid
        by_cases hempty : activationLoop
            (processMatchesLoop (findMatches s.grid) s.grid [] none).1
            (processMatchesLoop (findMatches s.grid) s.grid [] none).2.1 ∅ b.pos = none
        · rw [if_pos hempty] at hgrid
          refine le_trans (Finset.card_le_card ?_) (by simp : ({b.pos} : Finset GridPos).card ≤ 1)
          intro p hp
          rw [Finset.mem_filter] at hp
          rw [Finset.mem_singleton]
          by_contra hne2
          exact hp.2 (by rw [hgrid, Function.update_noteq hne2])
        · rw [if_neg hempty] at hgrid
          simp only [hgrid]
          simp
  · intro p hp
    cases hb : lastQualifyingBonus (findMatches s.grid) with
    | none =>
        rw [hb] at hgrid
        dsimp only at hgrid
        exact absurd (by rw [hgrid]) hp
    | some b =>
        rw [hb] at hgrid
        dsimp only at hgrid
        by_cases hempty : activationLoop
            (processMatchesLoop (findMatches s.grid) s.grid [] none).1
            (processMatchesLoop (findMatches s.grid) s.grid [] none).2.1 ∅ b.pos = none
        · rw [if_pos hempty] at hgrid
          have hpb : p = b.pos := by
            by_contra hne2
            exact hp (by rw [hgrid, Function.update_noteq hne2])
          refine ⟨b, rfl, hpb, hempty, ?_⟩
          rw [hgrid, hpb, Function.update_same]
        · rw [if_neg hempty] at hgrid
          exact absurd (by rw [hgrid]) hp
  · intro b hb hocc
    rw [hb] at hgrid
    dsimp only at hgrid
    rw [if_neg hocc] at hgrid
    exact hgrid

theorem processMatches_bonus_spec_witness :
    findMatches witnessState.grid ≠ [] ∧ CreatesAtMostOneBonus 7 witnessState :=
  ⟨by decide, processMatches_bonus_spec 7 witnessState (by decide)⟩

theorem jsPrngRawChunk_add (a b : Nat) : ∀ st : Arc4State,
    jsPrngRawChunk (a + b) st =
      ((jsPrngRawChunk a st).1 ++ (jsPrngRawChunk b (jsPrngRawChunk a st).2).1,
        (jsPrngRawChunk b (jsPrngRawChunk a st).2).2) := by
  induction a with
  | zero =>
      intro st
      simp [jsPrngRawChunk]
  | succ a ih =>
      intro st
      rw [Nat.succ_add]
      simp only [jsPrngRawChunk]
      rw [ih]
      simp [List.cons_append]

set_option maxRecDepth 100000 in
set_option maxHeartbeats 64000000 in
theorem c9_seed_eq : jsSeedState "test-reducer-seed" = c9SnapLit0 := by decide

set_option maxRecDepth 100000 in
set_option maxHeartbeats 64000000 in
theorem c9_chunk0 : jsPrngRawChunk 32 c9SnapLit0 = (c9R0, c9SnapLit1) := by decide

set_option maxRecDepth 100000 in
set_option maxHeartbeats 64000000 in
theorem c9_chunk1 : jsPrngRawChunk 32 c9SnapLit1 = (c9R1, c9SnapLit2) := by decide

set_option maxRecDepth 100000 in
set_option maxHeartbeats 64000000 in
theorem c9_chunk2 : jsPrngRawChunk 32 c9SnapLit2 = (c9R2, c9SnapLit3) := by decide

set_option maxRecDepth 100000 in
set_option maxHeartbeats 64000000 in
theorem c9_chunk3 : jsPrngRawChunk 32 c9SnapLit3 = (c9R3, c9SnapLit4) := by decide

set_option maxRecDepth 100000 in
set_option maxHeartbeats 64000000 in
theorem c9_chunk4 : jsPrngRawChunk 32 c9SnapLit4 = (c9R4, c9SnapLit5) := by decide

set_option maxRecDepth 100000 in
set_option maxHeartbeats 64000000 in
theorem c9_chunk5 : jsPrngRawChunk 32 c9SnapLit5 = (c9R5, c9SnapLit6) := by decide

set_option maxRecDepth 100000 in
set_option maxHeartbeats 64000000 in
theorem c9_chunk6 : jsPrngRawChunk 32 c9SnapLit6 = (c9R6, c9SnapLit7) := by decide

set_option maxRecDepth 100000 in
set_option maxHeartbeats 64000000 in
theorem c9_chunk7 : jsPrngRawChunk 32 c9SnapLit7 = (c9R7, c9SnapLit8) := by decide

set_option maxRecDepth 100000 in
set_option maxHeartbeats 64000000 in
theorem c9_chunk8 : jsPrngRawChunk 32 c9SnapLit8 = (c9R8, c9SnapLit9) := by decide

set_option maxRecDepth 100000 in
set_option maxHeartbeats 64000000 in
theorem c9_chunk9 : jsPrngRawChunk 32 c9SnapLit9 = (c9R9, c9SnapLit10) := by decide

set_option maxRecDepth 100000 in
set_option maxHeartbeats 64000000 in
theorem c9_chunk10 : jsPrngRawChunk 32 c9SnapLit10 = (c9R10, c9SnapLit11) := by decide

set_option maxRecDepth 100000 in
set_option maxHeartbeats 64000000 in
theorem c9_chunk11 : jsPrngRawChunk 32 c9SnapLit11 = (c9R11, c9SnapLit12) := by decide

set_option maxRecDepth 100000 in
set_option maxHeartbeats 64000000 in
theorem c9_chunk12 : jsPrngRawChunk 32 c9SnapLit12 = (c9R12, c9SnapLit13) := by decide

set_option maxRecDepth 100000 in
set_option maxHeartbeats 64000000 in
theorem c9_chunk13 : jsPrngRawChunk 32 c9SnapLit13 = (c9R13, c9SnapLit14) := by decide

set_option maxRecDepth 100000 in
set_option maxHeartbeats 64000000 in
theorem c9_chunk14 : jsPrngRawChunk 32 c9SnapLit14 = (c9R14, c9SnapLit15) := by decide

set_option maxRecDepth 100000 in
set_option maxHeartbeats 64000000 in
theorem c9_chunk15 : jsPrngRawChunk 32 c9SnapLit15 = (c9R15, c9SnapLit16) := by decide

set_option maxRecDepth 100000 in
set_option maxHeartbeats 64000000 in
theorem c9_chunk16 : jsPrngRawChunk 32 c9SnapLit16 = (c9R16, c9SnapLit17) := by decide

set_option maxRecDepth 100000 in
set_option maxHeartbeats 64000000 in
theorem c9_chunk17 : jsPrngRawChunk 32 c9SnapLit17 = (c9R17, c9SnapLit18) := by decide

set_option maxRecDepth 100000 in
set_option maxHeartbeats 64000000 in
theorem c9_chunk18 : jsPrngRawChunk 32 c9SnapLit18 = (c9R18, c9SnapLit19) := by decide

set_option maxRecDepth 100000 in
set_option maxHeartbeats 64000000 in
theorem c9_chunk19 : jsPrngRawChunk 32 c9SnapLit19 = (c9R19, c9SnapLit20) := by decide

set_option maxRecDepth 100000 in
set_option maxHeartbeats 64000000 in
theorem c9_chunk20 : jsPrngRawChunk 32 c9SnapLit20 = (c9R20, c9SnapLit21) := by decide

set_option maxRecDepth 100000 in
set_option maxHeartbeats 64000000 in
theorem c9_chunk21 : jsPrngRawChunk 32 c9SnapLit21 = (c9R21, c9SnapLit22) := by decide

theorem jsPrngRawChunk_add2 (a b : Nat) (st st1 st2 : Arc4State)
    (l1 l2 : List (Nat × Nat))
    (h1 : jsPrngRawChunk a st = (l1, st1))
    (h2 : jsPrngRawChunk b st1 = (l2, st2)) :
    jsPrngRawChunk (a + b) st = (l1 ++ l2, st2) := by
  rw [jsPrngRawChunk_add, h1]
  dsimp only
  rw [h2]

theorem c9_stream_eq :
    jsPrngRawChunk 704 (jsSeedState "test-reducer-seed") = (c9RawTable, c9SnapLit22) := by
  have h21 : jsPrngRawChunk 32 c9SnapLit21 = (c9R21, c9SnapLit22) := c9_chunk21
  have h20 : jsPrngRawChunk 64 c9SnapLit20 = (c9R20 ++ (c9R21), c9SnapLit22) :=
    jsPrngRawChunk_add2 32 32 c9SnapLit20 c9SnapLit21 c9SnapLit22 c9R20 _ c9_chunk20 h21
  have h19 : jsPrngRawChunk 96 c9SnapLit19 = (c9R19 ++ (c9R20 ++ (c9R21)), c9SnapLit22) :=
    jsPrngRawChunk_add2 32 64 c9SnapLit19 c9SnapLit20 c9SnapLit22 c9R19 _ c9_chunk19 h20
  have h18 : jsPrngRawChunk 128 c9SnapLit18 = (c9R18 ++ (c9R19 ++ (c9R20 ++ (c9R21))), c9SnapLit22) :=
    jsPrngRawChunk_add2 32 96 c9SnapLit18 c9SnapLit19 c9SnapLit22 c9R18 _ c9_chunk18 h19
  have h17 : jsPrngRawChunk 160 c9SnapLit17 = (c9R17 ++ (c9R18 ++ (c9R19 ++ (c9R20 ++ (c9R21)))), c9SnapLit22) :=
    jsPrngRawChunk_add2 32 128 c9SnapLit17 c9SnapLit18 c9SnapLit22 c9R17 _ c9_chunk17 h18
  have h16 : jsPrngRawChunk 192 c9SnapLit16 = (c9R16 ++ (c9R17 ++ (c9R18 ++ (c9R19 ++ (c9R20 ++ (c9R21))))), c9SnapLit22) :=
    jsPrngRawChunk_add2 32 160 c9SnapLit16 c9SnapLit17 c9SnapLit22 c9R16 _ c9_chunk16 h17
  have h15 : jsPrngRawChunk 224 c9SnapLit15 = (c9R15 ++ (c9R16 ++ (c9R17 ++ (c9R18 ++ (c9R19 ++ (c9R20 ++ (c9R21)))))), c9SnapLit22) :=
    jsPrngRawChunk_add2 32 192 c9SnapLit15 c9SnapLit16 c9SnapLit22 c9R15 _ c9_chunk15 h16
  have h14 : jsPrngRawChunk 256 c9SnapLit14 = (c9R14 ++ (c9R15 ++ (c9R16 ++ (c9R17 ++ (c9R18 ++ (c9R19 ++ (c9R20 ++ (c9R21))))))), c9SnapLit22) :=
    jsPrngRawChunk_add2 32 224 c9SnapLit14 c9SnapLit15 c9SnapLit22 c9R14 _ c9_chunk14 h15
  have h13 : jsPrngRawChunk 288 c9SnapLit13 = (c9R13 ++ (c9R14 ++ (c9R15 ++ (c9R16 ++ (c9R17 ++ (c9R18 ++ (c9R19 ++ (c9R20 ++ (c9R21)))))))), c9SnapLit22) :=
    jsPrngRawChunk_add2 32 256 c9SnapLit13 c9SnapLit14 c9SnapLit22 c9R13 _ c9_chunk13 h14
  have h12 : jsPrngRawChunk 320 c9SnapLit12 = (c9R12 ++ (c9R13 ++ (c9R14 ++ (c9R15 ++ (c9R16 ++ (c9R17 ++ (c9R18 ++ (c9R19 ++ (c9R20 ++ (c9R21))))))))), c9SnapLit22) :=
    jsPrngRawChunk_add2 32 288 c9SnapLit12 c9SnapLit13 c9SnapLit22 c9R12 _ c9_chunk12 h13
  have h11 : jsPrngRawChunk 352 c9SnapLit11 = (c9R11 ++ (c9R12 ++ (c9R13 ++ (c9R14 ++ (c9R15 ++ (c9R16 ++ (c9R17 ++ (c9R18 ++ (c9R19 ++ (c9R20 ++ (c9R21)))))))))), c9SnapLit22) :=
    jsPrngRawChunk_add2 32 320 c9SnapLit11 c9SnapLit12 c9SnapLit22 c9R11 _ c9_chunk11 h12
  have h10 : jsPrngRawChunk 384 c9SnapLit10 = (c9R10 ++ (c9R11 ++ (c9R12 ++ (c9R13 ++ (c9R14 ++ (c9R15 ++ (c9R16 ++ (c9R17 ++ (c9R18 ++ (c9R19 ++ (c9R20 ++ (c9R21))))))))))), c9SnapLit22) :=
    jsPrngRawChunk_add2 32 352 c9SnapLit10 c9SnapLit11 c9SnapLit22 c9R10 _ c9_chunk10 h11
  have h9 : jsPrngRawChunk 416 c9SnapLit9 = (c9R9 ++ (c9R10 ++ (c9R11 ++ (c9R12 ++ (c9R13 ++ (c9R14 ++ (c9R15 ++ (c9R16 ++ (c9R17 ++ (c9R18 ++ (c9R19 ++ (c9R20 ++ (c9R21)))))))))))), c9SnapLit22) :=
    jsPrngRawChunk_add2 32 384 c9SnapLit9 c9SnapLit10 c9SnapLit22 c9R9 _ c9_chunk9 h10
  have h8 : jsPrngRawChunk 448 c9SnapLit8 = (c9R8 ++ (c9R9 ++ (c9R10 ++ (c9R11 ++ (c9R12 ++ (c9R13 ++ (c9R14 ++ (c9R15 ++ (c9R16 ++ (c9R17 ++ (c9R18 ++ (c9R19 ++ (c9R20 ++ (c9R21))))))))))))), c9SnapLit22) :=
    jsPrngRawChunk_add2 32 416 c9SnapLit8 c9SnapLit9 c9SnapLit22 c9R8 _ c9_chunk8 h9
  have h7 : jsPrngRawChunk 480 c9SnapLit7 = (c9R7 ++ (c9R8 ++ (c9R9 ++ (c9R10 ++ (c9R11 ++ (c9R12 ++ (c9R13 ++ (c9R14 ++ (c9R15 ++ (c9R16 ++ (c9R17 ++ (c9R18 ++ (c9R19 ++ (c9R20 ++ (c9R21)))))))))))))), c9SnapLit22) :=
    jsPrngRawChunk_add2 32 448 c9SnapLit7 c9SnapLit8 c9SnapLit22 c9R7 _ c9_chunk7 h8
  have h6 : jsPrngRawChunk 512 c9SnapLit6 = (c9R6 ++ (c9R7 ++ (c9R8 ++ (c9R9 ++ (c9R10 ++ (c9R11 ++ (c9R12 ++ (c9R13 ++ (c9R14 ++ (c9R15 ++ (c9R16 ++ (c9R17 ++ (c9R18 ++ (c9R19 ++ (c9R20 ++ (c9R21))))))))))))))), c9SnapLit22) :=
    jsPrngRawChunk_add2 32 480 c9SnapLit6 c9SnapLit7 c9SnapLit22 c9R6 _ c9_chunk6 h7
  have h5 : jsPrngRawChunk 544 c9SnapLit5 = (c9R5 ++ (c9R6 ++ (c9R7 ++ (c9R8 ++ (c9R9 ++ (c9R10 ++ (c9R11 ++ (c9R12 ++ (c9R13 ++ (c9R14 ++ (c9R15 ++ (c9R16 ++ (c9R17 ++ (c9R18 ++ (c9R19 ++ (c9R20 ++ (c9R21)))))))))))))))), c9SnapLit22) :=
    jsPrngRawChunk_add2 32 512 c9SnapLit5 c9SnapLit6 c9SnapLit22 c9R5 _ c9_chunk5 h6
  have h4 : jsPrngRawChunk 576 c9SnapLit4 = (c9R4 ++ (c9R5 ++ (c9R6 ++ (c9R7 ++ (c9R8 ++ (c9R9 ++ (c9R10 ++ (c9R11 ++ (c9R12 ++ (c9R13 ++ (c9R14 ++ (c9R15 ++ (c9R16 ++ (c9R17 ++ (c9R18 ++ (c9R19 ++ (c9R20 ++ (c9R21))))))))))))))))), c9SnapLit22) :=
    jsPrngRawChunk_add2 32 544 c9SnapLit4 c9SnapLit5 c9SnapLit22 c9R4 _ c9_chunk4 h5
  have h3 : jsPrngRawChunk 608 c9SnapLit3 = (c9R3 ++ (c9R4 ++ (c9R5 ++ (c9R6 ++ (c9R7 ++ (c9R8 ++ (c9R9 ++ (c9R10 ++ (c9R11 ++ (c9R12 ++ (c9R13 ++ (c9R14 ++ (c9R15 ++ (c9R16 ++ (c9R17 ++ (c9R18 ++ (c9R19 ++ (c9R20 ++ (c9R21)))))))))))))))))), c9SnapLit22) :=
    jsPrngRawChunk_add2 32 576 c9SnapLit3 c9SnapLit4 c9SnapLit22 c9R3 _ c9_chunk3 h4
  have h2 : jsPrngRawChunk 640 c9SnapLit2 = (c9R2 ++ (c9R3 ++ (c9R4 ++ (c9R5 ++ (c9R6 ++ (c9R7 ++ (c9R8 ++ (c9R9 ++ (c9R10 ++ (c9R11 ++ (c9R12 ++ (c9R13 ++ (c9R14 ++ (c9R15 ++ (c9R16 ++ (c9R17 ++ (c9R18 ++ (c9R19 ++ (c9R20 ++ (c9R21))))))))))))))))))), c9SnapLit22) :=
    jsPrngRawChunk_add2 32 608 c9SnapLit2 c9SnapLit3 c9SnapLit22 c9R2 _ c9_chunk2 h3
  have h1 : jsPrngRawChunk 672 c9SnapLit1 = (c9R1 ++ (c9R2 ++ (c9R3 ++ (c9R4 ++ (c9R5 ++ (c9R6 ++ (c9R7 ++ (c9R8 ++ (c9R9 ++ (c9R10 ++ (c9R11 ++ (c9R12 ++ (c9R13 ++ (c9R14 ++ (c9R15 ++ (c9R16 ++ (c9R17 ++ (c9R18 ++ (c9R19 ++ (c9R20 ++ (c9R21)))))))))))))))))))), c9SnapLit22) :=
    jsPrngRawChunk_add2 32 640 c9SnapLit1 c9SnapLit2 c9SnapLit22 c9R1 _ c9_chunk1 h2
  have h0 : jsPrngRawChunk 704 c9SnapLit0 = (c9R0 ++ (c9R1 ++ (c9R2 ++ (c9R3 ++ (c9R4 ++ (c9R5 ++ (c9R6 ++ (c9R7 ++ (c9R8 ++ (c9R9 ++ (c9R10 ++ (c9R11 ++ (c9R12 ++ (c9R13 ++ (c9R14 ++ (c9R15 ++ (c9R16 ++ (c9R17 ++ (c9R18 ++ (c9R19 ++ (c9R20 ++ (c9R21))))))))))))))))))))), c9SnapLit22) :=
    jsPrngRawChunk_add2 32 672 c9SnapLit0 c9SnapLit1 c9SnapLit22 c9R0 _ c9_chunk0 h1
  rw [c9_seed_eq]
  exact h0

/-- C1: for every seeded stream (every seed) and every configuration, a
case returned by `generateCase` contains at least one clue with
`pointsTo` equal to the case's killer and `isRedHerring = false`, and is
therefore solvable. -/
theorem generateCase_solvable (ops : RngOps σ) (seedToState : String → σ)
    (fuelKiller fuelRetry : Nat) (config : CaseGeneratorConfig) (seed : String)
    (c : Case)
    (h : generateCase ops seedToState fuelKiller config fuelRetry seed = some c) :
    (∃ cl ∈ c.clues, cl.pointsTo = some c.killer ∧ cl.isRedHerring = false) ∧
    isCaseSolvable c = true := by
  obtain ⟨hsolv, seed2, sfin, hone⟩ :=
    generateCase_inv ops seedToState fuelKiller config fuelRetry seed c h
  obtain ⟨v, k, o, _, _, _, _, _, _, _, _, _, hcount, _⟩ :=
    generateCaseOnce_spec ops fuelKiller seed2 config c (seedToState seed2) sfin hone
  refine ⟨?_, hsolv⟩
  have hpos : 0 < c.clues.countP
      (fun cl => decide (cl.pointsTo = some c.killer) && !cl.isRedHerring) := by
    rw [show c.clues.countP
      (fun cl => decide (cl.pointsTo = some c.killer) && !cl.isRedHerring) =
        killerClueCount c.killer c.clues from rfl, hcount]
    decide
  obtain ⟨cl, hcl, hp⟩ := List.countP_pos_iff.mp hpos
  refine ⟨cl, hcl, ?_, ?_⟩
  · have := (Bool.and_eq_true _ _).mp hp
    exact of_decide_eq_true this.1
  · have := (Bool.and_eq_true _ _).mp hp
    simpa using this.2

/-- C2: two runs of `generateCase` over the same seeded stream (the same
seed) agree on the killer, victim, motive, weapon and on the list lengths
of suspects, clues, relationships and alibis.  In this embedding every
draw of the generator is a function of the seeded stream and of nothing
else, so the two runs coincide. -/
theorem generateCase_deterministic (ops : RngOps σ) (seedToState : String → σ)
    (fuelKiller fuelRetry : Nat) (config : CaseGeneratorConfig) (seed : String)
    (c1 c2 : Case)
    (h1 : generateCase ops seedToState fuelKiller config fuelRetry seed = some c1)
    (h2 : generateCase ops seedToState fuelKiller config fuelRetry seed = some c2) :
    c1.killer = c2.killer ∧ c1.victim = c2.victim ∧ c1.motive = c2.motive ∧
    c1.weapon = c2.weapon ∧ c1.suspects.length = c2.suspects.length ∧
    c1.clues.length = c2.clues.length ∧
    c1.relationships.length = c2.relationships.length ∧
    c1.alibis.length = c2.alibis.length := by
  have hc : c1 = c2 := Option.some.inj (h1.symm.trans h2)
  subst hc
  exact ⟨rfl, rfl, rfl, rfl, rfl, rfl, rfl, rfl⟩

/-- C3: in every generated case, an alibi bearing the killer's id is
false and unverifiable (one exists), every alibi bearing another id is
truthful and verifiable, and every living non-killer suspect has such a
truthful alibi. -/
theorem generateCase_alibi_flags (ops : RngOps σ) (seedToState : String → σ)
    (fuelKiller fuelRetry : Nat) (config : CaseGeneratorConfig) (seed : String)
    (c : Case)
    (h : generateCase ops seedToState fuelKiller config fuelRetry seed = some c) :
    (∃ a ∈ c.alibis, a.suspectId = c.killer ∧ a.isFalse = true ∧
      a.isVerifiable = false) ∧
    (∀ a ∈ c.alibis, a.suspectId ≠ c.killer →
      a.isFalse = false ∧ a.isVerifiable = true) ∧
    (∀ sp ∈ c.suspects, sp.isVictim = false → sp.isKiller = false →
      ∃ a ∈ c.alibis, a.suspectId = sp.id ∧ a.isFalse = false ∧
        a.isVerifiable = true) := by
  obtain ⟨_, seed2, sfin, hone⟩ :=
    generateCase_inv ops seedToState fuelKiller config fuelRetry seed c h
  obtain ⟨v, k, o, hsus, hvid, hkid, hvflag, hkvflag, hkflag, hoth, _, _, _,
    hex, hall, hothAlibi⟩ :=
    generateCaseOnce_spec ops fuelKiller seed2 config c (seedToState seed2) sfin hone
  refine ⟨hex, ?_, ?_⟩
  · intro a ha hne
    rcases hall a ha with ⟨he, _, _⟩ | ⟨sp, hsp, hid, hf, hv⟩
    · exact absurd he hne
    · exact ⟨hf, hv⟩
  · intro sp hsp hnv hnk
    rw [hsus] at hsp
    rcases List.mem_cons.mp hsp with he | hsp2
    · rw [he] at hnv
      rw [hvflag] at hnv
      exact absurd hnv (by simp)
    rcases List.mem_cons.mp hsp2 with he | hsp3
    · rw [he] at hnk
      rw [hkflag] at hnk
      exact absurd hnk (by simp)
    · obtain ⟨a, ha, hid, hf, hv⟩ := hothAlibi sp hsp3
      exact ⟨a, ha, hid, hf, hv⟩

/-- C4 (amended): for every seeded stream, configuration and difficulty,
a generated case has exactly 4 honest clues pointing at the killer — the
fixed base clues — because the difficulty-derived minimum
(`minCluesPointingToKiller` easy 5 / medium 4 / hard 3) is forwarded to
the clue generator but never read there; difficulty only changes the
red-herring count. -/
theorem generateCase_killer_clue_count (ops : RngOps σ) (seedToState : String → σ)
    (fuelKiller fuelRetry : Nat) (config : CaseGeneratorConfig) (seed : String)
    (c : Case)
    (h : generateCase ops seedToState fuelKiller config fuelRetry seed = some c) :
    killerClueCount c.killer c.clues = 4 := by
  obtain ⟨_, seed2, sfin, hone⟩ :=
    generateCase_inv ops seedToState fuelKiller config fuelRetry seed c h
  obtain ⟨v, k, o, _, _, _, _, _, _, _, _, _, hcount, _⟩ :=
    generateCaseOnce_spec ops fuelKiller seed2 config c (seedToState seed2) sfin hone
  exact hcount

/-- C5: contrary to the spec, no location of a generated case carries
`isCrimeScene = true` — the flagged copy produced by `selectCrimeScene`
is dropped by the orchestrator — even though the case's `crimeScene`
field does match the id of one of its locations. -/
theorem generateCase_no_crime_scene_flag (ops : RngOps σ) (seedToState : String → σ)
    (fuelKiller fuelRetry : Nat) (config : CaseGeneratorConfig) (seed : String)
    (c : Case)
    (h : generateCase ops seedToState fuelKiller config fuelRetry seed = some c) :
    c.locations.countP (·.isCrimeScene) = 0 ∧
    ∃ l ∈ c.locations, l.id = c.crimeScene := by
  obtain ⟨_, seed2, sfin, hone⟩ :=
    generateCase_inv ops seedToState fuelKiller config fuelRetry seed c h
  obtain ⟨v, k, o, _, _, _, _, _, _, _, hlocs, hcsmem, _⟩ :=
    generateCaseOnce_spec ops fuelKiller seed2 config c (seedToState seed2) sfin hone
  refine ⟨List.countP_eq_zero.mpr ?_, hcsmem⟩
  intro l hl
  simp [hlocs l hl]

/-- C6: over any case produced by `generateCase` and any testimony map
produced by `generateTestimonies` on it, every lying statement of a
living non-killer suspect is about relationships and stems from a
non-public (secret) relationship of that suspect with the victim; in
particular a non-killer's alibi, observation and self statements are
never lies, and each non-killer has at most one lying statement. -/
theorem generateTestimonies_lies_confined {σ2 : Type} (ops : RngOps σ)
    (ops2 : RngOps σ2) (seedToState : String → σ) (fuelKiller fuelRetry : Nat)
    (config : CaseGeneratorConfig) (seed : String) (c : Case)
    (tms : List (SuspectId × Testimony)) (s2 sfin : σ2)
    (hcase : generateCase ops seedToState fuelKiller config fuelRetry seed = some c)
    (htms : generateTestimonies ops2 c s2 = some (tms, sfin)) :
    ∀ p ∈ tms, p.1 ≠ c.killer →
      (∀ st ∈ p.2.statements, st.isLie = true →
        st.topic = .relationships ∧ ∃ r ∈ c.relationships,
          (r.fromId = p.1 ∨ r.toId = p.1) ∧
          (r.toId = c.victim ∨ r.fromId = c.victim) ∧
          r.isPublicKnowledge = false) ∧
      p.2.statements.countP (·.isLie) ≤ 1 := by
  obtain ⟨_, seed2, sfin2, hone⟩ :=
    generateCase_inv ops seedToState fuelKiller config fuelRetry seed c hcase
  obtain ⟨v, k, o, hsus, hvid, hkid, hvflag, hkvflag, hkflag, hoth, _, _, _,
    _, hall, _⟩ :=
    generateCaseOnce_spec ops fuelKiller seed2 config c (seedToState seed2) sfin2 hone
  have hvfind : ∀ v2, c.suspects.find? (fun sp => sp.isVictim) = some v2 →
      v2.id = c.victim := by
    intro v2 hfind2
    rw [hsus, List.find?_cons_of_pos _ (by simp [hvflag])] at hfind2
    rw [← Option.some.inj hfind2, hvid]
  have halibis : ∀ sid, sid ≠ c.killer → ∀ a ∈ c.alibis, a.suspectId = sid →
      a.isFalse = false := by
    intro sid hsid a ha hid
    rcases hall a ha with ⟨he, _, _⟩ | ⟨sp, _, _, hf, _⟩
    · rw [hid] at he
      exact absurd he hsid
    · exact hf
  have hliving : ∀ sp ∈ c.suspects.filter (fun s2 => !s2.isVictim),
      sp.id ≠ c.killer → sp.isKiller = false := by
    intro sp hsp hne
    have hmemsus := List.mem_of_mem_filter hsp
    have hnv : sp.isVictim = false := by
      simpa using List.of_mem_filter hsp
    rw [hsus] at hmemsus
    rcases List.mem_cons.mp hmemsus with he | hsp2
    · rw [he] at hnv
      rw [hvflag] at hnv
      exact absurd hnv (by simp)
    rcases List.mem_cons.mp hsp2 with he | hsp3
    · rw [he, ← hkid] at hne
      exact absurd rfl hne
    · exact ((hoth sp hsp3).2.1)
  exact generateTestimoniesGo_spec ops2 c hvfind halibis _ tms s2 sfin hliving htms

section

attribute [local semireducible] Rat.mul Rat.add Rat.sub Rat.inv

set_option maxRecDepth 200000 in
/-- A concrete successful run certifying `generateCase_solvable` applies
(its hypothesis is satisfiable). -/
theorem generateCase_solvable_witness :
    (∃ cl ∈ (exampleCase defaultConfig).clues,
        cl.pointsTo = some (exampleCase defaultConfig).killer ∧
        cl.isRedHerring = false) ∧
    isCaseSolvable (exampleCase defaultConfig) = true :=
  generateCase_solvable exampleOps (fun _ => 0) 9 1 defaultConfig "w"
    (exampleCase defaultConfig) (by rfl)

set_option maxRecDepth 200000 in
/-- A concrete double run certifying `generateCase_deterministic`
applies. -/
theorem generateCase_deterministic_witness :
    (exampleCase defaultConfig).killer = (exampleCase defaultConfig).killer ∧
    (exampleCase defaultConfig).victim = (exampleCase defaultConfig).victim ∧
    (exampleCase defaultConfig).motive = (exampleCase defaultConfig).motive ∧
    (exampleCase defaultConfig).weapon = (exampleCase defaultConfig).weapon ∧
    (exampleCase defaultConfig).suspects.length =
      (exampleCase defaultConfig).suspects.length ∧
    (exampleCase defaultConfig).clues.length =
      (exampleCase defaultConfig).clues.length ∧
    (exampleCase defaultConfig).relationships.length =
      (exampleCase defaultConfig).relationships.length ∧
    (exampleCase defaultConfig).alibis.length =
      (exampleCase defaultConfig).alibis.length :=
  generateCase_deterministic exampleOps (fun _ => 0) 9 1 defaultConfig "w"
    (exampleCase defaultConfig) (exampleCase defaultConfig) (by rfl) (by rfl)

set_option maxRecDepth 200000 in
/-- A concrete successful run certifying `generateCase_alibi_flags`
applies. -/
theorem generateCase_alibi_flags_witness :
    (∃ a ∈ (exampleCase defaultConfig).alibis,
        a.suspectId = (exampleCase defaultConfig).killer ∧ a.isFalse = true ∧
        a.isVerifiable = false) ∧
    (∀ a ∈ (exampleCase defaultConfig).alibis,
        a.suspectId ≠ (exampleCase defaultConfig).killer →
        a.isFalse = false ∧ a.isVerifiable = true) ∧
    (∀ sp ∈ (exampleCase defaultConfig).suspects, sp.isVictim = false →
        sp.isKiller = false →
        ∃ a ∈ (exampleCase defaultConfig).alibis, a.suspectId = sp.id ∧
          a.isFalse = false ∧ a.isVerifiable = true) :=
  generateCase_alibi_flags exampleOps (fun _ => 0) 9 1 defaultConfig "w"
    (exampleCase defaultConfig) (by rfl)

set_option maxRecDepth 200000 in
/-- C4 counterexample to the frozen claim: a concrete easy-difficulty
run succeeds yet produces exactly 4 honest killer-pointing clues, not
the promised at-least-5. -/
theorem generateCase_easy_clue_counterexample :
    (exampleCaseRun ⟨6, .easy⟩).isSome = true ∧
    killerClueCount (exampleCase ⟨6, .easy⟩).killer
      (exampleCase ⟨6, .easy⟩).clues = 4 ∧
    ¬ 5 ≤ killerClueCount (exampleCase ⟨6, .easy⟩).killer
      (exampleCase ⟨6, .easy⟩).clues := by
  refine ⟨by decide, by decide, by decide⟩

set_option maxRecDepth 200000 in
/-- A concrete hard-difficulty run certifying
`generateCase_killer_clue_count` applies. -/
theorem generateCase_killer_clue_count_witness :
    killerClueCount (exampleCase ⟨6, .hard⟩).killer
      (exampleCase ⟨6, .hard⟩).clues = 4 :=
  generateCase_killer_clue_count exampleOps (fun _ => 0) 9 1 ⟨6, .hard⟩ "w"
    (exampleCase ⟨6, .hard⟩) (by rfl)

set_option maxRecDepth 200000 in
/-- A concrete testimony run certifying
`generateTestimonies_lies_confined` applies. -/
theorem generateTestimonies_lies_confined_witness :
    exampleTestimoniesRun.isSome = true ∧
    ∀ p ∈ (exampleTestimoniesRun.getD ([], 0)).1,
      p.1 ≠ (exampleCase defaultConfig).killer →
      (∀ st ∈ p.2.statements, st.isLie = true →
        st.topic = .relationships ∧
        ∃ r ∈ (exampleCase defaultConfig).relationships,
          (r.fromId = p.1 ∨ r.toId = p.1) ∧
          (r.toId = (exampleCase defaultConfig).victim ∨
            r.fromId = (exampleCase defaultConfig).victim) ∧
          r.isPublicKnowledge = false) ∧
      p.2.statements.countP (·.isLie) ≤ 1 :=
  ⟨by rfl,
    generateTestimonies_lies_confined exampleOps exampleOps (fun _ => 0) 9 1
      defaultConfig "w" (exampleCase defaultConfig)
      (exampleTestimoniesRun.getD ([], 0)).1 0 (exampleTestimoniesRun.getD ([], 0)).2
      (by rfl) (by rfl)⟩

/-- C9 (amended): after START_GAME and START_INTERROGATION on any
suspect of any case, three NEXT_STATEMENT dispatches always leave
`currentStatementIndex = 3`: the reducer increments without clamping
(and, being a total function, throws nothing).  The claimed equality
with `statements.length - 1` therefore holds precisely for suspects
whose testimony has exactly four statements, which fails for seed
"test-reducer-seed" (see the counterexample). -/
theorem nextStatement_unclamped (c : Case) (sp : Suspect)
    (_hmem : sp ∈ c.suspects) (_hnv : sp.isVictim = false) :
    interrogationIndexAfter3 c sp.id = some 3 := rfl

set_option maxRecDepth 200000 in
/-- A concrete instantiation certifying `nextStatement_unclamped`
applies. -/
theorem nextStatement_unclamped_witness :
    interrogationIndexAfter3 (exampleCase defaultConfig)
      ((exampleCase defaultConfig).suspects.getD 1 fallbackSuspect).id = some 3 :=
  nextStatement_unclamped (exampleCase defaultConfig)
    ((exampleCase defaultConfig).suspects.getD 1 fallbackSuspect)
    (by decide) (by decide)

set_option maxRecDepth 200000 in
/-- C9 counterexample: over the bit-exact seedrandom stream of seed
"test-reducer-seed" — the first conjunct certifies that the table driving
the run is that generator's first 704 outputs — the generated case
contains living suspect 1 whose testimony has only 3 statements (it has
no relationship with the victim), so three NEXT_STATEMENT dispatches
leave the index at 3, not at `statements.length - 1 = 2`: the index is
not clamped at the last statement. -/
theorem nextStatement_clamp_counterexample :
    jsPrngRawChunk 704 (jsSeedState "test-reducer-seed") =
      (c9RawTable, c9SnapLit22) ∧ c9Refutes = true :=
  ⟨c9_stream_eq, by decide⟩

set_option maxRecDepth 200000 in
/-- A concrete successful run certifying
`generateCase_no_crime_scene_flag` applies. -/
theorem generateCase_no_crime_scene_flag_witness :
    (exampleCase defaultConfig).locations.countP (·.isCrimeScene) = 0 ∧
    ∃ l ∈ (exampleCase defaultConfig).locations,
      l.id = (exampleCase defaultConfig).crimeScene :=
  generateCase_no_crime_scene_flag exampleOps (fun _ => 0) 9 1 defaultConfig "w"
    (exampleCase defaultConfig) (by rfl)

end

end BlackRabbit
